import Mathlib

/-!
Verification development for the `lms_synlect` endpoint layer
(`lms_synlect/api/auth.py` and `lms_synlect/api/course.py`).

The Python endpoints are shallowly embedded as Lean functions over an
explicit framework state `St` that models the parts of the Frappe host
the code touches: the key/value cache (with TTLs), the document tables
(User, LMS Course, Course Chapter, Course Lesson, LMS Enrollment,
LMS Course Progress, live classes, reviews), the session user, the
login manager, the entropy source behind `secrets.token_urlsafe`, the
developer-mode flag and the error log.  Code that can raise is embedded
in `Except (String × St)`: an error carries the exception string and the
state at the moment of the raise, and each endpoint wraps its body with
`pyTry`, mirroring the single try/except of the source.

Modelling conventions:
* optional/variable schema fields (`hasattr` checks on documents and
  key-presence on `frappe.get_all` rows) are `Option` fields; `hasattr`
  is `Option.isSome`;
* `json.dumps`/`json.loads` on cache blobs are modelled as the identity
  injection into the cache-value type `CVal` (JSON round-tripping is
  faithful for the shapes this code stores);
* machine floats are embedded as `Rat`; `frappe.utils.cint`/`flt` on
  string inputs parse only integer literals (the claims never exercise
  fractional string parsing);
* JSON `null` values inside otherwise-present keys are not modelled
  (an absent key and a `null` value both map to `none`).
-/

/-- Python truthiness of an optional string (`None` and `""` are falsy). -/
def truthyS : Option String → Bool
  | none => false
  | some s => s != ""

/-- Python `a or b` on optional strings: `b` when `a` is falsy. -/
def pyOrS (a b : Option String) : Option String :=
  if truthyS a then a else b

/-- Python `a or b` on integers: `b` when `a == 0`. -/
def pyOrInt (a b : Int) : Int :=
  if a != 0 then a else b

/-- A scalar request parameter as it arrives at a whitelisted endpoint:
absent, boolean, integer, number or string. -/
inductive PyScalar where
  | none
  | b (v : Bool)
  | i (v : Int)
  | r (v : Rat)
  | s (v : String)
deriving DecidableEq

/-- Truncation of a rational toward zero, as Python `int(float)` does. -/
def ratTrunc (q : Rat) : Int :=
  if q < 0 then -((-q).floor) else q.floor

/-- `frappe.utils.cint`: coerce to int, `0` on failure. -/
def cint : PyScalar → Int
  | .none => 0
  | .b v => if v then 1 else 0
  | .i n => n
  | .r q => ratTrunc q
  | .s v => (v.toInt?).getD 0

/-- `frappe.utils.flt`: coerce to float, `0` on failure. -/
def flt : PyScalar → Rat
  | .none => 0
  | .b v => if v then 1 else 0
  | .i n => (n : Rat)
  | .r q => q
  | .s v => ((v.toInt?).map (fun n => (n : Rat))).getD 0

/-- Python truthiness of a scalar parameter. -/
def pyTruthy : PyScalar → Bool
  | .none => false
  | .b v => v
  | .i n => n != 0
  | .r q => q != 0
  | .s v => v != ""

/-- Python `bool(x)` of a scalar parameter. -/
def pyBool (x : PyScalar) : Bool := pyTruthy x

/-- Python `full_name.split(" ", 1)`: split at the first space only. -/
def pySplit1 (s : String) : List String :=
  match s.splitOn " " with
  | [] => []
  | [x] => [x]
  | x :: rest => [x, String.intercalate " " rest]

/-- `needle in hay` for lists (contiguous sublist test). -/
def listInfixOf [BEq α] (needle : List α) : List α → Bool
  | [] => needle.isEmpty
  | x :: xs => needle.isPrefixOf (x :: xs) || listInfixOf needle xs

/-- Python `needle in hay` on strings. -/
def pyIn (needle hay : String) : Bool :=
  listInfixOf needle.toList hay.toList

/-- Python list slicing `l[start:stop]` with int bounds (negative indices
count from the end, out-of-range bounds are clamped). -/
def pySlice (l : List α) (start stop : Int) : List α :=
  let n : Int := l.length
  let s : Nat := (if start < 0 then max (n + start) 0 else min start n).toNat
  let e : Nat := (if stop < 0 then max (n + stop) 0 else min stop n).toNat
  (l.take e).drop s

/-- Round-half-to-even of a rational to an integer (Python `round`). -/
def roundHE (q : Rat) : Int :=
  let f := q.floor
  let r := q - (f : Rat)
  if r < 1/2 then f
  else if r > 1/2 then f + 1
  else if f % 2 = 0 then f else f + 1

/-- Python `round(q, 1)`. -/
def pyRound1 (q : Rat) : Rat :=
  (roundHE (q * 10) : Rat) / 10

/-- The base64url alphabet used by `secrets.token_urlsafe`. -/
def b64chars : String :=
  "ABCDEFGHIJKLMNOPQRSTUVWXYZabcdefghijklmnopqrstuvwxyz0123456789-_"

/-- Character of the base64url alphabet at an index. -/
def b64c (n : Nat) : Char := b64chars.toList.getD n 'A'

/-- Unpadded base64url encoding of a byte list. -/
def b64encode : List Nat → List Char
  | [] => []
  | [a] => [b64c (a / 4 % 64), b64c (a % 4 * 16)]
  | [a, b] => [b64c (a / 4 % 64), b64c (a % 4 * 16 + b / 16 % 16), b64c (b % 16 * 4)]
  | a :: b :: c :: rest =>
      b64c (a / 4 % 64) :: b64c (a % 4 * 16 + b / 16 % 16) ::
      b64c (b % 16 * 4 + c / 64 % 4) :: b64c (c % 64) :: b64encode rest

/-- Normalise an entropy block to exactly 32 bytes. -/
def bytes32 (l : List Nat) : List Nat :=
  (l ++ List.replicate 32 0).take 32

/-- `secrets.token_urlsafe(32)`: base64url encoding of 32 random bytes. -/
def tokenUrlsafe (bytes : List Nat) : String :=
  ⟨b64encode bytes⟩

/-! ## Data model: documents of the host store that the endpoints read/write -/

/-- A `User` document (the columns this code touches). -/
structure UserRec where
  name : String
  email : String
  full_name : String
  user_image : Option String
  enabled : Int
  creation : String
deriving DecidableEq

/-- An `LMS Enrollment` document. -/
structure EnrollRec where
  member : String
  course : String
deriving DecidableEq

/-- An `LMS Course` row as returned by `frappe.get_all(fields=["*"])`;
`Option` fields model schema-dependent columns. -/
structure CourseRec where
  name : String
  owner : String
  title : Option String
  short_introduction : Option String
  description : Option String
  image : Option String
  hero_image : Option String
  course_image : Option String
  instructor : Option String
  paid : Option Int
  course_price : Option Rat
  price : Option Rat
  category : Option String
  level : Option String
  difficulty : Option String
  video_link : Option String
  duration : Option String
  featured : Option Int
  is_featured : Option Int
  creation : String
  published : Option Int
deriving DecidableEq

/-- A `Course Chapter` document. -/
structure ChapterRec where
  name : String
  course : String
  title : String
  description : Option String
  idx : Int
deriving DecidableEq

/-- A `Course Lesson` document. -/
structure LessonRec where
  name : String
  chapter : String
  course : Option String
  title : String
  include_in_preview : Option Int
  idx : Int
  content : Option String := none
  video_url : Option String := none
  duration : Option String := none
  youtube_video_id : Option String := none
  quiz_id : Option String := none
deriving DecidableEq

/-- An `LMS Course Review` row. -/
structure ReviewRec where
  course : String
  rating : Rat
deriving DecidableEq

/-- Which optional columns the progress doctype's schema has
(`hasattr` checks in `save_progress`). -/
structure ProgressSchema where
  lesson : Bool
  chapter : Bool
  progress : Bool
  is_complete : Bool
  video_position : Bool
  notes : Bool
deriving DecidableEq

/-- An `LMS Course Progress` document. -/
structure ProgressRec where
  name : String
  course : String
  member : String
  lesson : Option String
  chapter : Option String
  progress : Option Rat
  is_complete : Option Int
  video_position : Option Int
  notes : Option String
deriving DecidableEq

/-- A live class row (`LMS Live Class` / `Live Class`). -/
structure LiveClassRec where
  name : String
  owner : String
  creation : String
  title : Option String
  class_title : Option String
  description : Option String
  course : Option String
  instructor : Option String
  start_time : Option Nat
  end_time : Option Nat
  duration : Option String
  status : Option String
  meeting_url : Option String
  zoom_link : Option String
  meeting_id : Option String
  recording_url : Option String
  max_participants : Option Int
  current_participants : Option Int
  is_recorded : Option Int
  record_session : Option Int
  agenda : Option String := none
  prerequisites : Option String := none
deriving DecidableEq

/-- The ad hoc progress blob `save_progress` stores in the cache. -/
structure ProgressData where
  user : String
  course_id : String
  lesson_id : Option String
  chapter_id : Option String
  progress_percent : Rat
  is_completed : Bool
  video_position : Int
  notes : String
  updated_at : String
deriving DecidableEq

/-- A value stored in the host cache by this code: a user string, a
JSON progress blob, or a JSON list of attendee user names. -/
inductive CVal where
  | s (v : String)
  | prog (p : ProgressData)
  | slist (l : List String)
deriving DecidableEq

/-- One cache entry: key, value and absolute expiry time. -/
structure CEntry where
  key : String
  val : CVal
  expiry : Nat
deriving DecidableEq

/-- The filters dict `get_courses` hands to `frappe.get_all("LMS Course")`. -/
structure CourseFilters where
  published : Option Int
  category : Option String
  levelField : Option (String × String)
  paid : Option Int
  instructorLike : Option String
  ownerLike : Option String
deriving DecidableEq

/-- The filters dict `get_live_classes` hands to `frappe.get_all`. -/
structure LCFilters where
  course : Option String
  instructor : Option String
  owner : Option String
  status : Option String
deriving DecidableEq

/-- An `LMS Category` document. -/
structure CatRec where
  name : String
  category_name : Option String
  title : Option String
deriving DecidableEq

/-- The filters dict `get_featured_courses` hands to `frappe.get_all`. -/
structure FeatFilters where
  featured : Option Int
  is_featured : Option Int
  published : Option Int
deriving DecidableEq

/-- The framework state visible to the embedded endpoints. -/
structure St where
  now : Nat
  nowStr : String
  nowDT : Nat
  cache : List CEntry
  users : List UserRec
  userRoles : String → List String
  rolesDefined : List String
  enrollments : List EnrollRec
  doctypes : List String
  hasColumn : String → String → Bool
  fetchCourses : CourseFilters → String → List CourseRec
  courses : List CourseRec
  chapters : List ChapterRec
  lessons : List LessonRec
  reviews : List ReviewRec
  progressRecs : List ProgressRec
  progressSchema : ProgressSchema
  liveClasses : List LiveClassRec
  fetchLive : LCFilters → List LiveClassRec
  session_user : String
  loginAuth : String → String → Option String
  resetRaises : String → Option String
  developer_mode : Bool
  entropy : Nat → List Nat
  entropyIdx : Nat
  errorLog : List (String × String)
  docCounter : Nat
  checkPasswordOk : String → String → Bool
  pwUpdates : List (String × String)
  catRecs : List CatRec
  fetchFeatured : FeatFilters → Int → List CourseRec

/-! ## Framework primitives -/

/-- `frappe.cache().set_value(k, v, expires_in_sec=ttl)`. -/
def cacheSet (st : St) (k : String) (v : CVal) (ttl : Nat) : St :=
  { st with cache := ⟨k, v, st.now + ttl⟩ :: st.cache.filter (fun e => e.key != k) }

/-- Raw lookup of a cache entry by key. -/
def cacheLookup (st : St) (k : String) : Option CEntry :=
  st.cache.find? (fun e => e.key == k)

/-- `frappe.cache().get_value(k)`: the stored value while not expired. -/
def cacheGet (st : St) (k : String) : Option CVal :=
  match cacheLookup st k with
  | some e => if st.now < e.expiry then some e.val else none
  | none => none

/-- `frappe.cache().delete_value(k)`. -/
def cacheDelete (st : St) (k : String) : St :=
  { st with cache := st.cache.filter (fun e => e.key != k) }

/-- `frappe.log_error(msg, title)`. -/
def logError (st : St) (msg title : String) : St :=
  { st with errorLog := (title, msg) :: st.errorLog }

/-- `frappe.db.exists("DocType", d)`. -/
def hasDoctype (st : St) (d : String) : Bool :=
  st.doctypes.contains d

/-- `frappe.get_doc("User", name)`: raises when the record is absent. -/
def getDocUser (st : St) (name : String) : Except String UserRec :=
  match st.users.find? (fun u => u.name == name) with
  | some u => .ok u
  | none => .error ("User " ++ name ++ " not found")

/-- `frappe.db.exists("User", name)`. -/
def userExists (st : St) (name : String) : Bool :=
  (st.users.find? (fun u => u.name == name)).isSome

/-- Advance the model clock (time passing between two requests). -/
def advanceTo (st : St) (t : Nat) : St :=
  { st with now := t }

/-- The uniform try/except wrapper: every endpoint runs its body and
maps an uncaught exception through its handler. -/
def pyTry (r : Except (String × St) (ρ × St)) (handler : String → St → ρ × St) : ρ × St :=
  match r with
  | .ok v => v
  | .error (e, st) => handler e st

/-! ## auth.py: request bodies and response envelopes -/

/-- The JSON body `login` parses from `frappe.request.data`. -/
structure LoginBody where
  email : Option String
  password : Option String
  rememberMe : Option Bool
deriving DecidableEq

/-- The JSON body `register` parses. -/
structure RegisterBody where
  fullName : Option String
  full_name : Option String
  email : Option String
  password : Option String
  confirmPassword : Option String
  confirm_password : Option String
  role : Option String
deriving DecidableEq

/-- The JSON body `refresh_token` parses. -/
structure RefreshBody where
  refreshToken : Option String
  refresh_token : Option String
deriving DecidableEq

/-- The JSON body `forgot_password` parses. -/
structure ForgotBody where
  email : Option String
deriving DecidableEq

/-- The user payload `get_user_data` builds for the frontend. -/
structure UserData where
  id : String
  email : String
  role : String
  firstName : String
  lastName : String
  fullName : String
  avatar : String
  isActive : Bool
  isVerified : Bool
  createdAt : String
  studentId : Option String
  instructorId : Option String
deriving DecidableEq

/-- The response envelope of `login` and `register`. -/
structure AuthRes where
  success : Bool
  user : Option UserData := none
  token : Option String := none
  refreshToken : Option String := none
  expiresIn : Option Int := none
  message : Option String := none
deriving DecidableEq

/-- The response envelope of `refresh_token`. -/
structure RefreshRes where
  success : Bool
  token : Option String := none
  refreshToken : Option String := none
  expiresIn : Option Int := none
  message : Option String := none
deriving DecidableEq

/-- The response envelope of `forgot_password`. -/
structure ForgotRes where
  success : Bool
  message : Option String := none
deriving DecidableEq

/-! ## auth.py: embedded functions -/

/-- `generate_api_token(user)`: draw a token from the entropy stream and
cache it under `api_token:<token>` for 3600 seconds. -/
def generate_api_token (st : St) (user : String) : String × St :=
  let token := tokenUrlsafe (bytes32 (st.entropy st.entropyIdx))
  let st := { st with entropyIdx := st.entropyIdx + 1 }
  let cache_key := "api_token:" ++ token
  (token, cacheSet st cache_key (.s user) 3600)

/-- `validate_api_token(token)`: the cached user, or `None` for an empty
token or a missing/expired entry. -/
def validate_api_token (st : St) (token : String) : Option CVal :=
  if token == "" then none
  else cacheGet st ("api_token:" ++ token)

/-- `get_user_data(user)`: reshape the `User` document for the frontend
(raises when the document is absent). -/
def get_user_data (st : St) (user : String) : Except String UserData :=
  match getDocUser st user with
  | .error e => .error e
  | .ok user_doc =>
    let roles := st.userRoles user
    let role :=
      if roles.contains "Course Creator" || roles.contains "Instructor" then "instructor"
      else if roles.contains "System Manager" || roles.contains "Administrator" then "admin"
      else "student"
    -- member_info is computed from LMS Enrollment in the source but unused
    let _member_info := st.enrollments.filter (fun e => e.member == user)
    let instructor_id := if role == "instructor" then some user else none
    let student_id := if role == "student" then some user else none
    let full_name := if user_doc.full_name != "" then user_doc.full_name else ""
    let name_parts := pySplit1 full_name
    let first_name := name_parts.headD ""
    let last_name := if name_parts.length > 1 then name_parts.getD 1 "" else ""
    .ok {
      id := user_doc.name
      email := user_doc.email
      role := role
      firstName := first_name
      lastName := last_name
      fullName := full_name
      avatar := user_doc.user_image.getD ""
      isActive := user_doc.enabled == 1
      isVerified := true
      createdAt := user_doc.creation
      studentId := student_id
      instructorId := instructor_id
    }

/-- The parameters `login` works with after merging the JSON body. -/
def mergeLoginArgs (email password : Option String) (remember_me : Bool)
    (body : Option LoginBody) : Option String × Option String × Bool :=
  if !truthyS email then
    match body with
    | some d => (d.email, d.password, d.rememberMe.getD false)
    | none => (email, password, remember_me)
  else (email, password, remember_me)

/-- Body of `login` (inside the try). -/
def loginBody (st : St) (email password : Option String) (remember_me : Bool)
    (body : Option LoginBody) : Except (String × St) (AuthRes × St) :=
  let (email, password, remember_me) := mergeLoginArgs email password remember_me body
  if !truthyS email || !truthyS password then
    .ok ({ success := false, message := some "Email and password are required" }, st)
  else
    match st.loginAuth (email.getD "") (password.getD "") with
    | none =>
      .ok ({ success := false, message := some "Invalid email or password" }, st)
    | some user =>
      let st := { st with session_user := user }
      let (token, st) := generate_api_token st user
      let refresh_tok := tokenUrlsafe (bytes32 (st.entropy st.entropyIdx))
      let st := { st with entropyIdx := st.entropyIdx + 1 }
      let refresh_expiry := if remember_me then 86400 * 7 else 86400
      let st := cacheSet st ("refresh_token:" ++ refresh_tok) (.s user) refresh_expiry
      match get_user_data st user with
      | .error e => .error (e, st)
      | .ok user_data =>
        .ok ({ success := true
               user := some user_data
               token := some token
               refreshToken := some refresh_tok
               expiresIn := some 3600
               message := some "Login successful" }, st)

/-- `login(email, password, remember_me)`. -/
def login (st : St) (email password : Option String) (remember_me : Bool)
    (body : Option LoginBody) : AuthRes × St :=
  pyTry (loginBody st email password remember_me body) (fun e st =>
    ({ success := false, message := some "An error occurred during login" },
     logError st ("Login error: " ++ e) "Auth API"))

/-- `user.add_roles(role)`: raises when the `Role` document is absent. -/
def addRole (st : St) (user role : String) : Except String St :=
  if st.rolesDefined.contains role then
    .ok { st with
      userRoles := fun u => if u == user then role :: st.userRoles u else st.userRoles u }
  else .error ("Could not find Role: " ++ role)

/-- The full name frappe derives for a new `User` document. -/
def mkFullName (first last : String) : String :=
  if last == "" then first else first ++ " " ++ last

/-- The effective parameters of `register` after merging the JSON body. -/
structure RegArgs where
  full_name : Option String
  email : Option String
  password : Option String
  confirm_password : Option String
  role : String
deriving DecidableEq

/-- The parameters `register` works with after merging the JSON body. -/
def mergeRegisterArgs (full_name email password confirm_password : Option String)
    (role : String) (body : Option RegisterBody) : RegArgs :=
  if !truthyS email then
    match body with
    | some d =>
      ⟨pyOrS d.fullName d.full_name, d.email, d.password,
       pyOrS d.confirmPassword d.confirm_password, d.role.getD "student"⟩
    | none => ⟨full_name, email, password, confirm_password, role⟩
  else ⟨full_name, email, password, confirm_password, role⟩

/-- Body of `register` (inside the try). -/
def registerBody (st : St) (full_name0 email0 password0 confirm_password0 : Option String)
    (role0 : String) (body : Option RegisterBody) : Except (String × St) (AuthRes × St) :=
  let m := mergeRegisterArgs full_name0 email0 password0 confirm_password0 role0 body
  let full_name := m.full_name
  let email := m.email
  let password := m.password
  let confirm_password := m.confirm_password
  let role := m.role
  if !(truthyS full_name && truthyS email && truthyS password) then
    .ok ({ success := false, message := some "Full name, email, and password are required" }, st)
  else if password != confirm_password then
    .ok ({ success := false, message := some "Passwords do not match" }, st)
  else if (password.getD "").length < 8 then
    .ok ({ success := false, message := some "Password must be at least 8 characters long" }, st)
  else if userExists st (email.getD "") then
    .ok ({ success := false, message := some "An account with this email already exists" }, st)
  else
    let em := email.getD ""
    let name_parts := pySplit1 (full_name.getD "")
    let first_name := name_parts.headD ""
    let last_name := if name_parts.length > 1 then name_parts.getD 1 "" else ""
    let new_user : UserRec :=
      { name := em, email := em, full_name := mkFullName first_name last_name
        user_image := none, enabled := 1, creation := st.nowStr }
    let st := { st with users := st.users ++ [new_user] }
    let roleStep : Except String St :=
      if role == "instructor" then addRole st em "Course Creator"
      else if st.rolesDefined.contains "LMS Student" then addRole st em "LMS Student"
      else .ok st
    match roleStep with
    | .error e => .error (e, st)
    | .ok st =>
      let st := { st with session_user := em }
      let (token, st) := generate_api_token st em
      let refresh_tok := tokenUrlsafe (bytes32 (st.entropy st.entropyIdx))
      let st := { st with entropyIdx := st.entropyIdx + 1 }
      let st := cacheSet st ("refresh_token:" ++ refresh_tok) (.s em) 86400
      match get_user_data st em with
      | .error e => .error (e, st)
      | .ok user_data =>
        .ok ({ success := true
               user := some user_data
               token := some token
               refreshToken := some refresh_tok
               expiresIn := some 3600
               message := some "Registration successful" }, st)

/-- `register(full_name, email, password, confirm_password, role)`. -/
def register (st : St) (full_name email password confirm_password : Option String)
    (role : String) (body : Option RegisterBody) : AuthRes × St :=
  pyTry (registerBody st full_name email password confirm_password role body) (fun e st =>
    ({ success := false
       message := some (if st.developer_mode then e
                        else "An error occurred during registration") },
     logError st ("Registration error: " ++ e) "Auth API"))

/-- The effective refresh token after merging the JSON body. -/
def mergeRefreshArg (refresh_tok : Option String) (body : Option RefreshBody) : Option String :=
  if !truthyS refresh_tok then
    match body with
    | some d => pyOrS d.refreshToken d.refresh_token
    | none => refresh_tok
  else refresh_tok

/-- Body of `refresh_token` (inside the try). -/
def refreshTokenBody (st : St) (refresh_tok : Option String)
    (body : Option RefreshBody) : Except (String × St) (RefreshRes × St) :=
  let refresh_tok := mergeRefreshArg refresh_tok body
  if !truthyS refresh_tok then
    .ok ({ success := false, message := some "Refresh token is required" }, st)
  else
    let cache_key := "refresh_token:" ++ refresh_tok.getD ""
    match cacheGet st cache_key with
    | some (.s user) =>
      if user == "" then
        .ok ({ success := false, message := some "Invalid or expired refresh token" }, st)
      else
        let st := cacheDelete st cache_key
        let (new_token, st) := generate_api_token st user
        let new_refresh := tokenUrlsafe (bytes32 (st.entropy st.entropyIdx))
        let st := { st with entropyIdx := st.entropyIdx + 1 }
        let st := cacheSet st ("refresh_token:" ++ new_refresh) (.s user) 86400
        .ok ({ success := true
               token := some new_token
               refreshToken := some new_refresh
               expiresIn := some 3600
               message := some "Token refreshed successfully" }, st)
    | _ =>
      .ok ({ success := false, message := some "Invalid or expired refresh token" }, st)

/-- `refresh_token(refresh_token)`. -/
def refresh_token (st : St) (refresh_tok : Option String)
    (body : Option RefreshBody) : RefreshRes × St :=
  pyTry (refreshTokenBody st refresh_tok body) (fun e st =>
    ({ success := false, message := some "An error occurred while refreshing token" },
     logError st ("Token refresh error: " ++ e) "Auth API"))

/-- The effective email after merging the JSON body. -/
def mergeForgotArg (email : Option String) (body : Option ForgotBody) : Option String :=
  if !truthyS email then
    match body with
    | some d => d.email
    | none => email
  else email

/-- Body of `forgot_password` (inside the try). -/
def forgotPasswordBody (st : St) (email : Option String)
    (body : Option ForgotBody) : Except (String × St) (ForgotRes × St) :=
  let email := mergeForgotArg email body
  if !truthyS email then
    .ok ({ success := false, message := some "Email is required" }, st)
  else if !userExists st (email.getD "") then
    .ok ({ success := true
           message := some "If an account with this email exists, you will receive a password reset link" }, st)
  else
    match st.resetRaises (email.getD "") with
    | some e => .error (e, st)
    | none =>
      .ok ({ success := true
             message := some "If an account with this email exists, you will receive a password reset link" }, st)

/-- `forgot_password(email)`. -/
def forgot_password (st : St) (email : Option String)
    (body : Option ForgotBody) : ForgotRes × St :=
  pyTry (forgotPasswordBody st email body) (fun e st =>
    ({ success := false, message := some "An error occurred while processing your request" },
     logError st ("Forgot password error: " ++ e) "Auth API"))

/-! ## course.py: payload shapes -/

/-- Python `x or ""` on an optional string field value. -/
def strOr (a : Option String) : String :=
  if truthyS a then a.getD "" else ""

/-- Truthiness of an optional integer field value. -/
def truthyOI (a : Option Int) : Bool :=
  (a.getD 0) != 0

/-- The instructor payload built for courses and live classes. -/
structure InstructorInfo where
  id : String
  name : String
  avatar : String
deriving DecidableEq

/-- The course payload `format_course_for_frontend` builds. -/
structure FormattedCourse where
  id : String
  title : String
  slug : String
  description : String
  image : String
  instructor : InstructorInfo
  category : String
  price : Rat
  originalPrice : Rat
  rating : Rat
  reviewCount : Nat
  level : String
  duration : String
  lessons : Nat
  students : Nat
  isFree : Bool
  isFeatured : Bool
  createdAt : String
  published : PyScalar
deriving DecidableEq

/-- The arguments of `get_courses` (scalars as received by the route). -/
structure CoursesArgs where
  category : Option String := none
  level : Option String := none
  instructor : Option String := none
  price_type : Option String := none
  min_price : PyScalar := .none
  max_price : PyScalar := .none
  rating : PyScalar := .none
  search : Option String := none
  sort_by : Option String := none
  page : PyScalar := .i 1
  page_size : PyScalar := .i 10
deriving DecidableEq

/-- The JSON body `get_courses` parses (camelCase keys; `none` = key absent). -/
structure CoursesBody where
  category : Option String := none
  level : Option String := none
  instructor : Option String := none
  priceType : Option String := none
  minPrice : Option PyScalar := none
  maxPrice : Option PyScalar := none
  rating : Option PyScalar := none
  search : Option String := none
  sortBy : Option String := none
  page : Option PyScalar := none
  pageSize : Option PyScalar := none
deriving DecidableEq

/-- The response envelope of `get_courses` (`none` = key absent). -/
structure CoursesRes where
  success : Bool
  courses : Option (List FormattedCourse) := none
  totalCount : Option Nat := none
  pageSize : Option Int := none
  currentPage : Option Int := none
  totalPages : Option Int := none
  message : Option String := none
deriving DecidableEq

/-- The response envelope of `save_progress`. -/
structure SaveProgressRes where
  success : Bool
  message : Option String := none
deriving DecidableEq

/-- The per-lesson progress payload of the doctype-backed `get_progress`. -/
structure LessonOut where
  lessonId : String
  progressPercent : Rat
  isCompleted : Bool
  videoPosition : Int
  notes : String
deriving DecidableEq

/-- One element of the doctype-backed course-level progress list. -/
structure DocAggItem where
  lessonId : Option String
  progressPercent : Rat
  isCompleted : Bool
  videoPosition : Int
deriving DecidableEq

/-- The cache-backed course-level progress payload. -/
structure CacheAgg where
  courseId : String
  overallProgress : Rat
  completedLessons : Nat
  totalLessons : Nat
  lessonProgress : List ProgressData
deriving DecidableEq

/-- The doctype-backed course-level progress payload. -/
structure DocAgg where
  courseId : String
  overallProgress : Rat
  completedLessons : Nat
  totalLessons : Nat
  lessonProgress : List DocAggItem
deriving DecidableEq

/-- The `progress` payload of `get_progress`, one shape per code path. -/
inductive ProgressPayload where
  | blob (p : ProgressData)
  | lessonOut (l : LessonOut)
  | aggCache (c : CacheAgg)
  | aggDoc (c : DocAgg)
deriving DecidableEq

/-- The response envelope of `get_progress`. -/
structure GetProgressRes where
  success : Bool
  progress : Option ProgressPayload := none
  message : Option String := none
deriving DecidableEq

/-- The live-class payload `get_live_classes` builds. -/
structure FormattedLC where
  id : String
  title : String
  description : String
  courseId : String
  instructor : InstructorInfo
  startTime : String
  endTime : String
  duration : String
  status : String
  meetingUrl : String
  meetingId : String
  maxParticipants : Int
  currentParticipants : Int
  isRecorded : Bool
  recordingUrl : String
  createdAt : String
deriving DecidableEq

/-- The response envelope of `get_live_classes` (`none` = key absent). -/
structure LiveRes where
  success : Bool
  liveClasses : Option (List FormattedLC) := none
  totalCount : Option Nat := none
  currentPage : Option Int := none
  totalPages : Option Int := none
  pageSize : Option Int := none
  message : Option String := none
deriving DecidableEq

/-- The response envelope of `join_live_class`. -/
structure JoinRes where
  success : Bool
  meetingUrl : Option String := none
  message : Option String := none
deriving DecidableEq

/-! ## course.py: course formatting helpers -/

/-- `get_course_image(course_doc)` (the URL branch returns the path
unchanged, so both branches coincide). -/
def get_course_image (c : CourseRec) : String :=
  let image_path :=
    if truthyS c.image then c.image
    else if truthyS c.hero_image then c.hero_image
    else if truthyS c.course_image then c.course_image
    else none
  if !truthyS image_path then "" else image_path.getD ""

/-- `get_course_instructor(course_doc)`: raises when the instructor's
`User` document is absent. -/
def get_course_instructor (st : St) (c : CourseRec) : Except String InstructorInfo :=
  let instructor_id := if truthyS c.instructor then c.instructor.getD "" else c.owner
  if instructor_id != "" then
    match getDocUser st instructor_id with
    | .error e => .error e
    | .ok user =>
      .ok { id := instructor_id
            name := if user.full_name != "" then user.full_name else instructor_id
            avatar := user.user_image.getD "" }
  else .ok { id := instructor_id, name := "", avatar := "" }

/-- `get_course_stats(course_name)`. -/
def get_course_stats (st : St) (course_name : String) : Nat × Nat :=
  let student_count := (st.enrollments.filter (fun e => e.course == course_name)).length
  let lesson_count :=
    if hasDoctype st "Course Chapter" then
      ((st.chapters.filter (fun ch => ch.course == course_name)).map
        (fun ch => (st.lessons.filter (fun l => l.chapter == ch.name)).length)).sum
    else 0
  let lesson_count :=
    if lesson_count == 0 && hasDoctype st "Course Lesson" then
      (st.lessons.filter (fun l => l.course == some course_name)).length
    else lesson_count
  (student_count, lesson_count)

/-- `get_course_rating(course_name)`: average rating rounded to one
decimal, and the review count. -/
def get_course_rating (st : St) (course_name : String) : Rat × Nat :=
  if hasDoctype st "LMS Course Review" then
    let reviews := st.reviews.filter (fun r => r.course == course_name)
    if reviews.length > 0 then
      let review_count := reviews.length
      let total_rating := (reviews.map (fun r => r.rating)).sum
      (pyRound1 (total_rating / (review_count : Rat)), review_count)
    else (0, 0)
  else (0, 0)

/-- `format_course_for_frontend(course_doc)`. -/
def format_course_for_frontend (st : St) (c : CourseRec) : Except String FormattedCourse :=
  let course_name := c.name
  let stats := get_course_stats st course_name
  let rating_info := get_course_rating st course_name
  let is_free := true
  let is_free := if c.paid.isSome then !truthyOI c.paid else is_free
  let price : Rat := 0
  let (price, is_free) :=
    match c.course_price with
    | some q => (q, q == 0)
    | none => (price, is_free)
  let (price, is_free) :=
    match c.price with
    | some q => (q, q == 0)
    | none => (price, is_free)
  let original_price := price
  let category := if truthyS c.category then c.category.getD "" else ""
  let level :=
    if truthyS c.level then c.level.getD ""
    else if truthyS c.difficulty then c.difficulty.getD ""
    else "Basic"
  let duration := if c.video_link.isSome then "Self-paced" else ""
  let duration := if truthyS c.duration then c.duration.getD "" else duration
  let is_featured := false
  let is_featured := if c.featured.isSome then truthyOI c.featured else is_featured
  let is_featured := if c.is_featured.isSome then truthyOI c.is_featured else is_featured
  match get_course_instructor st c with
  | .error e => .error e
  | .ok instructor =>
    .ok { id := course_name
          title := c.title.getD course_name
          slug := (c.name.toLower).replace " " "-"
          description :=
            match c.short_introduction with
            | some si => si
            | none => c.description.getD ""
          image := get_course_image c
          instructor := instructor
          category := category
          price := price
          originalPrice := original_price
          rating := rating_info.1
          reviewCount := rating_info.2
          level := level
          duration := duration
          lessons := stats.2
          students := stats.1
          isFree := is_free
          isFeatured := is_featured
          createdAt := c.creation
          published :=
            match c.published with
            | some p => .i p
            | none => .b true }

/-- Format a fetched course list, propagating the first raise. -/
def formatCourses (st : St) : List CourseRec → Except (String × St) (List FormattedCourse)
  | [] => .ok []
  | c :: rest =>
    match format_course_for_frontend st c with
    | .error e => .error (e, st)
    | .ok f =>
      match formatCourses st rest with
      | .error e => .error e
      | .ok fs => .ok (f :: fs)

/-! ## course.py: get_courses -/

/-- Merge of the JSON body over the route arguments
(`data.get(key, current)` per parameter). -/
def mergeCoursesArgs (a : CoursesArgs) (body : Option CoursesBody) : CoursesArgs :=
  match body with
  | none => a
  | some d =>
    { category := d.category.orElse (fun _ => a.category)
      level := d.level.orElse (fun _ => a.level)
      instructor := d.instructor.orElse (fun _ => a.instructor)
      price_type := d.priceType.orElse (fun _ => a.price_type)
      min_price := d.minPrice.getD a.min_price
      max_price := d.maxPrice.getD a.max_price
      rating := d.rating.getD a.rating
      search := d.search.orElse (fun _ => a.search)
      sort_by := d.sortBy.orElse (fun _ => a.sort_by)
      page := d.page.getD a.page
      page_size := d.pageSize.getD a.page_size }

/-- The filters dict `get_courses` builds before `frappe.get_all`. -/
def buildCourseFilters (st : St) (a : CoursesArgs) : CourseFilters :=
  let published := if st.hasColumn "LMS Course" "published" then some 1 else none
  let category :=
    if truthyS a.category && st.hasColumn "LMS Course" "category" then a.category else none
  let levelField :=
    if truthyS a.level then
      if st.hasColumn "LMS Course" "level" then some ("level", a.level.getD "")
      else if st.hasColumn "LMS Course" "difficulty" then some ("difficulty", a.level.getD "")
      else none
    else none
  let paid :=
    if truthyS a.price_type then
      if a.price_type == some "free" && st.hasColumn "LMS Course" "paid" then some 0
      else if a.price_type == some "paid" && st.hasColumn "LMS Course" "paid" then some 1
      else none
    else none
  let (instructorLike, ownerLike) :=
    if truthyS a.instructor then
      if st.hasColumn "LMS Course" "instructor" then (a.instructor, none)
      else (none, a.instructor)
    else (none, none)
  { published := published, category := category, levelField := levelField
    paid := paid, instructorLike := instructorLike, ownerLike := ownerLike }

/-- The `order_by` string `get_courses` picks from `sort_by`. -/
def courseOrderBy (st : St) (sort_by : Option String) : String :=
  if sort_by == some "newest" then "creation desc"
  else if sort_by == some "popular" then "creation desc"
  else if sort_by == some "rating" then "creation desc"
  else if sort_by == some "price_low" then
    (if st.hasColumn "LMS Course" "course_price" then "course_price asc" else "creation desc")
  else if sort_by == some "price_high" then
    (if st.hasColumn "LMS Course" "course_price" then "course_price desc" else "creation desc")
  else "creation desc"

/-- The price a course row contributes to the price-range filter:
`course.get("course_price") or course.get("price") or 0`. -/
def coursePriceOf (c : CourseRec) : Rat :=
  match c.course_price with
  | some q => if q != 0 then q else (match c.price with
    | some p => if p != 0 then p else 0
    | none => 0)
  | none =>
    match c.price with
    | some p => if p != 0 then p else 0
    | none => 0

/-- The search predicate of `get_courses`. -/
def courseMatchesSearch (search_lower : String) (c : CourseRec) : Bool :=
  let title := (strOr c.title).toLower
  let description := (strOr (pyOrS c.short_introduction c.description)).toLower
  let owner := (strOr (some c.owner)).toLower
  pyIn search_lower title || pyIn search_lower description || pyIn search_lower owner

/-- The filtered, formatted and sorted course list of `get_courses`:
everything between the store fetch and the pagination step. -/
def getCoursesList (st : St) (a : CoursesArgs) :
    Except (String × St) (List FormattedCourse) :=
  let filters := buildCourseFilters st a
  let order_by := courseOrderBy st a.sort_by
  let all_courses := st.fetchCourses filters order_by
  let all_courses :=
    if truthyS a.search then
      all_courses.filter (courseMatchesSearch ((a.search.getD "").toLower))
    else all_courses
  let all_courses :=
    if a.min_price != .none || a.max_price != .none then
      let min_p : Rat := if pyTruthy a.min_price then flt a.min_price else 0
      let max_p : Option Rat := if pyTruthy a.max_price then some (flt a.max_price) else none
      all_courses.filter (fun c =>
        let price := coursePriceOf c
        min_p ≤ price && (match max_p with | some m => price ≤ m | none => true))
    else all_courses
  match formatCourses st all_courses with
  | .error e => .error e
  | .ok formatted =>
    let formatted :=
      if pyTruthy a.rating then
        formatted.filter (fun c => flt a.rating ≤ c.rating)
      else formatted
    let formatted :=
      if a.sort_by == some "popular" then
        formatted.mergeSort (fun x y => y.students ≤ x.students)
      else if a.sort_by == some "rating" then
        formatted.mergeSort (fun x y => y.rating ≤ x.rating)
      else formatted
    .ok formatted

/-- Body of `get_courses` (inside the try). -/
def getCoursesBody (st : St) (args : CoursesArgs) (body : Option CoursesBody) :
    Except (String × St) (CoursesRes × St) :=
  let a := mergeCoursesArgs args body
  let page := pyOrInt (cint a.page) 1
  let page_size := pyOrInt (cint a.page_size) 10
  if !hasDoctype st "LMS Course" then
    .ok ({ success := false
           message := some "LMS Course doctype not found. Please ensure Frappe LMS is installed." }, st)
  else
    match getCoursesList st a with
    | .error e => .error e
    | .ok formatted =>
      let total_count := formatted.length
      let total_pages : Int :=
        if page_size > 0 then ((total_count : Int) + page_size - 1).fdiv page_size else 1
      let start_idx := (page - 1) * page_size
      let end_idx := start_idx + page_size
      let paginated := pySlice formatted start_idx end_idx
      .ok ({ success := true
             courses := some paginated
             totalCount := some total_count
             pageSize := some page_size
             currentPage := some page
             totalPages := some total_pages }, st)

/-- `get_courses(...)`. -/
def get_courses (st : St) (args : CoursesArgs) (body : Option CoursesBody) :
    CoursesRes × St :=
  let a := mergeCoursesArgs args body
  let page := pyOrInt (cint a.page) 1
  let page_size := pyOrInt (cint a.page_size) 10
  pyTry (getCoursesBody st args body) (fun e st =>
    ({ success := false
       message := some (if st.developer_mode then e
                        else "An error occurred while fetching courses")
       courses := some []
       totalCount := some 0
       pageSize := some page_size
       currentPage := some page
       totalPages := some 0 },
     logError st ("Get courses error: " ++ e) "Course API"))

/-! ## course.py: progress tracking -/

/-- `frappe.db.exists("LMS Course", name)`. -/
def courseExists (st : St) (name : String) : Bool :=
  (st.courses.find? (fun c => c.name == name)).isSome

/-- The filters `save_progress` queries the progress doctype with
(`lesson` only when a lesson id was passed). -/
def progFilt (cid u : String) (lid : Option String) (r : ProgressRec) : Bool :=
  r.course == cid && r.member == u &&
    (if truthyS lid then r.lesson == some (lid.getD "") else true)

/-- A fresh progress document as `frappe.new_doc` initialises it
(schema-present fields default to 0 / empty). -/
def newProgressDoc (st : St) (cid u : String) (lid chid : Option String) : ProgressRec :=
  { name := "NEW-PROG-" ++ toString st.docCounter
    course := cid
    member := u
    lesson := if truthyS lid && st.progressSchema.lesson then some (lid.getD "") else none
    chapter := if truthyS chid && st.progressSchema.chapter then some (chid.getD "") else none
    progress := if st.progressSchema.progress then some 0 else none
    is_complete := if st.progressSchema.is_complete then some 0 else none
    video_position := if st.progressSchema.video_position then some 0 else none
    notes := if st.progressSchema.notes then some "" else none }

/-- The field updates `save_progress` applies to the progress document. -/
def updateProgressDoc (st : St) (doc : ProgressRec) (progress_percent : PyScalar)
    (is_completed : PyScalar) (video_position : PyScalar) (notes : Option String) :
    ProgressRec :=
  let doc := if progress_percent != .none && st.progressSchema.progress then
      { doc with progress := some (flt progress_percent) } else doc
  let doc := if pyTruthy is_completed && st.progressSchema.is_complete then
      { doc with is_complete := some 1 } else doc
  let doc := if video_position != .none && st.progressSchema.video_position then
      { doc with video_position := some (cint video_position) } else doc
  let doc := if truthyS notes && st.progressSchema.notes then
      { doc with notes := notes } else doc
  doc

/-- Body of `save_progress` (inside the try). -/
def saveProgressBody (st : St) (course_id lesson_id chapter_id : Option String)
    (progress_percent is_completed video_position : PyScalar) (notes : Option String) :
    Except (String × St) (SaveProgressRes × St) :=
  let current_user := st.session_user
  if current_user == "Guest" then
    .ok ({ success := false, message := some "Authentication required to save progress" }, st)
  else if !truthyS course_id then
    .ok ({ success := false, message := some "Course ID is required" }, st)
  else if !courseExists st (course_id.getD "") then
    .ok ({ success := false, message := some "Course not found" }, st)
  else if !hasDoctype st "LMS Course Progress" && !hasDoctype st "Course Progress" then
    -- cache-based progress tracking
    let cache_key :=
      if truthyS lesson_id then
        "lesson_progress:" ++ current_user ++ ":" ++ lesson_id.getD ""
      else "course_progress:" ++ current_user ++ ":" ++ course_id.getD ""
    let progress_data : ProgressData :=
      { user := current_user
        course_id := course_id.getD ""
        lesson_id := lesson_id
        chapter_id := chapter_id
        progress_percent := if pyTruthy progress_percent then flt progress_percent else 0
        is_completed := pyBool is_completed
        video_position := if pyTruthy video_position then cint video_position else 0
        notes := notes.getD ""
        updated_at := st.nowStr }
    let st := cacheSet st cache_key (.prog progress_data) (86400 * 365)
    .ok ({ success := true, message := some "Progress saved successfully" }, st)
  else
    -- doctype-based progress tracking (both doctype names share one table here)
    let cid := course_id.getD ""
    let existing := st.progressRecs.find? (progFilt cid current_user lesson_id)
    let docStep : Except String (ProgressRec × Bool × St) :=
      match existing with
      | some m =>
        match st.progressRecs.find? (fun r => r.name == m.name) with
        | some doc => .ok (doc, true, st)
        | none => .error ("LMS Course Progress " ++ m.name ++ " not found")
      | none =>
        .ok (newProgressDoc st cid current_user lesson_id chapter_id, false,
             { st with docCounter := st.docCounter + 1 })
    match docStep with
    | .error e => .error (e, st)
    | .ok (progress_doc, wasExisting, st) =>
      let progress_doc :=
        updateProgressDoc st progress_doc progress_percent is_completed video_position notes
      let st :=
        if wasExisting then
          { st with progressRecs :=
              st.progressRecs.map (fun r => if r.name == progress_doc.name then progress_doc else r) }
        else
          { st with progressRecs := st.progressRecs ++ [progress_doc] }
      .ok ({ success := true, message := some "Progress saved successfully" }, st)

/-- `save_progress(...)`. -/
def save_progress (st : St) (course_id lesson_id chapter_id : Option String)
    (progress_percent is_completed video_position : PyScalar) (notes : Option String) :
    SaveProgressRes × St :=
  pyTry (saveProgressBody st course_id lesson_id chapter_id progress_percent
          is_completed video_position notes) (fun e st =>
    ({ success := false
       message := some (if st.developer_mode then e
                        else "An error occurred while saving progress") },
     logError st ("Save progress error: " ++ e) "Course API"))

/-- Read a cached lesson-progress blob; a non-blob value at the key is a
`json.loads` failure (unreachable from this code's own writes). -/
def readProgBlob (st : St) (key : String) : Except String (Option ProgressData) :=
  match cacheGet st key with
  | none => .ok none
  | some (.prog p) => .ok (some p)
  | some _ => .error "Expecting value: line 1 column 1 (char 0)"

/-- Collect the cached blobs of a lesson list, propagating a raise. -/
def collectProgress (st : St) (current_user : String) :
    List LessonRec → Except String (List ProgressData)
  | [] => .ok []
  | l :: rest =>
    match readProgBlob st ("lesson_progress:" ++ current_user ++ ":" ++ l.name) with
    | .error e => .error e
    | .ok none => collectProgress st current_user rest
    | .ok (some p) =>
      match collectProgress st current_user rest with
      | .error e => .error e
      | .ok ps => .ok (p :: ps)

/-- Lessons per chapter of a course, as `get_progress` counts them. -/
def totalLessonsOf (st : St) (cid : String) : Nat :=
  ((st.chapters.filter (fun ch => ch.course == cid)).map
    (fun ch => (st.lessons.filter (fun l => l.chapter == ch.name)).length)).sum

/-- Body of `get_progress` (inside the try). -/
def getProgressBody (st : St) (course_id lesson_id : Option String) :
    Except (String × St) (GetProgressRes × St) :=
  let current_user := st.session_user
  if current_user == "Guest" then
    .ok ({ success := false, message := some "Authentication required to view progress" }, st)
  else if !truthyS course_id then
    .ok ({ success := false, message := some "Course ID is required" }, st)
  else if !hasDoctype st "LMS Course Progress" && !hasDoctype st "Course Progress" then
    -- cache-based progress
    if truthyS lesson_id then
      match readProgBlob st
        ("lesson_progress:" ++ current_user ++ ":" ++ lesson_id.getD "") with
      | .error e => .error (e, st)
      | .ok (some p) => .ok ({ success := true, progress := some (.blob p) }, st)
      | .ok none => .ok ({ success := true, progress := none }, st)
    else
      let cid := course_id.getD ""
      let blobStep : Except String (List ProgressData) :=
        if hasDoctype st "Course Chapter" then
          if hasDoctype st "Course Lesson" then
            collectProgress st current_user
              ((st.chapters.filter (fun ch => ch.course == cid)).flatMap
                (fun ch => st.lessons.filter (fun l => l.chapter == ch.name)))
          else .ok []
        else .ok []
      match blobStep with
      | .error e => .error (e, st)
      | .ok course_progress =>
        -- the unguarded get_all over Course Chapter / Course Lesson raises
        -- when those doctypes are absent
        if !hasDoctype st "Course Chapter" then
          .error ("DocType Course Chapter not found", st)
        else if !hasDoctype st "Course Lesson" && st.chapters.any (fun ch => ch.course == cid) then
          .error ("DocType Course Lesson not found", st)
        else
          let total_lessons := totalLessonsOf st cid
          let completed_lessons := (course_progress.filter (fun p => p.is_completed)).length
          let overall_percent : Rat :=
            if total_lessons > 0 then
              (completed_lessons : Rat) / (total_lessons : Rat) * 100
            else 0
          .ok ({ success := true
                 progress := some (.aggCache
                   { courseId := cid
                     overallProgress := pyRound1 overall_percent
                     completedLessons := completed_lessons
                     totalLessons := total_lessons
                     lessonProgress := course_progress }) }, st)
  else
    -- doctype-based progress
    let cid := course_id.getD ""
    if truthyS lesson_id then
      let lid := lesson_id.getD ""
      match st.progressRecs.find? (fun r =>
        r.course == cid && r.member == current_user && r.lesson == some lid) with
      | some p =>
        .ok ({ success := true
               progress := some (.lessonOut
                 { lessonId := lid
                   progressPercent := p.progress.getD 0
                   isCompleted := truthyOI p.is_complete
                   videoPosition := p.video_position.getD 0
                   notes := p.notes.getD "" }) }, st)
      | none => .ok ({ success := true, progress := none }, st)
    else
      let all_progress := st.progressRecs.filter (fun r =>
        r.course == cid && r.member == current_user)
      let total_lessons :=
        if hasDoctype st "Course Chapter" then
          if hasDoctype st "Course Lesson" then totalLessonsOf st cid else 0
        else 0
      let completed := (all_progress.filter (fun p => truthyOI p.is_complete)).length
      let overall : Rat :=
        if total_lessons > 0 then (completed : Rat) / (total_lessons : Rat) * 100 else 0
      .ok ({ success := true
             progress := some (.aggDoc
               { courseId := cid
                 overallProgress := pyRound1 overall
                 completedLessons := completed
                 totalLessons := total_lessons
                 lessonProgress := all_progress.map (fun p =>
                   { lessonId := p.lesson
                     progressPercent := p.progress.getD 0
                     isCompleted := truthyOI p.is_complete
                     videoPosition := p.video_position.getD 0 }) }) }, st)

/-- `get_progress(course_id, lesson_id)`. -/
def get_progress (st : St) (course_id lesson_id : Option String) : GetProgressRes × St :=
  pyTry (getProgressBody st course_id lesson_id) (fun e st =>
    ({ success := false, message := some "An error occurred while fetching progress" },
     logError st ("Get progress error: " ++ e) "Course API"))

/-! ## course.py: live classes -/

/-- Which live-class doctype exists, if any. -/
def liveClassDoctype (st : St) : Option String :=
  if hasDoctype st "LMS Live Class" then some "LMS Live Class"
  else if hasDoctype st "Live Class" then some "Live Class"
  else none

/-- `frappe.utils.get_datetime` on an optional start time
(`get_datetime(None)` yields the current time). -/
def getDT (st : St) (t : Option Nat) : Nat :=
  t.getD st.nowDT

/-- `str(x or "")` on an optional datetime field. -/
def sOfTime (t : Option Nat) : String :=
  match t with
  | some v => toString v
  | none => ""

/-- The instructor payload for a live class (the user lookup is guarded
by `frappe.db.exists`, so it cannot raise). -/
def lcInstructorInfo (st : St) (instructor_id : String) : InstructorInfo :=
  if instructor_id != "" then
    match st.users.find? (fun u => u.name == instructor_id) with
    | some user =>
      { id := instructor_id
        name := if user.full_name != "" then user.full_name else instructor_id
        avatar := user.user_image.getD "" }
    | none => { id := "", name := "", avatar := "" }
  else { id := "", name := "", avatar := "" }

/-- Format one live-class row for the frontend. -/
def formatLC (st : St) (lc : LiveClassRec) : FormattedLC :=
  let instructor_id := if truthyS lc.instructor then lc.instructor.getD "" else lc.owner
  { id := lc.name
    title :=
      if truthyS lc.title then lc.title.getD ""
      else if truthyS lc.class_title then lc.class_title.getD ""
      else "Live Class"
    description := strOr lc.description
    courseId := strOr lc.course
    instructor := lcInstructorInfo st instructor_id
    startTime := sOfTime lc.start_time
    endTime := sOfTime lc.end_time
    duration := strOr lc.duration
    status := if truthyS lc.status then lc.status.getD "" else "scheduled"
    meetingUrl :=
      if truthyS lc.meeting_url then lc.meeting_url.getD ""
      else if truthyS lc.zoom_link then lc.zoom_link.getD ""
      else ""
    meetingId := strOr lc.meeting_id
    maxParticipants := pyOrInt (lc.max_participants.getD 0) 0
    currentParticipants := pyOrInt (lc.current_participants.getD 0) 0
    isRecorded := truthyOI lc.is_recorded || truthyOI lc.record_session
    recordingUrl := strOr lc.recording_url
    createdAt := lc.creation }

/-- Body of `get_live_classes` (inside the try; it has no raise points). -/
def getLiveClassesBody (st : St) (course_id instructor_id status : Option String)
    (upcoming_only : Bool) (page page_size : PyScalar) :
    Except (String × St) (LiveRes × St) :=
  let page := pyOrInt (cint page) 1
  let page_size := pyOrInt (cint page_size) 10
  match liveClassDoctype st with
  | none =>
    .ok ({ success := true
           liveClasses := some []
           totalCount := some 0
           message := some "Live class feature not configured" }, st)
  | some dt =>
    let filters : LCFilters :=
      { course := if truthyS course_id then course_id else none
        instructor :=
          if truthyS instructor_id && st.hasColumn dt "instructor" then instructor_id
          else none
        owner :=
          if truthyS instructor_id && !st.hasColumn dt "instructor" then instructor_id
          else none
        status := if truthyS status && st.hasColumn dt "status" then status else none }
    let live_classes := st.fetchLive filters
    let live_classes :=
      if upcoming_only then
        live_classes.filter (fun lc => st.nowDT < getDT st lc.start_time)
      else live_classes
    let formatted_classes := live_classes.map (formatLC st)
    let total_count := formatted_classes.length
    let total_pages : Int := ((total_count : Int) + page_size - 1).fdiv page_size
    let start_idx := (page - 1) * page_size
    let end_idx := start_idx + page_size
    let paginated := pySlice formatted_classes start_idx end_idx
    .ok ({ success := true
           liveClasses := some paginated
           totalCount := some total_count
           currentPage := some page
           totalPages := some total_pages
           pageSize := some page_size }, st)

/-- `get_live_classes(...)`. -/
def get_live_classes (st : St) (course_id instructor_id status : Option String)
    (upcoming_only : Bool) (page page_size : PyScalar) : LiveRes × St :=
  pyTry (getLiveClassesBody st course_id instructor_id status upcoming_only page page_size)
    (fun e st =>
      ({ success := false
         liveClasses := some []
         message := some "An error occurred while fetching live classes" },
       logError st ("Get live classes error: " ++ e) "Course API"))

/-- The attendee list of a live class read back from the cache:
`none` when the stored value is not a JSON list (a `json.loads` shape
mismatch, unreachable from this code's own writes). -/
def attendeesOf (st : St) (class_id : String) : Option (List String) :=
  match cacheGet st ("live_class_attendance:" ++ class_id) with
  | none => some []
  | some (.slist l) => some l
  | some _ => none

/-- Body of `join_live_class` (inside the try). -/
def joinLiveClassBody (st : St) (class_id : Option String) :
    Except (String × St) (JoinRes × St) :=
  let current_user := st.session_user
  if current_user == "Guest" then
    .ok ({ success := false, message := some "Authentication required to join live class" }, st)
  else if !truthyS class_id then
    .ok ({ success := false, message := some "Live class ID is required" }, st)
  else
    match liveClassDoctype st with
    | none =>
      .ok ({ success := false, message := some "Live class feature not configured" }, st)
    | some _ =>
      let cid := class_id.getD ""
      match st.liveClasses.find? (fun lc => lc.name == cid) with
      | none => .ok ({ success := false, message := some "Live class not found" }, st)
      | some lc =>
        let status := if truthyS lc.status then lc.status.getD "" else "scheduled"
        if status == "completed" then
          .ok ({ success := false, message := some "This live class has ended" }, st)
        else if status == "cancelled" then
          .ok ({ success := false, message := some "This live class has been cancelled" }, st)
        else
          match attendeesOf st cid with
          | none => .error ("Expecting value: line 1 column 1 (char 0)", st)
          | some attendees =>
            let (st, _attendees) :=
              if !attendees.contains current_user then
                let attendees := attendees ++ [current_user]
                let st := cacheSet st ("live_class_attendance:" ++ cid)
                  (.slist attendees) 86400
                let st :=
                  if lc.current_participants.isSome then
                    { st with liveClasses := st.liveClasses.map (fun r =>
                        if r.name == cid then
                          { lc with current_participants := some (attendees.length : Int) }
                        else r) }
                  else st
                (st, attendees)
              else (st, attendees)
            let meeting_url := lc.meeting_url.getD ""
            .ok ({ success := true
                   meetingUrl := some meeting_url
                   message := some "Joined live class successfully" }, st)

/-- `join_live_class(class_id)`. -/
def join_live_class (st : St) (class_id : Option String) : JoinRes × St :=
  pyTry (joinLiveClassBody st class_id) (fun e st =>
    ({ success := false, message := some "An error occurred while joining live class" },
     logError st ("Join live class error: " ++ e) "Course API"))

/-! ## auth.py: logout, me, change_password -/

/-- The response envelope of `logout`. -/
structure LogoutRes where
  success : Bool
  message : Option String := none
deriving DecidableEq

/-- Body of `logout` (inside the try); the `Authorization` request header
arrives as a parameter, and the login manager logging the session out is
modelled as resetting the session user to `Guest`. -/
def logoutBody (st : St) (auth_header : Option String) :
    Except (String × St) (LogoutRes × St) :=
  let st :=
    if truthyS auth_header && (auth_header.getD "").startsWith "Bearer " then
      let token := ((auth_header.getD "").splitOn " ").getD 1 ""
      cacheDelete st ("api_token:" ++ token)
    else st
  let st := { st with session_user := "Guest" }
  .ok ({ success := true, message := some "Logged out successfully" }, st)

/-- `logout()`. -/
def logout (st : St) (auth_header : Option String) : LogoutRes × St :=
  pyTry (logoutBody st auth_header) (fun e st =>
    ({ success := false, message := some "An error occurred during logout" },
     logError st ("Logout error: " ++ e) "Auth API"))

/-- The response envelope of `me`. -/
structure MeRes where
  success : Bool
  user : Option UserData := none
  message : Option String := none
deriving DecidableEq

/-- Body of `me` (inside the try). -/
def meBody (st : St) : Except (String × St) (MeRes × St) :=
  let user := st.session_user
  if user == "Guest" then
    .ok ({ success := false, message := some "Not authenticated" }, st)
  else
    match get_user_data st user with
    | .error e => .error (e, st)
    | .ok user_data => .ok ({ success := true, user := some user_data }, st)

/-- `me()`. -/
def me (st : St) : MeRes × St :=
  pyTry (meBody st) (fun e st =>
    ({ success := false, message := some "An error occurred while fetching user data" },
     logError st ("Get user error: " ++ e) "Auth API"))

/-- The JSON body `change_password` parses from `frappe.request.data`. -/
structure ChangePwBody where
  currentPassword : Option String := none
  current_password : Option String := none
  newPassword : Option String := none
  new_password : Option String := none
  confirmPassword : Option String := none
  confirm_password : Option String := none
deriving DecidableEq

/-- The parameters `change_password` works with after merging the JSON body. -/
def mergeChangePwArgs (current_password new_password confirm_password : Option String)
    (body : Option ChangePwBody) : Option String × Option String × Option String :=
  if !truthyS current_password then
    match body with
    | some d => (pyOrS d.currentPassword d.current_password,
                 pyOrS d.newPassword d.new_password,
                 pyOrS d.confirmPassword d.confirm_password)
    | none => (current_password, new_password, confirm_password)
  else (current_password, new_password, confirm_password)

/-- The response envelope of `change_password`. -/
structure ChangePwRes where
  success : Bool
  message : Option String := none
deriving DecidableEq

/-- Body of `change_password` (inside the try). `check_password` raising
`AuthenticationError` (the only exception its inner try catches) is the
oracle `checkPasswordOk` returning false; `update_password` is recorded in
the `pwUpdates` trace. -/
def changePasswordBody (st : St) (current_password new_password confirm_password : Option String)
    (body : Option ChangePwBody) : Except (String × St) (ChangePwRes × St) :=
  let (current_password, new_password, confirm_password) :=
    mergeChangePwArgs current_password new_password confirm_password body
  let user := st.session_user
  if user == "Guest" then
    .ok ({ success := false, message := some "Not authenticated" }, st)
  else if !(truthyS current_password && truthyS new_password) then
    .ok ({ success := false, message := some "Current password and new password are required" }, st)
  else if new_password != confirm_password then
    .ok ({ success := false, message := some "New passwords do not match" }, st)
  else if (new_password.getD "").length < 8 then
    .ok ({ success := false, message := some "Password must be at least 8 characters long" }, st)
  else if !st.checkPasswordOk user (current_password.getD "") then
    .ok ({ success := false, message := some "Current password is incorrect" }, st)
  else
    let st := { st with pwUpdates := (user, new_password.getD "") :: st.pwUpdates }
    .ok ({ success := true, message := some "Password changed successfully" }, st)

/-- `change_password(current_password, new_password, confirm_password)`. -/
def change_password (st : St) (current_password new_password confirm_password : Option String)
    (body : Option ChangePwBody) : ChangePwRes × St :=
  pyTry (changePasswordBody st current_password new_password confirm_password body) (fun e st =>
    ({ success := false, message := some "An error occurred while changing password" },
     logError st ("Change password error: " ++ e) "Auth API"))

/-! ## course.py: further document-access primitives -/

/-- `frappe.get_doc("LMS Course", name)`: raises when the record is absent. -/
def getDocCourse (st : St) (name : String) : Except String CourseRec :=
  match st.courses.find? (fun c => c.name == name) with
  | some c => .ok c
  | none => .error ("LMS Course " ++ name ++ " not found")

/-- `frappe.get_doc("Course Lesson", name)`: raises when the record is absent. -/
def getDocLesson (st : St) (name : String) : Except String LessonRec :=
  match st.lessons.find? (fun l => l.name == name) with
  | some l => .ok l
  | none => .error ("Course Lesson " ++ name ++ " not found")

/-- `frappe.get_doc("Course Chapter", name)`: raises when the record is absent. -/
def getDocChapter (st : St) (name : String) : Except String ChapterRec :=
  match st.chapters.find? (fun ch => ch.name == name) with
  | some ch => .ok ch
  | none => .error ("Course Chapter " ++ name ++ " not found")

/-- `frappe.db.exists("Course Lesson", name)`. -/
def lessonExists (st : St) (name : String) : Bool :=
  (st.lessons.find? (fun l => l.name == name)).isSome

/-- `frappe.db.exists("Course Chapter", name)`. -/
def chapterExists (st : St) (name : String) : Bool :=
  (st.chapters.find? (fun ch => ch.name == name)).isSome

/-! ## course.py: get_course, get_featured_courses, get_categories, get_instructors -/

/-- The single-course payload of `get_course`: the formatted course plus
the `fullDescription` key added for the detail view. -/
structure CourseDetail where
  base : FormattedCourse
  fullDescription : String
deriving DecidableEq

/-- The response envelope of `get_course`. -/
structure GetCourseRes where
  success : Bool
  course : Option CourseDetail := none
  message : Option String := none
deriving DecidableEq

/-- Body of `get_course` (inside the try). -/
def getCourseBody (st : St) (course_id slug : Option String) :
    Except (String × St) (GetCourseRes × St) :=
  if !truthyS course_id && !truthyS slug then
    .ok ({ success := false, message := some "Course ID or slug is required" }, st)
  else
    let course_name := course_id
    let course_name :=
      if truthyS slug && !truthyS course_id then
        match st.courses.find? (fun c =>
          (c.name.toLower).replace " " "-" == (slug.getD "").toLower) with
        | some c => some c.name
        | none => course_name
      else course_name
    if !truthyS course_name || !courseExists st (course_name.getD "") then
      .ok ({ success := false, message := some "Course not found" }, st)
    else
      match getDocCourse st (course_name.getD "") with
      | .error e => .error (e, st)
      | .ok course_doc =>
        match format_course_for_frontend st course_doc with
        | .error e => .error (e, st)
        | .ok formatted =>
          .ok ({ success := true
                 course := some { base := formatted
                                  fullDescription := course_doc.description.getD "" } }, st)

/-- `get_course(course_id, slug)`. -/
def get_course (st : St) (course_id slug : Option String) : GetCourseRes × St :=
  pyTry (getCourseBody st course_id slug) (fun e st =>
    ({ success := false, message := some "An error occurred while fetching course details" },
     logError st ("Get course error: " ++ e) "Course API"))

/-- The response envelope of `get_featured_courses`. -/
structure FeaturedRes where
  success : Bool
  courses : Option (List FormattedCourse) := none
  message : Option String := none
deriving DecidableEq

/-- Body of `get_featured_courses` (inside the try); the two
`frappe.get_all` calls are the `fetchFeatured` oracle. -/
def getFeaturedBody (st : St) (limit : PyScalar) :
    Except (String × St) (FeaturedRes × St) :=
  let limit := pyOrInt (cint limit) 6
  let filters : FeatFilters :=
    { featured := if st.hasColumn "LMS Course" "featured" then some 1 else none
      is_featured :=
        if !st.hasColumn "LMS Course" "featured" && st.hasColumn "LMS Course" "is_featured"
        then some 1 else none
      published := if st.hasColumn "LMS Course" "published" then some 1 else none }
  let courses := st.fetchFeatured filters limit
  let courses :=
    if courses.isEmpty then
      st.fetchFeatured
        { featured := none, is_featured := none
          published := if st.hasColumn "LMS Course" "published" then some 1 else none } limit
    else courses
  match formatCourses st courses with
  | .error e => .error e
  | .ok formatted => .ok ({ success := true, courses := some formatted }, st)

/-- `get_featured_courses(limit)`. -/
def get_featured_courses (st : St) (limit : PyScalar) : FeaturedRes × St :=
  pyTry (getFeaturedBody st limit) (fun e st =>
    ({ success := false
       courses := some []
       message := some "An error occurred while fetching featured courses" },
     logError st ("Get featured courses error: " ++ e) "Course API"))

/-- The response envelope of `get_categories`. -/
structure CategoriesRes where
  success : Bool
  categories : Option (List String) := none
  message : Option String := none
deriving DecidableEq

/-- Body of `get_categories` (inside the try); the Python `set` of course
categories is modelled as an order-collapsing `dedup`. -/
def getCategoriesBody (st : St) : Except (String × St) (CategoriesRes × St) :=
  let categories : List String :=
    if hasDoctype st "LMS Category" then
      (st.catRecs.mergeSort (fun a b => a.name ≤ b.name)).map (fun cat =>
        (pyOrS cat.category_name (pyOrS cat.title (some cat.name))).getD "")
    else
      if st.hasColumn "LMS Course" "category" then
        ((((st.courses.map (fun c => c.category)).dedup).filter truthyS).filterMap id).dedup
      else []
  .ok ({ success := true, categories := some categories }, st)

/-- `get_categories()`. -/
def get_categories (st : St) : CategoriesRes × St :=
  pyTry (getCategoriesBody st) (fun e st =>
    ({ success := false
       categories := some []
       message := some "An error occurred while fetching categories" },
     logError st ("Get categories error: " ++ e) "Course API"))

/-- The response envelope of `get_instructors`. -/
structure InstructorsRes where
  success : Bool
  instructors : Option (List InstructorInfo) := none
  message : Option String := none
deriving DecidableEq

/-- Body of `get_instructors` (inside the try); the Python `set` of
instructor ids is modelled as an order-collapsing `dedup`. -/
def getInstructorsBody (st : St) : Except (String × St) (InstructorsRes × St) :=
  let hasInstr := st.hasColumn "LMS Course" "instructor"
  let instructor_ids :=
    ((st.courses.map (fun c =>
      if hasInstr && truthyS c.instructor then c.instructor.getD "" else c.owner))).dedup
  let instructors := instructor_ids.filterMap (fun iid =>
    if iid != "" && userExists st iid then
      match st.users.find? (fun u => u.name == iid) with
      | some user =>
        some { id := iid
               name := if user.full_name != "" then user.full_name else iid
               avatar := user.user_image.getD "" }
      | none => none
    else none)
  .ok ({ success := true, instructors := some instructors }, st)

/-- `get_instructors()`. -/
def get_instructors (st : St) : InstructorsRes × St :=
  pyTry (getInstructorsBody st) (fun e st =>
    ({ success := false
       instructors := some []
       message := some "An error occurred while fetching instructors" },
     logError st ("Get instructors error: " ++ e) "Course API"))

/-! ## course.py: get_course_curriculum -/

/-- One lesson entry of the curriculum payload. -/
structure CurricLesson where
  id : String
  title : String
  isPreview : Bool
  order : Int
deriving DecidableEq

/-- One chapter entry of the curriculum payload. -/
structure CurricChapter where
  id : String
  title : String
  description : String
  order : Int
  lessons : List CurricLesson
deriving DecidableEq

/-- The response envelope of `get_course_curriculum`. -/
structure CurriculumRes where
  success : Bool
  curriculum : Option (List CurricChapter) := none
  message : Option String := none
deriving DecidableEq

/-- Body of `get_course_curriculum` (inside the try). -/
def getCurriculumBody (st : St) (course_id : Option String) :
    Except (String × St) (CurriculumRes × St) :=
  if !truthyS course_id then
    .ok ({ success := false, message := some "Course ID is required" }, st)
  else if !courseExists st (course_id.getD "") then
    .ok ({ success := false, message := some "Course not found" }, st)
  else
    let curriculum :=
      if hasDoctype st "Course Chapter" then
        ((st.chapters.filter (fun ch => ch.course == course_id.getD "")).mergeSort
          (fun a b => a.idx ≤ b.idx)).map (fun chapter =>
          let lessons :=
            if hasDoctype st "Course Lesson" then
              ((st.lessons.filter (fun l => l.chapter == chapter.name)).mergeSort
                (fun a b => a.idx ≤ b.idx)).map (fun lesson =>
                { id := lesson.name
                  title := lesson.title
                  isPreview := truthyOI lesson.include_in_preview
                  order := lesson.idx })
            else []
          { id := chapter.name
            title := chapter.title
            description := chapter.description.getD ""
            order := chapter.idx
            lessons := lessons })
      else []
    .ok ({ success := true, curriculum := some curriculum }, st)

/-- `get_course_curriculum(course_id)`. -/
def get_course_curriculum (st : St) (course_id : Option String) : CurriculumRes × St :=
  pyTry (getCurriculumBody st course_id) (fun e st =>
    ({ success := false
       curriculum := some []
       message := some "An error occurred while fetching curriculum" },
     logError st ("Get curriculum error: " ++ e) "Course API"))

/-! ## course.py: create_course and update_course -/

/-- One lesson entry of the `chapters` argument of `create_course`. -/
structure LessonData where
  title : Option String := none
  content : Option String := none
  isPreview : Option Int := none
  videoUrl : Option String := none
deriving DecidableEq

/-- One chapter entry of the `chapters` argument of `create_course`. -/
structure ChapterData where
  title : Option String := none
  description : Option String := none
  lessons : List LessonData := []
deriving DecidableEq

/-- The response envelope of `create_course`. -/
structure CreateCourseRes where
  success : Bool
  course_id : Option String := none
  message : Option String := none
deriving DecidableEq

/-- The lesson-insertion loop of `create_course` (per chapter); documents
are named from the running counter, and `hasattr` on a fresh document is
column existence. -/
def insertLessons (st : St) (course_name chapter_name : String) :
    Nat → List LessonData → St
  | _, [] => st
  | lidx, ld :: rest =>
    if hasDoctype st "Course Lesson" then
      let l : LessonRec :=
        { name := "new-course-lesson-" ++ toString st.docCounter
          chapter := chapter_name
          course := if st.hasColumn "Course Lesson" "course" then some course_name else none
          title := ld.title.getD ("Lesson " ++ toString lidx)
          include_in_preview :=
            if st.hasColumn "Course Lesson" "include_in_preview"
            then some (ld.isPreview.getD 0) else none
          idx := (lidx : Int)
          content := if st.hasColumn "Course Lesson" "content"
                     then some (ld.content.getD "") else none
          video_url := if st.hasColumn "Course Lesson" "video_url"
                       then some (ld.videoUrl.getD "") else none
          duration := none
          youtube_video_id := none
          quiz_id := none }
      let st := { st with lessons := st.lessons ++ [l], docCounter := st.docCounter + 1 }
      insertLessons st course_name chapter_name (lidx + 1) rest
    else insertLessons st course_name chapter_name (lidx + 1) rest

/-- The chapter-insertion loop of `create_course`. -/
def insertChapters (st : St) (course_name : String) : Nat → List ChapterData → St
  | _, [] => st
  | idx, cd :: rest =>
    if hasDoctype st "Course Chapter" then
      let chName := "new-course-chapter-" ++ toString st.docCounter
      let ch : ChapterRec :=
        { name := chName
          course := course_name
          title := cd.title.getD ("Chapter " ++ toString idx)
          description := if st.hasColumn "Course Chapter" "description"
                         then some (cd.description.getD "") else none
          idx := (idx : Int) }
      let st := { st with chapters := st.chapters ++ [ch], docCounter := st.docCounter + 1 }
      let st := insertLessons st course_name chName 1 cd.lessons
      insertChapters st course_name (idx + 1) rest
    else insertChapters st course_name (idx + 1) rest

/-- Body of `create_course` (inside the try). The `chapters` argument
arrives as already-parsed JSON (the string-parse branch is the identity
under the loads-of-dumps convention); `hasattr` on the fresh document is
column existence; `insert` appends a document named from the counter. -/
def createCourseBody (st : St)
    (title description short_introduction category level : Option String)
    (price : PyScalar) (duration image : Option String) (is_featured : Bool)
    (chapters : Option (List ChapterData)) :
    Except (String × St) (CreateCourseRes × St) :=
  if !truthyS title then
    .ok ({ success := false, message := some "Course title is required" }, st)
  else
    let current_user := st.session_user
    if current_user == "Guest" then
      .ok ({ success := false, message := some "Authentication required to create courses" }, st)
    else
      let hasCol := st.hasColumn "LMS Course"
      let course_doc : CourseRec :=
        { name := "new-lms-course-" ++ toString st.docCounter
          owner := current_user
          title := title
          short_introduction :=
            if truthyS short_introduction && hasCol "short_introduction"
            then short_introduction else none
          description := if truthyS description && hasCol "description" then description else none
          image := if truthyS image && hasCol "image" then image else none
          hero_image := none
          course_image := none
          instructor := if hasCol "instructor" then some current_user else none
          paid := if price != PyScalar.none && hasCol "paid"
                  then some (if flt price > 0 then 1 else 0) else none
          course_price := if price != PyScalar.none && hasCol "course_price"
                          then some (flt price) else none
          price := if price != PyScalar.none && hasCol "price" then some (flt price) else none
          category := if truthyS category && hasCol "category" then category else none
          level := if truthyS level && hasCol "level" then level else none
          difficulty := if truthyS level && !hasCol "level" && hasCol "difficulty"
                        then level else none
          video_link := none
          duration := if truthyS duration && hasCol "duration" then duration else none
          featured := if is_featured && hasCol "featured" then some 1 else none
          is_featured := if is_featured && !hasCol "featured" && hasCol "is_featured"
                         then some 1 else none
          creation := st.nowStr
          published := if hasCol "published" then some 1 else none }
      let course_name := course_doc.name
      let st := { st with courses := st.courses ++ [course_doc], docCounter := st.docCounter + 1 }
      let st :=
        match chapters with
        | some cs => if !cs.isEmpty then insertChapters st course_name 1 cs else st
        | none => st
      .ok ({ success := true
             course_id := some course_name
             message := some "Course created successfully" }, st)

/-- `create_course(...)`. The handler also calls `frappe.db.rollback()`,
which has nothing to undo here because the body of this model has no raise
point after its first write. -/
def create_course (st : St)
    (title description short_introduction category level : Option String)
    (price : PyScalar) (duration image : Option String) (is_featured : Bool)
    (chapters : Option (List ChapterData)) : CreateCourseRes × St :=
  pyTry (createCourseBody st title description short_introduction category level price
          duration image is_featured chapters) (fun e st =>
    ({ success := false
       message := some (if st.developer_mode then e
                        else "An error occurred while creating the course") },
     logError st ("Create course error: " ++ e) "Course API"))

/-- The response envelope of `update_course`. -/
structure UpdateCourseRes where
  success : Bool
  message : Option String := none
deriving DecidableEq

/-- Body of `update_course` (inside the try); `hasattr` on the fetched
document is column existence, and `save` replaces the stored row. -/
def updateCourseBody (st : St)
    (course_id title description short_introduction category level : Option String)
    (price : PyScalar) (duration image : Option String)
    (is_featured published : Option Bool) :
    Except (String × St) (UpdateCourseRes × St) :=
  if !truthyS course_id then
    .ok ({ success := false, message := some "Course ID is required" }, st)
  else if !courseExists st (course_id.getD "") then
    .ok ({ success := false, message := some "Course not found" }, st)
  else
    let current_user := st.session_user
    match getDocCourse st (course_id.getD "") with
    | .error e => .error (e, st)
    | .ok course_doc =>
      let hasCol := st.hasColumn "LMS Course"
      let is_owner := course_doc.owner == current_user
      let is_instructor := hasCol "instructor" && course_doc.instructor == some current_user
      let is_admin := (st.userRoles current_user).contains "System Manager"
      if !(is_owner || is_instructor || is_admin) then
        .ok ({ success := false
               message := some "You don't have permission to update this course" }, st)
      else
        let course_doc :=
          if truthyS title then { course_doc with title := title } else course_doc
        let course_doc :=
          if truthyS description && hasCol "description"
          then { course_doc with description := description } else course_doc
        let course_doc :=
          if truthyS short_introduction && hasCol "short_introduction"
          then { course_doc with short_introduction := short_introduction } else course_doc
        let course_doc :=
          if truthyS category && hasCol "category"
          then { course_doc with category := category } else course_doc
        let course_doc :=
          if truthyS level then
            if hasCol "level" then { course_doc with level := level }
            else if hasCol "difficulty" then { course_doc with difficulty := level }
            else course_doc
          else course_doc
        let course_doc :=
          if price != PyScalar.none then
            let cd := if hasCol "course_price"
                      then { course_doc with course_price := some (flt price) } else course_doc
            let cd := if hasCol "price" then { cd with price := some (flt price) } else cd
            if hasCol "paid" then { cd with paid := some (if flt price > 0 then 1 else 0) }
            else cd
          else course_doc
        let course_doc :=
          if truthyS duration && hasCol "duration"
          then { course_doc with duration := duration } else course_doc
        let course_doc :=
          if truthyS image && hasCol "image"
          then { course_doc with image := image } else course_doc
        let course_doc :=
          match is_featured with
          | some b =>
            if hasCol "featured" then { course_doc with featured := some (if b then 1 else 0) }
            else if hasCol "is_featured"
            then { course_doc with is_featured := some (if b then 1 else 0) }
            else course_doc
          | none => course_doc
        let course_doc :=
          match published with
          | some b =>
            if hasCol "published" then { course_doc with published := some (if b then 1 else 0) }
            else course_doc
          | none => course_doc
        let st := { st with courses := st.courses.map (fun c =>
          if c.name == course_id.getD "" then course_doc else c) }
        .ok ({ success := true, message := some "Course updated successfully" }, st)

/-- `update_course(...)`. -/
def update_course (st : St)
    (course_id title description short_introduction category level : Option String)
    (price : PyScalar) (duration image : Option String)
    (is_featured published : Option Bool) : UpdateCourseRes × St :=
  pyTry (updateCourseBody st course_id title description short_introduction category level
          price duration image is_featured published) (fun e st =>
    ({ success := false
       message := some (if st.developer_mode then e
                        else "An error occurred while updating the course") },
     logError st ("Update course error: " ++ e) "Course API"))

/-! ## course.py: lesson details, chapter lessons, mark_lesson_complete -/

/-- The lesson payload of `get_lesson_details`; `none` = key absent. -/
structure LessonDetail where
  id : String
  title : String
  isPreview : Bool
  order : Int
  chapterId : Option String
  courseId : Option String
  content : Option String := none
  videoUrl : Option String := none
  duration : Option String := none
  youtubeVideoId : Option String := none
  quizId : Option String := none
  requiresEnrollment : Option Bool := none
deriving DecidableEq

/-- The response envelope of `get_lesson_details`. -/
structure LessonDetailsRes where
  success : Bool
  lesson : Option LessonDetail := none
  hasAccess : Option Bool := none
  message : Option String := none
deriving DecidableEq

/-- Body of `get_lesson_details` (inside the try); the chapter lookup for
a lesson without a `course` value is an unguarded `get_doc` and raises on
a dangling chapter reference. -/
def getLessonDetailsBody (st : St) (lesson_id course_id : Option String) :
    Except (String × St) (LessonDetailsRes × St) :=
  if !truthyS lesson_id then
    .ok ({ success := false, message := some "Lesson ID is required" }, st)
  else if !hasDoctype st "Course Lesson" then
    .ok ({ success := false, message := some "Course Lesson doctype not found" }, st)
  else if !lessonExists st (lesson_id.getD "") then
    .ok ({ success := false, message := some "Lesson not found" }, st)
  else
    match getDocLesson st (lesson_id.getD "") with
    | .error e => .error (e, st)
    | .ok lesson_doc =>
      let current_user := st.session_user
      let is_preview := truthyOI lesson_doc.include_in_preview
      let is_guest := current_user == "Guest"
      let courseStep : Except String (Option String) :=
        if truthyS lesson_doc.course then .ok lesson_doc.course
        else if lesson_doc.chapter != "" then
          match getDocChapter st lesson_doc.chapter with
          | .error e => .error e
          | .ok chapter => .ok (some chapter.course)
        else .ok none
      match courseStep with
      | .error e => .error (e, st)
      | .ok course_name =>
        let has_access := is_preview
        let has_access :=
          if !is_guest && truthyS course_name then
            let cn := course_name.getD ""
            let has_access :=
              if st.enrollments.any (fun en => en.course == cn && en.member == current_user)
              then true else has_access
            if courseExists st cn then
              match st.courses.find? (fun c => c.name == cn) with
              | some course_doc =>
                let has_access := if course_doc.owner == current_user then true else has_access
                if course_doc.instructor == some current_user then true else has_access
              | none => has_access
            else has_access
          else has_access
        let base : LessonDetail :=
          { id := lesson_doc.name
            title := lesson_doc.title
            isPreview := is_preview
            order := lesson_doc.idx
            chapterId := some lesson_doc.chapter
            courseId := course_name }
        let lesson_data :=
          if has_access then
            { base with
              content := some (lesson_doc.content.getD "")
              videoUrl := some (lesson_doc.video_url.getD "")
              duration := some (lesson_doc.duration.getD "")
              youtubeVideoId := some (lesson_doc.youtube_video_id.getD "")
              quizId := lesson_doc.quiz_id }
          else { base with requiresEnrollment := some true }
        .ok ({ success := true, lesson := some lesson_data, hasAccess := some has_access }, st)

/-- `get_lesson_details(lesson_id, course_id)`. -/
def get_lesson_details (st : St) (lesson_id course_id : Option String) :
    LessonDetailsRes × St :=
  pyTry (getLessonDetailsBody st lesson_id course_id) (fun e st =>
    ({ success := false, message := some "An error occurred while fetching lesson details" },
     logError st ("Get lesson details error: " ++ e) "Course API"))

/-- One lesson entry of the `get_chapter_lessons` payload. -/
structure ChapLessonOut where
  id : String
  title : String
  isPreview : Bool
  order : Int
  duration : String
  content : Option String := none
  videoUrl : Option String := none
  youtubeVideoId : Option String := none
  requiresEnrollment : Option Bool := none
deriving DecidableEq

/-- The chapter payload of `get_chapter_lessons`. -/
structure ChapterOut where
  id : String
  title : String
  description : String
  courseId : Option String
deriving DecidableEq

/-- The response envelope of `get_chapter_lessons`. -/
structure ChapterLessonsRes where
  success : Bool
  lessons : Option (List ChapLessonOut) := none
  chapter : Option ChapterOut := none
  hasAccess : Option Bool := none
  message : Option String := none
deriving DecidableEq

/-- Body of `get_chapter_lessons` (inside the try). -/
def getChapterLessonsBody (st : St) (chapter_id : Option String) :
    Except (String × St) (ChapterLessonsRes × St) :=
  if !truthyS chapter_id then
    .ok ({ success := false, message := some "Chapter ID is required" }, st)
  else if !hasDoctype st "Course Chapter" then
    .ok ({ success := false, message := some "Course Chapter doctype not found" }, st)
  else if !chapterExists st (chapter_id.getD "") then
    .ok ({ success := false, message := some "Chapter not found" }, st)
  else
    match getDocChapter st (chapter_id.getD "") with
    | .error e => .error (e, st)
    | .ok chapter_doc =>
      let current_user := st.session_user
      let is_guest := current_user == "Guest"
      let course_name := some chapter_doc.course
      let has_access := false
      let has_access :=
        if !is_guest && truthyS course_name then
          let cn := course_name.getD ""
          let has_access :=
            if st.enrollments.any (fun en => en.course == cn && en.member == current_user)
            then true else has_access
          if courseExists st cn then
            match st.courses.find? (fun c => c.name == cn) with
            | some course_doc =>
              let has_access := if course_doc.owner == current_user then true else has_access
              if course_doc.instructor == some current_user then true else has_access
            | none => has_access
          else has_access
        else has_access
      let lessons :=
        if hasDoctype st "Course Lesson" then
          ((st.lessons.filter (fun l => l.chapter == chapter_id.getD "")).mergeSort
            (fun a b => a.idx ≤ b.idx)).map (fun lesson =>
            let is_preview := truthyOI lesson.include_in_preview
            let base : ChapLessonOut :=
              { id := lesson.name
                title := lesson.title
                isPreview := is_preview
                order := pyOrInt lesson.idx 0
                duration := lesson.duration.getD "" }
            if has_access || is_preview then
              { base with
                content := some (lesson.content.getD "")
                videoUrl := some (lesson.video_url.getD "")
                youtubeVideoId := some (lesson.youtube_video_id.getD "") }
            else { base with requiresEnrollment := some true })
        else []
      .ok ({ success := true
             lessons := some lessons
             chapter := some { id := chapter_doc.name
                               title := chapter_doc.title
                               description := chapter_doc.description.getD ""
                               courseId := course_name }
             hasAccess := some has_access }, st)

/-- `get_chapter_lessons(chapter_id)`. -/
def get_chapter_lessons (st : St) (chapter_id : Option String) : ChapterLessonsRes × St :=
  pyTry (getChapterLessonsBody st chapter_id) (fun e st =>
    ({ success := false, message := some "An error occurred while fetching chapter lessons" },
     logError st ("Get chapter lessons error: " ++ e) "Course API"))

/-- The response envelope of `mark_lesson_complete`. -/
structure MarkCompleteRes where
  success : Bool
  message : Option String := none
  courseProgress : Option ProgressPayload := none
deriving DecidableEq

/-- Body of `mark_lesson_complete` (inside the try); it calls the
`save_progress` and `get_progress` endpoints (which swallow their own
exceptions) and passes a failed save through unchanged. -/
def markLessonCompleteBody (st : St) (lesson_id course_id : Option String) :
    Except (String × St) (MarkCompleteRes × St) :=
  let current_user := st.session_user
  if current_user == "Guest" then
    .ok ({ success := false, message := some "Authentication required" }, st)
  else if !truthyS lesson_id then
    .ok ({ success := false, message := some "Lesson ID is required" }, st)
  else
    let courseStep : Except String (Option String) :=
      if !truthyS course_id then
        if hasDoctype st "Course Lesson" then
          match getDocLesson st (lesson_id.getD "") with
          | .error e => .error e
          | .ok lesson =>
            if truthyS lesson.course then .ok lesson.course
            else if lesson.chapter != "" then
              match getDocChapter st lesson.chapter with
              | .error e => .error e
              | .ok chapter => .ok (some chapter.course)
            else .ok course_id
        else .ok course_id
      else .ok course_id
    match courseStep with
    | .error e => .error (e, st)
    | .ok course_id =>
      if !truthyS course_id then
        .ok ({ success := false
               message := some "Could not determine course for this lesson" }, st)
      else
        let saved := save_progress st course_id lesson_id none (.i 100) (.b true) .none none
        let result := saved.1
        let st := saved.2
        if !result.success then
          .ok ({ success := result.success, message := result.message }, st)
        else
          let fetched := get_progress st course_id none
          let progress_result := fetched.1
          let st := fetched.2
          .ok ({ success := true
                 message := some "Lesson marked as complete"
                 courseProgress := if progress_result.success then progress_result.progress
                                   else none }, st)

/-- `mark_lesson_complete(lesson_id, course_id)`. -/
def mark_lesson_complete (st : St) (lesson_id course_id : Option String) :
    MarkCompleteRes × St :=
  pyTry (markLessonCompleteBody st lesson_id course_id) (fun e st =>
    ({ success := false, message := some "An error occurred while marking lesson complete" },
     logError st ("Mark lesson complete error: " ++ e) "Course API"))

/-! ## course.py: get_live_class and create_live_class -/

/-- The single live-class payload of `get_live_class`. -/
structure LiveClassDetail where
  id : String
  title : String
  description : String
  courseId : String
  instructor : InstructorInfo
  startTime : String
  endTime : String
  duration : String
  status : String
  meetingUrl : String
  meetingId : String
  maxParticipants : Int
  isRecorded : Bool
  recordingUrl : String
  agenda : String
  prerequisites : String
  createdAt : String
deriving DecidableEq

/-- The response envelope of `get_live_class`. -/
structure GetLiveClassRes where
  success : Bool
  liveClass : Option LiveClassDetail := none
  message : Option String := none
deriving DecidableEq

/-- `frappe.db.exists(dt, name)` for the live-class doctypes. -/
def liveClassExists (st : St) (name : String) : Bool :=
  (st.liveClasses.find? (fun lc => lc.name == name)).isSome

/-- Body of `get_live_class` (inside the try). -/
def getLiveClassBody (st : St) (class_id : Option String) :
    Except (String × St) (GetLiveClassRes × St) :=
  if !truthyS class_id then
    .ok ({ success := false, message := some "Live class ID is required" }, st)
  else
    match liveClassDoctype st with
    | none =>
      .ok ({ success := false, message := some "Live class feature not configured" }, st)
    | some _ =>
      if !liveClassExists st (class_id.getD "") then
        .ok ({ success := false, message := some "Live class not found" }, st)
      else
        match st.liveClasses.find? (fun x => x.name == class_id.getD "") with
        | none => .ok ({ success := false, message := some "Live class not found" }, st)
        | some lc =>
          let instructor_id := if lc.instructor.isSome then lc.instructor else some lc.owner
          let instructor_info :=
            if truthyS instructor_id && userExists st (instructor_id.getD "") then
              match st.users.find? (fun u => u.name == instructor_id.getD "") with
              | some user =>
                { id := instructor_id.getD ""
                  name := if user.full_name != "" then user.full_name
                          else instructor_id.getD ""
                  avatar := user.user_image.getD "" }
              | none => ({ id := "", name := "", avatar := "" } : InstructorInfo)
            else ({ id := "", name := "", avatar := "" } : InstructorInfo)
          .ok ({ success := true
                 liveClass := some
                   { id := lc.name
                     title := lc.title.getD lc.name
                     description := lc.description.getD ""
                     courseId := lc.course.getD ""
                     instructor := instructor_info
                     startTime := sOfTime lc.start_time
                     endTime := sOfTime lc.end_time
                     duration := lc.duration.getD ""
                     status := lc.status.getD "scheduled"
                     meetingUrl := lc.meeting_url.getD ""
                     meetingId := lc.meeting_id.getD ""
                     maxParticipants := lc.max_participants.getD 0
                     isRecorded := truthyOI lc.is_recorded
                     recordingUrl := lc.recording_url.getD ""
                     agenda := lc.agenda.getD ""
                     prerequisites := lc.prerequisites.getD ""
                     createdAt := lc.creation } }, st)

/-- `get_live_class(class_id)`. -/
def get_live_class (st : St) (class_id : Option String) : GetLiveClassRes × St :=
  pyTry (getLiveClassBody st class_id) (fun e st =>
    ({ success := false, message := some "An error occurred while fetching live class details" },
     logError st ("Get live class error: " ++ e) "Course API"))

/-- The response envelope of `create_live_class`. -/
structure CreateLiveClassRes where
  success : Bool
  liveClassId : Option String := none
  message : Option String := none
deriving DecidableEq

/-- Body of `create_live_class` (inside the try); `hasattr` on the fresh
document is column existence, start and end times arrive as the datetimes
they denote, and `insert` appends a document named from the counter. -/
def createLiveClassBody (st : St) (title course_id description : Option String)
    (start_time end_time : Option Nat) (duration meeting_url : Option String)
    (max_participants : PyScalar) (is_recorded : Bool) (agenda : Option String) :
    Except (String × St) (CreateLiveClassRes × St) :=
  let current_user := st.session_user
  if current_user == "Guest" then
    .ok ({ success := false, message := some "Authentication required" }, st)
  else if !truthyS title then
    .ok ({ success := false, message := some "Title is required" }, st)
  else
    match liveClassDoctype st with
    | none =>
      .ok ({ success := false
             message := some "Live class feature not configured. DocType not found." }, st)
    | some dt =>
      let hasCol := st.hasColumn dt
      let lc : LiveClassRec :=
        { name := "new-live-class-" ++ toString st.docCounter
          owner := current_user
          creation := st.nowStr
          title := title
          class_title := none
          description := if truthyS description && hasCol "description" then description
                         else none
          course := if truthyS course_id && hasCol "course" then course_id else none
          instructor := if hasCol "instructor" then some current_user else none
          start_time := if start_time.isSome && hasCol "start_time" then start_time else none
          end_time := if end_time.isSome && hasCol "end_time" then end_time else none
          duration := if truthyS duration && hasCol "duration" then duration else none
          status := if hasCol "status" then some "scheduled" else none
          meeting_url := if truthyS meeting_url && hasCol "meeting_url" then meeting_url
                         else none
          zoom_link := none
          meeting_id := none
          recording_url := none
          max_participants := if pyTruthy max_participants && hasCol "max_participants"
                              then some (cint max_participants) else none
          current_participants := none
          is_recorded := if is_recorded && hasCol "is_recorded" then some 1 else none
          record_session := none
          agenda := if truthyS agenda && hasCol "agenda" then agenda else none
          prerequisites := none }
      let st := { st with liveClasses := st.liveClasses ++ [lc],
                          docCounter := st.docCounter + 1 }
      .ok ({ success := true
             liveClassId := some lc.name
             message := some "Live class created successfully" }, st)

/-- `create_live_class(...)`. -/
def create_live_class (st : St) (title course_id description : Option String)
    (start_time end_time : Option Nat) (duration meeting_url : Option String)
    (max_participants : PyScalar) (is_recorded : Bool) (agenda : Option String) :
    CreateLiveClassRes × St :=
  pyTry (createLiveClassBody st title course_id description start_time end_time duration
          meeting_url max_participants is_recorded agenda) (fun e st =>
    ({ success := false
       message := some (if st.developer_mode then e
                        else "An error occurred while creating live class") },
     logError st ("Create live class error: " ++ e) "Course API"))

/-! ## Shared lemmas about the framework primitives -/

/-- `b64encode` of a non-empty byte list is non-empty. -/
theorem b64encode_ne_nil (a : Nat) (rest : List Nat) : b64encode (a :: rest) ≠ [] := by
  match rest with
  | [] => simp [b64encode]
  | [b] => simp [b64encode]
  | b :: c :: r => simp [b64encode]

/-- A 32-byte entropy block starts with a byte. -/
theorem bytes32_cons (l : List Nat) : ∃ a rest, bytes32 l = a :: rest := by
  cases l with
  | nil => exact ⟨0, List.replicate 31 0, by decide⟩
  | cons x xs =>
    exact ⟨x, (xs ++ List.replicate 32 0).take 31, by simp [bytes32]⟩

/-- Tokens from the secure-random generator are never empty. -/
theorem tokenUrlsafe_bytes32_ne_empty (l : List Nat) : tokenUrlsafe (bytes32 l) ≠ "" := by
  obtain ⟨a, rest, h⟩ := bytes32_cons l
  rw [tokenUrlsafe, h]
  intro hc
  have hdata : b64encode (a :: rest) = [] := by
    have h2 := congrArg String.data hc
    simpa using h2
  exact b64encode_ne_nil a rest hdata

/-- Finding by one key is unaffected by filtering out another key. -/
theorem find_key_filter (l : List CEntry) (k k' : String) (h : k' ≠ k) :
    (l.filter (fun e => e.key != k)).find? (fun e => e.key == k') =
      l.find? (fun e => e.key == k') := by
  induction l with
  | nil => rfl
  | cons e t ih =>
    by_cases he : e.key = k
    · have h1 : (e.key != k) = false := by simp [he]
      have h2 : (e.key == k') = false := by simp [he]; exact fun hh => h hh.symm
      simp [List.filter_cons, h1, List.find?, h2, ih]
    · have h1 : (e.key != k) = true := by simp [he]
      by_cases hk : e.key = k'
      · simp [List.filter_cons, h1, List.find?, hk, h]
      · have h2 : (e.key == k') = false := by simp [hk]
        simp [List.filter_cons, h1, List.find?, h2, ih]

/-- A cache write is visible at its own key while the TTL is positive. -/
theorem cacheGet_set_self (st : St) (k : String) (v : CVal) (ttl : Nat) (h : 0 < ttl) :
    cacheGet (cacheSet st k v ttl) k = some v := by
  simp [cacheGet, cacheSet, cacheLookup, List.find?]
  omega

/-- A cache write leaves every other key unchanged. -/
theorem cacheGet_set_ne (st : St) (k : String) (v : CVal) (ttl : Nat) (k' : String)
    (h : k' ≠ k) : cacheGet (cacheSet st k v ttl) k' = cacheGet st k' := by
  have hk : (k == k') = false := by simp; exact fun hh => h hh.symm
  simp [cacheGet, cacheSet, cacheLookup, List.find?, hk, find_key_filter _ _ _ h]

/-- The raw lookup after a write at the same key. -/
theorem cacheLookup_set_self (st : St) (k : String) (v : CVal) (ttl : Nat) :
    cacheLookup (cacheSet st k v ttl) k = some ⟨k, v, st.now + ttl⟩ := by
  simp [cacheLookup, cacheSet, List.find?]

/-- Deleting a key removes it from the cache. -/
theorem cacheGet_delete_self (st : St) (k : String) :
    cacheGet (cacheDelete st k) k = none := by
  have : (st.cache.filter (fun e => e.key != k)).find? (fun e => e.key == k) = none := by
    rw [List.find?_eq_none]
    intro e he
    have := List.of_mem_filter he
    simpa using this
  simp [cacheGet, cacheDelete, cacheLookup, this]

/-- Deleting a key leaves every other key unchanged. -/
theorem cacheGet_delete_ne (st : St) (k k' : String) (h : k' ≠ k) :
    cacheGet (cacheDelete st k) k' = cacheGet st k' := by
  simp [cacheGet, cacheDelete, cacheLookup, find_key_filter _ _ _ h]

/-- An `api_token:` key never collides with a `refresh_token:` key. -/
theorem api_key_ne_refresh_key (x y : String) :
    ("api_token:" ++ x) ≠ ("refresh_token:" ++ y) := by
  intro h
  have h2 := congrArg (fun s : String => s.data.take 4) h
  simp only [String.data_append] at h2
  rw [List.take_append_of_le_length (by decide),
      List.take_append_of_le_length (by decide)] at h2
  exact absurd h2 (by decide)

/-- A `refresh_token:` key never collides with an `api_token:` key. -/
theorem refresh_key_ne_api_key (x y : String) :
    ("refresh_token:" ++ x) ≠ ("api_token:" ++ y) :=
  fun h => api_key_ne_refresh_key y x h.symm

/-- A baseline concrete state for witnesses. -/
def st0 : St :=
  { now := 0
    nowStr := "2026-01-01 00:00:00"
    nowDT := 0
    cache := []
    users := []
    userRoles := fun _ => []
    rolesDefined := []
    enrollments := []
    doctypes := []
    hasColumn := fun _ _ => false
    fetchCourses := fun _ _ => []
    courses := []
    chapters := []
    lessons := []
    reviews := []
    progressRecs := []
    progressSchema := ⟨false, false, false, false, false, false⟩
    liveClasses := []
    fetchLive := fun _ => []
    session_user := "Guest"
    loginAuth := fun _ _ => none
    resetRaises := fun _ => none
    developer_mode := false
    entropy := fun _ => []
    entropyIdx := 0
    errorLog := []
    docCounter := 0
    checkPasswordOk := fun _ _ => false
    pwUpdates := []
    catRecs := []
    fetchFeatured := fun _ _ => [] }

/-- C7: `generate_api_token` returns a fresh secure-random token and stores a
single cache entry `api_token:<token> ↦ user` with a 3600-second expiry;
`validate_api_token` returns that user while the entry is live, and returns
`None` on an empty token or one with no cache entry. -/
theorem C7_token_cache (st : St) (user : String) :
    (generate_api_token st user).1 = tokenUrlsafe (bytes32 (st.entropy st.entropyIdx)) ∧
    (generate_api_token st user).1 ≠ "" ∧
    (generate_api_token st user).2.entropyIdx = st.entropyIdx + 1 ∧
    cacheLookup (generate_api_token st user).2 ("api_token:" ++ (generate_api_token st user).1) =
      some ⟨"api_token:" ++ (generate_api_token st user).1, .s user, st.now + 3600⟩ ∧
    (∀ k, k ≠ "api_token:" ++ (generate_api_token st user).1 →
      cacheGet (generate_api_token st user).2 k = cacheGet st k) ∧
    (∀ t, t < st.now + 3600 →
      validate_api_token (advanceTo (generate_api_token st user).2 t)
        (generate_api_token st user).1 = some (.s user)) ∧
    validate_api_token st "" = none ∧
    (∀ tok, tok ≠ "" → cacheLookup st ("api_token:" ++ tok) = none →
      validate_api_token st tok = none) := by
  have htok : (generate_api_token st user).1 = tokenUrlsafe (bytes32 (st.entropy st.entropyIdx)) := rfl
  have hne : (generate_api_token st user).1 ≠ "" := by
    rw [htok]; exact tokenUrlsafe_bytes32_ne_empty _
  have hst : (generate_api_token st user).2 =
      cacheSet { st with entropyIdx := st.entropyIdx + 1 }
        ("api_token:" ++ (generate_api_token st user).1) (.s user) 3600 := rfl
  refine ⟨htok, hne, ?_, ?_, ?_, ?_, ?_, ?_⟩
  · rw [hst]; rfl
  · rw [hst]; exact cacheLookup_set_self _ _ _ _
  · intro k hk
    rw [hst, cacheGet_set_ne _ _ _ _ _ hk]
    rfl
  · intro t ht
    have hbeq : ((generate_api_token st user).1 == "") = false := by
      simp [hne]
    simp only [validate_api_token, hbeq, Bool.false_eq_true, if_false]
    have hl : cacheLookup (advanceTo (generate_api_token st user).2 t)
        ("api_token:" ++ (generate_api_token st user).1) =
        some ⟨"api_token:" ++ (generate_api_token st user).1, .s user, st.now + 3600⟩ := by
      rw [hst]
      exact cacheLookup_set_self _ _ _ _
    unfold cacheGet
    rw [hl]
    simp [advanceTo, ht]
  · simp [validate_api_token]
  · intro tok h1 h2
    simp [validate_api_token, h1, cacheGet, h2]

/-- Witness for C7 at a concrete state and user. -/
theorem C7_token_cache_witness :
    cacheLookup (generate_api_token st0 "alice").2
      ("api_token:" ++ (generate_api_token st0 "alice").1) =
      some ⟨"api_token:" ++ (generate_api_token st0 "alice").1, .s "alice", st0.now + 3600⟩ ∧
    validate_api_token (advanceTo (generate_api_token st0 "alice").2 100)
      (generate_api_token st0 "alice").1 = some (.s "alice") ∧
    validate_api_token st0 "sometok" = none := by
  obtain ⟨h1, h2, h3, h4, h5, h6, h7, h8⟩ := C7_token_cache st0 "alice"
  exact ⟨h4, h6 100 (by norm_num), h8 "sometok" (by decide) rfl⟩


/-- `cacheGet` ignores the entropy counter. -/
theorem cacheGet_entropyIdx (st : St) (n : Nat) (k : String) :
    cacheGet { st with entropyIdx := n } k = cacheGet st k := rfl

/-- C3: a `login` call with non-empty email and password that the login
manager authenticates returns `success=true`, `expiresIn=3600` and a
non-empty token drawn from the secure-random generator, stored as a cache
entry `api_token:<token> ↦ user`.  (The authenticated user is assumed to
have a `User` record — a framework invariant of successful
authentication.) -/
theorem C3_login_success (st : St) (email password : Option String) (remember_me : Bool)
    (body : Option LoginBody) (u : String) (urec : UserRec)
    (hem : truthyS email = true) (hpw : truthyS password = true)
    (hauth : st.loginAuth (email.getD "") (password.getD "") = some u)
    (huser : st.users.find? (fun x => x.name == u) = some urec) :
    (login st email password remember_me body).1.success = true ∧
    (login st email password remember_me body).1.expiresIn = some 3600 ∧
    (login st email password remember_me body).1.token =
      some (tokenUrlsafe (bytes32 (st.entropy st.entropyIdx))) ∧
    tokenUrlsafe (bytes32 (st.entropy st.entropyIdx)) ≠ "" ∧
    cacheGet (login st email password remember_me body).2
      ("api_token:" ++ tokenUrlsafe (bytes32 (st.entropy st.entropyIdx))) = some (.s u) := by
  have hmerge : mergeLoginArgs email password remember_me body =
      (email, password, remember_me) := by
    simp [mergeLoginArgs, hem]
  simp only [login, pyTry, loginBody, hmerge, hem, hpw, Bool.not_true, Bool.or_self,
    Bool.false_eq_true, if_false, hauth, generate_api_token]
  split
  next e' v heq =>
    simp only [get_user_data, getDocUser, cacheSet, huser] at heq
    rw [Except.ok.injEq] at heq
    subst heq
    refine ⟨rfl, rfl, rfl, tokenUrlsafe_bytes32_ne_empty _, ?_⟩
    have hb : (("refresh_token:" ++ tokenUrlsafe (bytes32 (st.entropy (st.entropyIdx + 1)))) ==
        ("api_token:" ++ tokenUrlsafe (bytes32 (st.entropy st.entropyIdx)))) = false := by
      rw [beq_eq_false_iff_ne]
      exact refresh_key_ne_api_key _ _
    unfold cacheGet cacheLookup
    rw [List.find?_cons_of_neg _ (by rw [hb]; exact Bool.false_ne_true)]
    rw [find_key_filter _ _ _ (api_key_ne_refresh_key _ _)]
    rw [List.find?_cons_of_pos _ (by exact beq_self_eq_true _)]
    simp
  next e' e2 st2 heq =>
    simp only [get_user_data, getDocUser, cacheSet, huser] at heq
    simp at heq

/-- A concrete user for the C3 witness. -/
def urecBob : UserRec :=
  { name := "bob@x.com", email := "bob@x.com", full_name := "Bob Builder"
    user_image := none, enabled := 1, creation := "2026-01-01" }

/-- A concrete state whose login manager accepts Bob's credentials. -/
def stC3 : St :=
  { st0 with
    users := [urecBob]
    loginAuth := fun e p =>
      if e == "bob@x.com" && p == "hunter2xx" then some "bob@x.com" else none }

/-- Witness for C3 at a concrete state and credentials. -/
theorem C3_login_success_witness :
    (login stC3 (some "bob@x.com") (some "hunter2xx") false none).1.success = true ∧
    (login stC3 (some "bob@x.com") (some "hunter2xx") false none).1.expiresIn = some 3600 ∧
    (login stC3 (some "bob@x.com") (some "hunter2xx") false none).1.token =
      some (tokenUrlsafe (bytes32 (stC3.entropy stC3.entropyIdx))) ∧
    tokenUrlsafe (bytes32 (stC3.entropy stC3.entropyIdx)) ≠ "" ∧
    cacheGet (login stC3 (some "bob@x.com") (some "hunter2xx") false none).2
      ("api_token:" ++ tokenUrlsafe (bytes32 (stC3.entropy stC3.entropyIdx))) =
      some (.s "bob@x.com") :=
  C3_login_success stC3 (some "bob@x.com") (some "hunter2xx") false none "bob@x.com" urecBob
    (by decide) (by decide) (by decide) (by decide)

/-- C6: `register` returns `success=false` and leaves the state (hence the
`User` table) unchanged whenever the merged full name, email or password is
missing, the passwords differ, the password is shorter than 8 characters,
or a `User` with the email already exists — all checked before the
user-creation step. -/
theorem C6_register_rejections (st : St)
    (full_name email password confirm_password : Option String)
    (role : String) (body : Option RegisterBody)
    (h : ¬(truthyS (mergeRegisterArgs full_name email password confirm_password role body).full_name = true ∧
           truthyS (mergeRegisterArgs full_name email password confirm_password role body).email = true ∧
           truthyS (mergeRegisterArgs full_name email password confirm_password role body).password = true) ∨
         (mergeRegisterArgs full_name email password confirm_password role body).password ≠
           (mergeRegisterArgs full_name email password confirm_password role body).confirm_password ∨
         ((mergeRegisterArgs full_name email password confirm_password role body).password.getD "").length < 8 ∨
         userExists st ((mergeRegisterArgs full_name email password confirm_password role body).email.getD "") = true) :
    (register st full_name email password confirm_password role body).1.success = false ∧
    (register st full_name email password confirm_password role body).2 = st := by
  unfold register pyTry registerBody
  set m := mergeRegisterArgs full_name email password confirm_password role body with hm
  by_cases h1 : (truthyS m.full_name && truthyS m.email && truthyS m.password) = true
  case neg =>
    rw [Bool.not_eq_true] at h1
    simp only [h1, Bool.not_false, if_true]
    all_goals exact ⟨by trivial, by trivial⟩
  case pos =>
    by_cases h2 : (m.password != m.confirm_password) = true
    case pos =>
      simp only [h1, Bool.not_true, Bool.false_eq_true, if_false, h2, if_true]
      all_goals exact ⟨by trivial, by trivial⟩
    case neg =>
      rw [Bool.not_eq_true] at h2
      by_cases h3 : (m.password.getD "").length < 8
      case pos =>
        simp only [h1, Bool.not_true, Bool.false_eq_true, if_false, h2, h3, if_true]
        all_goals exact ⟨by trivial, by trivial⟩
      case neg =>
        by_cases h4 : userExists st (m.email.getD "") = true
        case pos =>
          simp only [h1, Bool.not_true, Bool.false_eq_true, if_false, h2, h3, h4, if_true]
          all_goals exact ⟨by trivial, by trivial⟩
        case neg =>
          exfalso
          rw [Bool.not_eq_true] at h4
          rcases h with d | d | d | d
          · refine d ?_
            have := h1
            simp only [Bool.and_eq_true] at this
            exact ⟨this.1.1, this.1.2, this.2⟩
          · exact d (by simpa using h2)
          · exact h3 d
          · rw [d] at h4
            cases h4

/-- Witness for C6: a too-short password is rejected without any state change. -/
theorem C6_register_rejections_witness :
    (register st0 (some "Ann Smith") (some "ann@x.com") (some "short") (some "short")
      "student" none).1.success = false ∧
    (register st0 (some "Ann Smith") (some "ann@x.com") (some "short") (some "short")
      "student" none).2 = st0 :=
  C6_register_rejections st0 (some "Ann Smith") (some "ann@x.com") (some "short")
    (some "short") "student" none (Or.inr (Or.inr (Or.inl (by decide))))

/-- C8 counterexample: with an empty email parameter the framework reset is
never invoked (so it does not raise), yet `forgot_password` returns
`success=false`, contradicting "for every email parameter ... returns
success=true". -/
theorem C8_counterexample :
    (forgot_password st0 (some "") none).1.success = false ∧
    (forgot_password st0 (some "") none).1.message = some "Email is required" := by
  constructor <;> rfl

/-- C8 (amended): for every call whose effective email parameter is
non-empty and on which the framework reset call does not raise,
`forgot_password` returns the same response — `success=true` with the
fixed non-revealing message — on any two states, in particular whether or
not a `User` with that email exists. -/
theorem C8_forgot_password_uniform (st1 st2 : St) (email : Option String)
    (body : Option ForgotBody)
    (hem : truthyS (mergeForgotArg email body) = true)
    (hr1 : st1.resetRaises ((mergeForgotArg email body).getD "") = none)
    (hr2 : st2.resetRaises ((mergeForgotArg email body).getD "") = none) :
    (forgot_password st1 email body).1 = (forgot_password st2 email body).1 ∧
    (forgot_password st1 email body).1.success = true ∧
    (forgot_password st1 email body).1.message =
      some "If an account with this email exists, you will receive a password reset link" := by
  have key : ∀ s : St, s.resetRaises ((mergeForgotArg email body).getD "") = none →
      (forgot_password s email body).1 =
        { success := true
          message := some "If an account with this email exists, you will receive a password reset link" } := by
    intro s hr
    unfold forgot_password pyTry forgotPasswordBody
    simp only [hem, Bool.not_true, Bool.false_eq_true, if_false]
    by_cases hu : userExists s ((mergeForgotArg email body).getD "") = true
    · simp only [hu, Bool.not_true, Bool.false_eq_true, if_false, hr]
    · rw [Bool.not_eq_true] at hu
      simp only [hu, Bool.not_false, if_true]
  exact ⟨(key st1 hr1).trans (key st2 hr2).symm, by rw [key st1 hr1], by rw [key st1 hr1]⟩

/-- A state where Bob exists, for the C8 witness. -/
def stC8 : St := { st0 with users := [urecBob] }

/-- Witness for C8: the response is identical with and without the user. -/
theorem C8_forgot_password_uniform_witness :
    (forgot_password stC8 (some "bob@x.com") none).1 =
      (forgot_password st0 (some "bob@x.com") none).1 ∧
    (forgot_password stC8 (some "bob@x.com") none).1.success = true ∧
    (forgot_password stC8 (some "bob@x.com") none).1.message =
      some "If an account with this email exists, you will receive a password reset link" :=
  C8_forgot_password_uniform stC8 st0 (some "bob@x.com") none (by decide) rfl rfl

/-- Left cancellation of string concatenation. -/
theorem str_append_cancel_left {p a b : String} (h : p ++ a = p ++ b) : a = b := by
  have h2 := congrArg String.data h
  simp only [String.data_append] at h2
  have h3 := List.append_cancel_left h2
  exact congrArg String.mk h3

/-- The explicit result of a successful `refresh_token` call: the old
entry is deleted, then the new api token and the new refresh token are
cached. -/
theorem refresh_success_shape (st : St) (tok : Option String) (body : Option RefreshBody)
    (u : String)
    (ht : truthyS (mergeRefreshArg tok body) = true)
    (hcg : cacheGet st ("refresh_token:" ++ (mergeRefreshArg tok body).getD "") = some (.s u))
    (hu : (u == "") = false) :
    refresh_token st tok body =
      ({ success := true
         token := some (tokenUrlsafe (bytes32 (st.entropy st.entropyIdx)))
         refreshToken := some (tokenUrlsafe (bytes32 (st.entropy (st.entropyIdx + 1))))
         expiresIn := some 3600
         message := some "Token refreshed successfully" },
       cacheSet
         { cacheSet
             { cacheDelete st ("refresh_token:" ++ (mergeRefreshArg tok body).getD "") with
               entropyIdx := st.entropyIdx + 1 }
             ("api_token:" ++ tokenUrlsafe (bytes32 (st.entropy st.entropyIdx))) (.s u) 3600 with
           entropyIdx := st.entropyIdx + 2 }
         ("refresh_token:" ++ tokenUrlsafe (bytes32 (st.entropy (st.entropyIdx + 1)))) (.s u)
         86400) := by
  unfold refresh_token pyTry refreshTokenBody generate_api_token
  simp only [ht, Bool.not_true, Bool.false_eq_true, if_false, hcg, hu]
  rfl

/-- `refresh_token` fails with the invalid-or-expired message when the
presented token has no cache entry. -/
theorem refresh_fail_of_none (st : St) (tok : Option String) (body : Option RefreshBody)
    (ht : truthyS (mergeRefreshArg tok body) = true)
    (hnone : cacheGet st ("refresh_token:" ++ (mergeRefreshArg tok body).getD "") = none) :
    (refresh_token st tok body).1.success = false ∧
    (refresh_token st tok body).1.message = some "Invalid or expired refresh token" := by
  unfold refresh_token pyTry refreshTokenBody
  simp only [ht, Bool.not_true, Bool.false_eq_true, if_false, hnone]
  all_goals exact ⟨by trivial, by trivial⟩

/-- C9: refresh tokens are single-use: after a successful `refresh_token`
call whose newly issued refresh token differs from the presented one,
presenting the same token again fails with the invalid-or-expired message,
because the successful call deleted the cache entry of the presented token
before issuing the new pair. -/
theorem C9_refresh_single_use (st : St) (tok : Option String) (body : Option RefreshBody)
    (hsucc : (refresh_token st tok body).1.success = true)
    (hfresh : (refresh_token st tok body).1.refreshToken ≠
      some ((mergeRefreshArg tok body).getD "")) :
    (refresh_token (refresh_token st tok body).2 tok body).1.success = false ∧
    (refresh_token (refresh_token st tok body).2 tok body).1.message =
      some "Invalid or expired refresh token" := by
  by_cases ht : truthyS (mergeRefreshArg tok body) = true
  case neg =>
    exfalso
    rw [Bool.not_eq_true] at ht
    unfold refresh_token pyTry refreshTokenBody at hsucc
    simp [ht] at hsucc
  case pos =>
  cases hcg : cacheGet st ("refresh_token:" ++ (mergeRefreshArg tok body).getD "") with
  | none =>
    exfalso
    unfold refresh_token pyTry refreshTokenBody at hsucc
    simp [ht, hcg] at hsucc
  | some v =>
    cases v with
    | prog p =>
      exfalso
      unfold refresh_token pyTry refreshTokenBody at hsucc
      simp [ht, hcg] at hsucc
    | slist l =>
      exfalso
      unfold refresh_token pyTry refreshTokenBody at hsucc
      simp [ht, hcg] at hsucc
    | s u =>
      by_cases hu : (u == "") = true
      case pos =>
        exfalso
        unfold refresh_token pyTry refreshTokenBody at hsucc
        simp [ht, hcg, hu] at hsucc
      case neg =>
        rw [Bool.not_eq_true] at hu
        have hr := refresh_success_shape st tok body u ht hcg hu
        have hne : tokenUrlsafe (bytes32 (st.entropy (st.entropyIdx + 1))) ≠
            (mergeRefreshArg tok body).getD "" := by
          intro hcontra
          apply hfresh
          rw [hr]
          simpa using congrArg some hcontra
        have hk_new : ("refresh_token:" ++ (mergeRefreshArg tok body).getD "") ≠
            ("refresh_token:" ++ tokenUrlsafe (bytes32 (st.entropy (st.entropyIdx + 1)))) := by
          intro hcontra
          exact hne (str_append_cancel_left hcontra).symm
        have hnone : cacheGet (refresh_token st tok body).2
            ("refresh_token:" ++ (mergeRefreshArg tok body).getD "") = none := by
          rw [hr]
          rw [cacheGet_set_ne _ _ _ _ _ hk_new, cacheGet_entropyIdx,
              cacheGet_set_ne _ _ _ _ _ (refresh_key_ne_api_key _ _), cacheGet_entropyIdx]
          exact cacheGet_delete_self _ _
        exact refresh_fail_of_none _ tok body ht hnone

/-- A state holding one live refresh token, for the C9 witness. -/
def stC9 : St :=
  { st0 with cache := [⟨"refresh_token:rt1", .s "bob@x.com", 100⟩] }

/-- Witness for C9: replaying a consumed refresh token is rejected. -/
theorem C9_refresh_single_use_witness :
    (refresh_token (refresh_token stC9 (some "rt1") none).2 (some "rt1") none).1.success = false ∧
    (refresh_token (refresh_token stC9 (some "rt1") none).2 (some "rt1") none).1.message =
      some "Invalid or expired refresh token" :=
  C9_refresh_single_use stC9 (some "rt1") none (by decide) (by decide)

/-- `cacheGet` ignores the live-class table. -/
theorem cacheGet_liveClasses (st : St) (x : List LiveClassRec) (k : String) :
    cacheGet { st with liveClasses := x } k = cacheGet st k := rfl

/-- Replacing the found record by a same-named one is found again. -/
theorem find_map_if (l : List LiveClassRec) (cid : String) (new lc : LiveClassRec)
    (hfind : l.find? (fun x => x.name == cid) = some lc)
    (hnewname : (new.name == cid) = true) :
    (l.map (fun r => if r.name == cid then new else r)).find? (fun x => x.name == cid) =
      some new := by
  induction l with
  | nil => simp at hfind
  | cons a t ih =>
    by_cases ha : (a.name == cid) = true
    · simp [List.find?, ha, hnewname]
    · rw [Bool.not_eq_true] at ha
      rw [List.find?_cons_of_neg _ (by simp [ha])] at hfind
      simp only [List.map_cons]
      rw [List.find?_cons_of_neg _ (by simp [ha])]
      exact ih hfind

/-- The result of `join_live_class` when the user is already an attendee:
the response is a success and nothing changes. -/
theorem join_already_shape (st : St) (cid0 : Option String) (dt : String)
    (lc : LiveClassRec) (attendees : List String)
    (hg : (st.session_user == "Guest") = false)
    (htr : truthyS cid0 = true)
    (hdt : liveClassDoctype st = some dt)
    (hfind : st.liveClasses.find? (fun x => x.name == cid0.getD "") = some lc)
    (hc1 : ((if truthyS lc.status then lc.status.getD "" else "scheduled") == "completed") = false)
    (hc2 : ((if truthyS lc.status then lc.status.getD "" else "scheduled") == "cancelled") = false)
    (hatt : attendeesOf st (cid0.getD "") = some attendees)
    (hmem : attendees.contains st.session_user = true) :
    join_live_class st cid0 =
      ({ success := true, meetingUrl := some (lc.meeting_url.getD "")
         message := some "Joined live class successfully" }, st) := by
  unfold join_live_class pyTry joinLiveClassBody
  simp only [hg, htr, hdt, hfind, hc1, hc2, hatt, hmem, Bool.not_true, Bool.not_false,
    Bool.false_eq_true, if_false, if_true]

/-- The result of `join_live_class` when the user is not yet an attendee:
the user is appended to the cached list and, when the record has a
participant counter, the counter is updated to the new list length. -/
theorem join_append_shape (st : St) (cid0 : Option String) (dt : String)
    (lc : LiveClassRec) (attendees : List String)
    (hg : (st.session_user == "Guest") = false)
    (htr : truthyS cid0 = true)
    (hdt : liveClassDoctype st = some dt)
    (hfind : st.liveClasses.find? (fun x => x.name == cid0.getD "") = some lc)
    (hc1 : ((if truthyS lc.status then lc.status.getD "" else "scheduled") == "completed") = false)
    (hc2 : ((if truthyS lc.status then lc.status.getD "" else "scheduled") == "cancelled") = false)
    (hatt : attendeesOf st (cid0.getD "") = some attendees)
    (hmem : attendees.contains st.session_user = false) :
    join_live_class st cid0 =
      ({ success := true, meetingUrl := some (lc.meeting_url.getD "")
         message := some "Joined live class successfully" },
       let st2 := cacheSet st ("live_class_attendance:" ++ cid0.getD "")
         (.slist (attendees ++ [st.session_user])) 86400
       if lc.current_participants.isSome then
         { st2 with
           liveClasses := st.liveClasses.map (fun r => if r.name == cid0.getD "" then { lc with current_participants := some ((attendees ++ [st.session_user]).length : Int) } else r) }
       else st2) := by
  unfold join_live_class pyTry joinLiveClassBody
  simp only [hg, htr, hdt, hfind, hc1, hc2, hatt, hmem, Bool.not_true, Bool.not_false,
    Bool.false_eq_true, if_false, if_true]
  all_goals rfl

/-- `attendeesOf` through a cache hit with a list value. -/
theorem attendeesOf_of_cacheGet (s : St) (cid : String) (l : List String)
    (h : cacheGet s ("live_class_attendance:" ++ cid) = some (.slist l)) :
    attendeesOf s cid = some l := by
  unfold attendeesOf
  rw [h]

/-- C10: `join_live_class` is idempotent per user: the cached attendance
list stays duplicate-free, and once a join has succeeded, a second join by
the same user returns the same successful response and leaves the state
(attendance list and participant counter included) unchanged. -/
theorem C10_join_idempotent (st : St) (class_id : Option String) :
    ((∀ l, cacheGet st ("live_class_attendance:" ++ class_id.getD "") = some (.slist l) →
        l.Nodup) →
      ∀ l', cacheGet (join_live_class st class_id).2
          ("live_class_attendance:" ++ class_id.getD "") = some (.slist l') → l'.Nodup) ∧
    ((join_live_class st class_id).1.success = true →
      join_live_class (join_live_class st class_id).2 class_id =
        ((join_live_class st class_id).1, (join_live_class st class_id).2)) := by
  have generic : ∀ (env : JoinRes) (st2 : St),
      join_live_class st class_id = (env, st2) →
      (∀ k, cacheGet st2 k = cacheGet st k) →
      env.success = false →
      ((∀ l, cacheGet st ("live_class_attendance:" ++ class_id.getD "") = some (.slist l) →
          l.Nodup) →
        ∀ l', cacheGet (join_live_class st class_id).2
            ("live_class_attendance:" ++ class_id.getD "") = some (.slist l') → l'.Nodup) ∧
      ((join_live_class st class_id).1.success = true →
        join_live_class (join_live_class st class_id).2 class_id =
          ((join_live_class st class_id).1, (join_live_class st class_id).2)) := by
    intro env st2 hsh hcache hfail
    constructor
    · intro hyp l' hl'
      rw [hsh] at hl'
      rw [hcache _] at hl'
      exact hyp l' hl'
    · intro hsucc
      rw [hsh] at hsucc
      simp [hfail] at hsucc
  by_cases hg : (st.session_user == "Guest") = true
  · refine generic { success := false, message := some "Authentication required to join live class" } st ?_ (fun k => rfl) rfl
    unfold join_live_class pyTry joinLiveClassBody
    simp only [hg, if_true]
  rw [Bool.not_eq_true] at hg
  by_cases htr : truthyS class_id = true
  case neg =>
    rw [Bool.not_eq_true] at htr
    refine generic { success := false, message := some "Live class ID is required" } st ?_ (fun k => rfl) rfl
    unfold join_live_class pyTry joinLiveClassBody
    simp only [hg, htr, Bool.not_false, Bool.false_eq_true, if_false, if_true]
  case pos =>
  cases hdt : liveClassDoctype st with
  | none =>
    refine generic { success := false, message := some "Live class feature not configured" } st ?_ (fun k => rfl) rfl
    unfold join_live_class pyTry joinLiveClassBody
    simp only [hg, htr, hdt, Bool.not_true, Bool.false_eq_true, if_false]
  | some dt =>
  cases hfind : st.liveClasses.find? (fun x => x.name == class_id.getD "") with
  | none =>
    refine generic { success := false, message := some "Live class not found" } st ?_ (fun k => rfl) rfl
    unfold join_live_class pyTry joinLiveClassBody
    simp only [hg, htr, hdt, hfind, Bool.not_true, Bool.false_eq_true, if_false]
  | some lc =>
  by_cases hc1 : ((if truthyS lc.status then lc.status.getD "" else "scheduled") == "completed") = true
  · refine generic { success := false, message := some "This live class has ended" } st ?_ (fun k => rfl) rfl
    unfold join_live_class pyTry joinLiveClassBody
    simp only [hg, htr, hdt, hfind, hc1, Bool.not_true, Bool.false_eq_true, if_false, if_true]
  rw [Bool.not_eq_true] at hc1
  by_cases hc2 : ((if truthyS lc.status then lc.status.getD "" else "scheduled") == "cancelled") = true
  · refine generic { success := false, message := some "This live class has been cancelled" } st ?_ (fun k => rfl) rfl
    unfold join_live_class pyTry joinLiveClassBody
    simp only [hg, htr, hdt, hfind, hc1, hc2, Bool.not_true, Bool.false_eq_true, if_false, if_true]
  rw [Bool.not_eq_true] at hc2
  cases hatt : attendeesOf st (class_id.getD "") with
  | none =>
    refine generic { success := false, message := some "An error occurred while joining live class" }
      (logError st ("Join live class error: " ++ "Expecting value: line 1 column 1 (char 0)") "Course API")
      ?_ (fun k => rfl) rfl
    unfold join_live_class pyTry joinLiveClassBody
    simp only [hg, htr, hdt, hfind, hc1, hc2, hatt, Bool.not_true, Bool.false_eq_true,
      if_false, if_true]
  | some attendees =>
  by_cases hmem : attendees.contains st.session_user = true
  · have hsh := join_already_shape st class_id dt lc attendees hg htr hdt hfind hc1 hc2 hatt hmem
    constructor
    · intro hyp l' hl'
      rw [hsh] at hl'
      exact hyp l' hl'
    · intro _
      rw [hsh]
      exact hsh
  · rw [Bool.not_eq_true] at hmem
    have hsh := join_append_shape st class_id dt lc attendees hg htr hdt hfind hc1 hc2 hatt hmem
    have hv := cacheGet_set_self st ("live_class_attendance:" ++ class_id.getD "")
      (.slist (attendees ++ [st.session_user])) 86400 (by norm_num)
    have hnodup : (∀ l, cacheGet st ("live_class_attendance:" ++ class_id.getD "") =
        some (.slist l) → l.Nodup) → (attendees ++ [st.session_user]).Nodup := by
      intro hyp
      have hmemf : st.session_user ∉ attendees := by simpa using hmem
      have hanod : attendees.Nodup := by
        unfold attendeesOf at hatt
        revert hatt
        cases hcg : cacheGet st ("live_class_attendance:" ++ class_id.getD "") with
        | none =>
          intro hatt
          simp at hatt
          first
          | simp [hatt]
          | simp [← hatt]
        | some v =>
          cases v with
          | s w => intro hatt; simp at hatt
          | prog p => intro hatt; simp at hatt
          | slist l0 =>
            intro hatt
            simp at hatt
            rw [← hatt]
            exact hyp l0 hcg
      simp [List.nodup_append, hanod, hmemf]
    constructor
    · intro hyp l' hl'
      rw [hsh] at hl'
      by_cases hcp : lc.current_participants.isSome = true
      · simp only [hcp, if_true] at hl'
        have hx := hv.symm.trans hl'
        simp at hx
        rw [← hx]
        exact hnodup hyp
      · rw [Bool.not_eq_true] at hcp
        simp only [hcp, Bool.false_eq_true, if_false] at hl'
        have hx := hv.symm.trans hl'
        simp at hx
        rw [← hx]
        exact hnodup hyp
    · intro _
      rw [hsh]
      have hname := List.find?_some hfind
      by_cases hcp : lc.current_participants.isSome = true
      · simp only [hcp, if_true]
        exact join_already_shape _ class_id dt
          { lc with current_participants := some ((attendees ++ [st.session_user]).length : Int) }
          (attendees ++ [st.session_user]) hg htr hdt
          (find_map_if st.liveClasses (class_id.getD "")
            { lc with current_participants := some ((attendees ++ [st.session_user]).length : Int) }
            lc hfind hname)
          hc1 hc2
          (attendeesOf_of_cacheGet _ _ _ hv)
          (by simp [cacheSet])
      · rw [Bool.not_eq_true] at hcp
        simp only [hcp, Bool.false_eq_true, if_false]
        exact join_already_shape _ class_id dt lc (attendees ++ [st.session_user])
          hg htr hdt hfind hc1 hc2
          (attendeesOf_of_cacheGet _ _ _ hv)
          (by simp [cacheSet])

/-- A live class record for the C10 witness. -/
def lcC10 : LiveClassRec :=
  { name := "LC1", owner := "inst@x.com", creation := "2026-01-01"
    title := some "Algebra", class_title := none, description := none, course := none
    instructor := none, start_time := none, end_time := none, duration := none
    status := none, meeting_url := some "https://meet/LC1", zoom_link := none
    meeting_id := none, recording_url := none, max_participants := none
    current_participants := none, is_recorded := none, record_session := none
    agenda := none, prerequisites := none }

/-- A state with one live class and a logged-in user, for the C10 witness. -/
def stC10 : St :=
  { st0 with
    session_user := "bob@x.com"
    doctypes := ["LMS Live Class"]
    liveClasses := [lcC10] }

/-- Witness for C10: after a first join, the attendance list is the
duplicate-free singleton and a second join changes nothing. -/
theorem C10_join_idempotent_witness :
    (["bob@x.com"] : List String).Nodup ∧
    join_live_class (join_live_class stC10 (some "LC1")).2 (some "LC1") =
      ((join_live_class stC10 (some "LC1")).1, (join_live_class stC10 (some "LC1")).2) := by
  obtain ⟨ha, hb⟩ := C10_join_idempotent stC10 (some "LC1")
  exact ⟨ha (fun l h => Option.noConfusion h) ["bob@x.com"] (by decide), hb (by decide)⟩

/-- The `(count + size - 1) // size` idiom computes the rational ceiling
for a positive page size. -/
theorem fdiv_ceil_eq (c : Nat) (s : Int) (hs : 0 < s) :
    ((c : Int) + s - 1).fdiv s = ⌈(c : ℚ) / (s : ℚ)⌉ := by
  have hsq : (0 : ℚ) < (s : ℚ) := by exact_mod_cast hs
  rw [Int.fdiv_eq_ediv _ (le_of_lt hs)]
  symm
  rw [Int.ceil_eq_iff]
  have h1 := Int.ediv_add_emod ((c : Int) + s - 1) s
  have h2 := Int.emod_nonneg ((c : Int) + s - 1) (ne_of_gt hs)
  have h3 := Int.emod_lt_of_pos ((c : Int) + s - 1) hs
  constructor
  · rw [lt_div_iff₀ hsq]
    have hint : (((c : Int) + s - 1) / s - 1) * s < (c : Int) := by nlinarith [h1, h2, h3]
    exact_mod_cast hint
  · rw [div_le_iff₀ hsq]
    have hint : (c : Int) ≤ (((c : Int) + s - 1) / s) * s := by nlinarith [h1, h2, h3]
    exact_mod_cast hint

/-- C2: when the filtered and formatted course list has 25 elements and
the page size parses to 10, `get_courses` returns `success=true`,
`totalCount=25` and `totalPages=3`; in general for every positive parsed
page size the total pages are the rational ceiling of count over size and
the courses array is the Python slice from `(page-1)*size` to
`page*size`. -/
theorem C2_get_courses_pagination (st : St) (args : CoursesArgs) (body : Option CoursesBody)
    (F : List FormattedCourse)
    (hdt : hasDoctype st "LMS Course" = true)
    (hF : getCoursesList st (mergeCoursesArgs args body) = .ok F) :
    (get_courses st args body).1.success = true ∧
    (get_courses st args body).1.totalCount = some F.length ∧
    (∀ s, s = pyOrInt (cint (mergeCoursesArgs args body).page_size) 10 → 0 < s →
      (get_courses st args body).1.totalPages = some ⌈(F.length : ℚ) / (s : ℚ)⌉ ∧
      (get_courses st args body).1.courses =
        some (pySlice F ((pyOrInt (cint (mergeCoursesArgs args body).page) 1 - 1) * s)
          (pyOrInt (cint (mergeCoursesArgs args body).page) 1 * s))) ∧
    (F.length = 25 → cint (mergeCoursesArgs args body).page_size = 10 →
      (get_courses st args body).1.totalCount = some 25 ∧
      (get_courses st args body).1.totalPages = some 3) := by
  have hsh : get_courses st args body =
      ({ success := true
         courses := some (pySlice F
           ((pyOrInt (cint (mergeCoursesArgs args body).page) 1 - 1) *
             pyOrInt (cint (mergeCoursesArgs args body).page_size) 10)
           ((pyOrInt (cint (mergeCoursesArgs args body).page) 1 - 1) *
             pyOrInt (cint (mergeCoursesArgs args body).page_size) 10 +
             pyOrInt (cint (mergeCoursesArgs args body).page_size) 10))
         totalCount := some F.length
         pageSize := some (pyOrInt (cint (mergeCoursesArgs args body).page_size) 10)
         currentPage := some (pyOrInt (cint (mergeCoursesArgs args body).page) 1)
         totalPages := some (if pyOrInt (cint (mergeCoursesArgs args body).page_size) 10 > 0 then
           ((F.length : Int) + pyOrInt (cint (mergeCoursesArgs args body).page_size) 10 - 1).fdiv
             (pyOrInt (cint (mergeCoursesArgs args body).page_size) 10)
           else 1) }, st) := by
    unfold get_courses pyTry getCoursesBody
    simp only [hdt, hF, Bool.not_true, Bool.false_eq_true, if_false]
  refine ⟨by rw [hsh], by rw [hsh], ?_, ?_⟩
  · intro s hs hpos
    subst hs
    constructor
    · rw [hsh]
      simp only [if_pos hpos]
      rw [fdiv_ceil_eq F.length _ hpos]
    · rw [hsh]
      congr 2
      ring_nf
  · intro h25 h10
    have hs : pyOrInt (cint (mergeCoursesArgs args body).page_size) 10 = 10 := by
      rw [h10]; rfl
    constructor
    · rw [hsh, h25]
    · rw [hsh, h25, hs]
      norm_num
      decide

/-- A minimal course row for the C2 witness. -/
def mkCourseC2 (i : Nat) : CourseRec :=
  { name := "C" ++ toString i, owner := "", title := none, short_introduction := none
    description := none, image := none, hero_image := none, course_image := none
    instructor := none, paid := none, course_price := none, price := none, category := none
    level := none, difficulty := none, video_link := none, duration := none, featured := none
    is_featured := none, creation := "", published := none }

/-- A state whose course fetch returns 25 rows, for the C2 witness. -/
def stC2 : St :=
  { st0 with
    doctypes := ["LMS Course"]
    fetchCourses := fun _ _ => (List.range 25).map mkCourseC2 }

/-- Witness for C2: 25 matching records with the default page size of 10
give three pages. -/
theorem C2_get_courses_pagination_witness :
    (get_courses stC2 {} none).1.success = true ∧
    (get_courses stC2 {} none).1.totalCount = some 25 ∧
    (get_courses stC2 {} none).1.totalPages = some 3 := by
  have hex : ∃ F, getCoursesList stC2 (mergeCoursesArgs {} none) = .ok F ∧ F.length = 25 :=
    ⟨_, rfl, rfl⟩
  obtain ⟨F, hF, hlen⟩ := hex
  obtain ⟨h1, h2, h3, h4⟩ := C2_get_courses_pagination stC2 {} none F (by decide) hF
  obtain ⟨h5, h6⟩ := h4 hlen (by decide)
  exact ⟨h1, h5, h6⟩

/-- With duplicate-free names, looking a found record up by name returns
the same record. -/
theorem find_by_name (l : List ProgressRec) (p : ProgressRec → Bool) (m : ProgressRec)
    (hfind : l.find? p = some m) (hnd : (l.map (fun r => r.name)).Nodup) :
    l.find? (fun r => r.name == m.name) = some m := by
  induction l with
  | nil => simp at hfind
  | cons a t ih =>
    rw [List.map_cons, List.nodup_cons] at hnd
    by_cases hpa : p a = true
    · rw [List.find?_cons_of_pos _ hpa] at hfind
      rw [Option.some.injEq] at hfind
      subst hfind
      rw [List.find?_cons_of_pos _ (by simp)]
    · rw [List.find?_cons_of_neg _ hpa] at hfind
      have hm : m ∈ t := List.mem_of_find?_eq_some hfind
      have hname : ¬(a.name == m.name) = true := by
        simp only [beq_iff_eq]
        intro he
        exact hnd.1 (he ▸ List.mem_map_of_mem (fun r => r.name) hm)
      rw [Bool.not_eq_true] at hname
      rw [List.find?_cons]
      simp only [hname]
      exact ih hfind hnd.2

/-- Replacing the found record by one that still satisfies the filter is
found again. -/
theorem find_map_replace (l : List ProgressRec) (p : ProgressRec → Bool)
    (m new : ProgressRec)
    (hfind : l.find? p = some m) (hnewp : p new = true) :
    (l.map (fun r => if r.name == m.name then new else r)).find? p = some new := by
  induction l with
  | nil => simp at hfind
  | cons a t ih =>
    by_cases hpa : p a = true
    · rw [List.find?_cons_of_pos _ hpa] at hfind
      rw [Option.some.injEq] at hfind
      subst hfind
      simp only [List.map_cons, beq_self_eq_true, if_true]
      rw [List.find?_cons_of_pos _ hnewp]
    · rw [List.find?_cons_of_neg _ hpa] at hfind
      simp only [List.map_cons]
      by_cases hn : (a.name == m.name) = true
      · simp only [hn, if_true]
        rw [List.find?_cons_of_pos _ hnewp]
      · simp only [hn, Bool.false_eq_true, if_false]
        rw [List.find?_cons_of_neg _ hpa]
        exact ih hfind

/-- `find?` over an append whose first part has no match. -/
theorem find_append_of_none {α : Type} (p : α → Bool) (l1 l2 : List α)
    (h : l1.find? p = none) : (l1 ++ l2).find? p = l2.find? p := by
  induction l1 with
  | nil => rfl
  | cons a t ih =>
    by_cases hpa : p a = true
    · rw [List.find?_cons_of_pos _ hpa] at h
      cases h
    · rw [List.find?_cons_of_neg _ hpa] at h
      rw [List.cons_append, List.find?_cons_of_neg _ hpa]
      exact ih h

/-- `updateProgressDoc` never touches the key fields. -/
theorem updateProgressDoc_keys (st : St) (d : ProgressRec) (pp ic vp : PyScalar)
    (n : Option String) :
    (updateProgressDoc st d pp ic vp n).name = d.name ∧
    (updateProgressDoc st d pp ic vp n).course = d.course ∧
    (updateProgressDoc st d pp ic vp n).member = d.member ∧
    (updateProgressDoc st d pp ic vp n).lesson = d.lesson := by
  unfold updateProgressDoc
  split <;> split <;> split <;> split <;> exact ⟨rfl, rfl, rfl, rfl⟩

/-- The progress field after `updateProgressDoc` with a numeric percent. -/
theorem updateProgressDoc_progress (st : St) (d : ProgressRec) (pp ic vp : PyScalar)
    (n : Option String) (h1 : (pp != .none) = true) (h2 : st.progressSchema.progress = true) :
    (updateProgressDoc st d pp ic vp n).progress = some (flt pp) := by
  unfold updateProgressDoc
  simp only [h1, h2, Bool.and_true, if_true]
  split <;> split <;> split <;> rfl

/-- The completion flag after `updateProgressDoc`: set to 1 when the flag
parameter is truthy, left unchanged otherwise. -/
theorem updateProgressDoc_is_complete (st : St) (d : ProgressRec) (pp ic vp : PyScalar)
    (n : Option String) (h2 : st.progressSchema.is_complete = true) :
    (updateProgressDoc st d pp ic vp n).is_complete =
      if pyTruthy ic then some 1 else d.is_complete := by
  unfold updateProgressDoc
  by_cases hic : pyTruthy ic = true
  · simp only [hic, h2, Bool.and_true, if_true]
    split <;> split <;> split <;> rfl
  · rw [Bool.not_eq_true] at hic
    simp only [hic, Bool.false_and, Bool.false_eq_true, if_false]
    split <;> split <;> split <;> rfl

/-- `get_progress` through a cache hit on the lesson key. -/
theorem get_progress_cache_hit (s : St) (cid lid : Option String) (pd : ProgressData)
    (hg : (s.session_user == "Guest") = false)
    (htrc : truthyS cid = true) (htrl : truthyS lid = true)
    (hdt1 : hasDoctype s "LMS Course Progress" = false)
    (hdt2 : hasDoctype s "Course Progress" = false)
    (hcache : cacheGet s ("lesson_progress:" ++ s.session_user ++ ":" ++ lid.getD "") =
      some (.prog pd)) :
    get_progress s cid lid = ({ success := true, progress := some (.blob pd) }, s) := by
  unfold get_progress pyTry getProgressBody readProgBlob
  simp only [hg, htrc, htrl, hdt1, hdt2, hcache, Bool.not_true, Bool.not_false,
    Bool.false_eq_true, Bool.and_self, if_false, if_true]

/-- `get_progress` through a doctype-backed per-lesson record. -/
theorem get_progress_doctype_hit (s : St) (cid lid : Option String) (rec : ProgressRec)
    (hg : (s.session_user == "Guest") = false)
    (htrc : truthyS cid = true) (htrl : truthyS lid = true)
    (hdt : hasDoctype s "LMS Course Progress" = true)
    (hfind : s.progressRecs.find? (fun r =>
      r.course == cid.getD "" && r.member == s.session_user &&
        r.lesson == some (lid.getD "")) = some rec) :
    get_progress s cid lid =
      ({ success := true
         progress := some (.lessonOut
           { lessonId := lid.getD ""
             progressPercent := rec.progress.getD 0
             isCompleted := truthyOI rec.is_complete
             videoPosition := rec.video_position.getD 0
             notes := rec.notes.getD "" }) }, s) := by
  unfold get_progress pyTry getProgressBody
  simp only [hg, htrc, htrl, hdt, hfind, Bool.not_true, Bool.not_false, Bool.false_and,
    Bool.false_eq_true, if_false, if_true]

/-- The result of the cache-backed `save_progress` with a lesson id. -/
theorem save_progress_cache_shape (st : St) (cid lid chid : Option String)
    (pp ic vp : PyScalar) (notes : Option String)
    (hg : (st.session_user == "Guest") = false)
    (htrc : truthyS cid = true) (htrl : truthyS lid = true)
    (hcourse : courseExists st (cid.getD "") = true)
    (hdt1 : hasDoctype st "LMS Course Progress" = false)
    (hdt2 : hasDoctype st "Course Progress" = false) :
    save_progress st cid lid chid pp ic vp notes =
      ({ success := true, message := some "Progress saved successfully" },
       cacheSet st ("lesson_progress:" ++ st.session_user ++ ":" ++ lid.getD "")
         (.prog
           { user := st.session_user
             course_id := cid.getD ""
             lesson_id := lid
             chapter_id := chid
             progress_percent := if pyTruthy pp then flt pp else 0
             is_completed := pyBool ic
             video_position := if pyTruthy vp then cint vp else 0
             notes := notes.getD ""
             updated_at := st.nowStr })
         (86400 * 365)) := by
  unfold save_progress pyTry saveProgressBody
  simp only [hg, htrc, htrl, hcourse, hdt1, hdt2, Bool.not_true, Bool.not_false,
    Bool.false_eq_true, Bool.and_self, if_false, if_true]

/-- The result of the doctype-backed `save_progress` when a record matches. -/
theorem save_progress_doctype_existing (st : St) (cid lid chid : Option String)
    (pp ic vp : PyScalar) (notes : Option String) (m : ProgressRec)
    (hg : (st.session_user == "Guest") = false)
    (htrc : truthyS cid = true)
    (hcourse : courseExists st (cid.getD "") = true)
    (hdt : hasDoctype st "LMS Course Progress" = true)
    (hfind : st.progressRecs.find? (progFilt (cid.getD "") st.session_user lid) = some m)
    (hbyname : st.progressRecs.find? (fun r => r.name == m.name) = some m) :
    save_progress st cid lid chid pp ic vp notes =
      ({ success := true, message := some "Progress saved successfully" },
       { st with progressRecs := st.progressRecs.map (fun r => if r.name == (updateProgressDoc st m pp ic vp notes).name then updateProgressDoc st m pp ic vp notes else r) }) := by
  unfold save_progress pyTry saveProgressBody
  simp only [hg, htrc, hcourse, hdt, hfind, hbyname, Bool.not_true, Bool.not_false,
    Bool.false_and, Bool.false_eq_true, if_false, if_true]

/-- The result of the doctype-backed `save_progress` when no record matches:
a fresh document is created and appended. -/
theorem save_progress_doctype_new (st : St) (cid lid chid : Option String)
    (pp ic vp : PyScalar) (notes : Option String)
    (hg : (st.session_user == "Guest") = false)
    (htrc : truthyS cid = true)
    (hcourse : courseExists st (cid.getD "") = true)
    (hdt : hasDoctype st "LMS Course Progress" = true)
    (hfind : st.progressRecs.find? (progFilt (cid.getD "") st.session_user lid) = none) :
    save_progress st cid lid chid pp ic vp notes =
      ({ success := true, message := some "Progress saved successfully" },
       { st with
         docCounter := st.docCounter + 1
         progressRecs := st.progressRecs ++ [updateProgressDoc { st with docCounter := st.docCounter + 1 } (newProgressDoc st (cid.getD "") st.session_user lid chid) pp ic vp notes] }) := by
  unfold save_progress pyTry saveProgressBody
  simp only [hg, htrc, hcourse, hdt, hfind, Bool.not_true, Bool.not_false,
    Bool.false_and, Bool.false_eq_true, if_false, if_true]

/-- C1 (amended): for an authenticated user, after a successful
`save_progress(course_id, lesson_id, progress_percent=p, is_completed=b)`,
`get_progress(course_id, lesson_id)` returns `success=true` with a record
whose progress percentage equals `p`; the completed flag equals `b` in the
cache-fallback path, while in the doctype-backed path it equals
`b OR the previously stored completed flag`, since the endpoint only sets
`is_complete` when `b` is truthy. -/
theorem C1_progress_roundtrip_amended (st : St) (cid lid chid : Option String)
    (q : Rat) (b : Bool) (vp : PyScalar) (notes : Option String)
    (hg : (st.session_user == "Guest") = false)
    (htrc : truthyS cid = true) (htrl : truthyS lid = true)
    (hcourse : courseExists st (cid.getD "") = true) :
    (hasDoctype st "LMS Course Progress" = false → hasDoctype st "Course Progress" = false →
      (save_progress st cid lid chid (.r q) (.b b) vp notes).1.success = true ∧
      (get_progress (save_progress st cid lid chid (.r q) (.b b) vp notes).2 cid lid).1.success = true ∧
      ∃ pd : ProgressData,
        (get_progress (save_progress st cid lid chid (.r q) (.b b) vp notes).2 cid lid).1.progress =
          some (.blob pd) ∧ pd.progress_percent = q ∧ pd.is_completed = b) ∧
    (hasDoctype st "LMS Course Progress" = true →
      st.progressSchema.progress = true → st.progressSchema.is_complete = true →
      st.progressSchema.lesson = true →
      (st.progressRecs.map (fun r => r.name)).Nodup →
      (save_progress st cid lid chid (.r q) (.b b) vp notes).1.success = true ∧
      (get_progress (save_progress st cid lid chid (.r q) (.b b) vp notes).2 cid lid).1.success = true ∧
      ∃ out : LessonOut,
        (get_progress (save_progress st cid lid chid (.r q) (.b b) vp notes).2 cid lid).1.progress =
          some (.lessonOut out) ∧
        out.progressPercent = q ∧
        out.isCompleted = (b ||
          (match st.progressRecs.find? (progFilt (cid.getD "") st.session_user lid) with
           | some m => truthyOI m.is_complete
           | none => false))) := by
  have hqq : (if pyTruthy (.r q) then flt (.r q) else 0) = q := by
    by_cases hq : q = 0
    · simp [pyTruthy, flt, hq]
    · simp [pyTruthy, flt, hq]
  constructor
  · intro hdt1 hdt2
    have hsave := save_progress_cache_shape st cid lid chid (.r q) (.b b) vp notes
      hg htrc htrl hcourse hdt1 hdt2
    have hget := get_progress_cache_hit (save_progress st cid lid chid (.r q) (.b b) vp notes).2
      cid lid _ (by rw [hsave]; exact hg) htrc htrl (by rw [hsave]; exact hdt1)
      (by rw [hsave]; exact hdt2)
      (by rw [hsave]; exact cacheGet_set_self _ _ _ _ (by norm_num))
    refine ⟨by rw [hsave], by rw [hget], _, by rw [hget], hqq, rfl⟩
  · intro hdt hsp hsc hsl hnodup
    have hpredeq : progFilt (cid.getD "") st.session_user lid = (fun r =>
        r.course == cid.getD "" && r.member == st.session_user &&
          r.lesson == some (lid.getD "")) := by
      funext r
      simp [progFilt, htrl]
    cases hfind : st.progressRecs.find? (progFilt (cid.getD "") st.session_user lid) with
    | some m =>
      have hbyname := find_by_name _ _ m hfind hnodup
      have hsave := save_progress_doctype_existing st cid lid chid (.r q) (.b b) vp notes m
        hg htrc hcourse hdt hfind hbyname
      have hkeys := updateProgressDoc_keys st m (.r q) (.b b) vp notes
      have hmp : (fun r : ProgressRec =>
          r.course == cid.getD "" && r.member == st.session_user &&
            r.lesson == some (lid.getD "")) m = true := by
        rw [← hpredeq]
        exact List.find?_some hfind
      have hup : (fun r : ProgressRec =>
          r.course == cid.getD "" && r.member == st.session_user &&
            r.lesson == some (lid.getD ""))
          (updateProgressDoc st m (.r q) (.b b) vp notes) = true := by
        simp only [hkeys.2.1, hkeys.2.2.1, hkeys.2.2.2]
        exact hmp
      have hfind0 : st.progressRecs.find? (fun r =>
          r.course == cid.getD "" && r.member == st.session_user &&
            r.lesson == some (lid.getD "")) = some m := by
        rw [← hpredeq]
        exact hfind
      have hget := get_progress_doctype_hit
        (save_progress st cid lid chid (.r q) (.b b) vp notes).2 cid lid
        (updateProgressDoc st m (.r q) (.b b) vp notes)
        (by rw [hsave]; exact hg) htrc htrl (by rw [hsave]; exact hdt)
        (by
          rw [hsave]
          show (st.progressRecs.map _).find? _ = _
          simp only [hkeys.1]
          exact find_map_replace st.progressRecs _ m _ hfind0 hup)
      refine ⟨by rw [hsave], by rw [hget], _, by rw [hget], ?_, ?_⟩
      · rw [updateProgressDoc_progress st m (.r q) (.b b) vp notes rfl hsp]
        rfl
      · simp only [hfind]
        rw [updateProgressDoc_is_complete st m (.r q) (.b b) vp notes hsc]
        by_cases hb : b = true
        · simp [hb, pyTruthy, truthyOI]
        · rw [Bool.not_eq_true] at hb
          simp [hb, pyTruthy]
    | none =>
      have hsave := save_progress_doctype_new st cid lid chid (.r q) (.b b) vp notes
        hg htrc hcourse hdt hfind
      have hnd : ProgressRec := newProgressDoc st (cid.getD "") st.session_user lid chid
      have hkeys := updateProgressDoc_keys { st with docCounter := st.docCounter + 1 }
        (newProgressDoc st (cid.getD "") st.session_user lid chid) (.r q) (.b b) vp notes
      have hup : (fun r : ProgressRec =>
          r.course == cid.getD "" && r.member == st.session_user &&
            r.lesson == some (lid.getD ""))
          (updateProgressDoc { st with docCounter := st.docCounter + 1 }
            (newProgressDoc st (cid.getD "") st.session_user lid chid) (.r q) (.b b) vp notes) =
          true := by
       simp only [hkeys.2.1, hkeys.2.2.1, hkeys.2.2.2]
       simp [newProgressDoc, htrl, hsl]
      have hfind0 : st.progressRecs.find? (fun r =>
          r.course == cid.getD "" && r.member == st.session_user &&
            r.lesson == some (lid.getD "")) = none := by
        rw [← hpredeq]
        exact hfind
      have hget := get_progress_doctype_hit
        (save_progress st cid lid chid (.r q) (.b b) vp notes).2 cid lid
        (updateProgressDoc { st with docCounter := st.docCounter + 1 }
          (newProgressDoc st (cid.getD "") st.session_user lid chid) (.r q) (.b b) vp notes)
        (by rw [hsave]; exact hg) htrc htrl (by rw [hsave]; exact hdt)
        (by
          rw [hsave]
          show (st.progressRecs ++ [_]).find? _ = _
          rw [find_append_of_none _ _ _ hfind0]
          rw [List.find?_cons]
          simp only [hup])
      refine ⟨by rw [hsave], by rw [hget], _, by rw [hget], ?_, ?_⟩
      · rw [updateProgressDoc_progress { st with docCounter := st.docCounter + 1 }
          (newProgressDoc st (cid.getD "") st.session_user lid chid) (.r q) (.b b) vp notes
          rfl hsp]
        rfl
      · simp only [hfind]
        rw [updateProgressDoc_is_complete { st with docCounter := st.docCounter + 1 }
          (newProgressDoc st (cid.getD "") st.session_user lid chid) (.r q) (.b b) vp notes hsc]
        by_cases hb : b = true
        · simp [hb, pyTruthy, truthyOI]
        · rw [Bool.not_eq_true] at hb
          simp [hb, pyTruthy, truthyOI, newProgressDoc, hsc]

/-- A minimal course document named CR1 for the C1 states. -/
def courseCR1 : CourseRec :=
  { name := "CR1", owner := "", title := none, short_introduction := none
    description := none, image := none, hero_image := none, course_image := none
    instructor := none, paid := none, course_price := none, price := none, category := none
    level := none, difficulty := none, video_link := none, duration := none, featured := none
    is_featured := none, creation := "", published := none }

/-- A doctype-backed state holding a completed progress record for Carol. -/
def stC1x : St :=
  { st0 with
    session_user := "carol@x.com"
    doctypes := ["LMS Course", "LMS Course Progress"]
    courses := [courseCR1]
    progressSchema := ⟨true, true, true, true, true, true⟩
    progressRecs := [{ name := "P1", course := "CR1", member := "carol@x.com"
                       lesson := some "L1", chapter := none, progress := some 50
                       is_complete := some 1, video_position := some 0, notes := some "" }] }

/-- C1 counterexample: in the doctype-backed path, saving
`is_completed=False` over a previously completed record leaves the
completed flag set, so the returned flag is `true` while the claim demands
it equal the saved `b = false`. -/
theorem C1_counterexample :
    (save_progress stC1x (some "CR1") (some "L1") none (.r 30) (.b false) .none none).1.success = true ∧
    (get_progress (save_progress stC1x (some "CR1") (some "L1") none (.r 30) (.b false) .none none).2
        (some "CR1") (some "L1")).1.progress =
      some (.lessonOut { lessonId := "L1", progressPercent := 30, isCompleted := true
                         videoPosition := 0, notes := "" }) ∧
    (get_progress (save_progress stC1x (some "CR1") (some "L1") none (.r 30) (.b false) .none none).2
        (some "CR1") (some "L1")).1.progress ≠
      some (.lessonOut { lessonId := "L1", progressPercent := 30, isCompleted := false
                         videoPosition := 0, notes := "" }) := by
  refine ⟨by decide, by decide, by decide⟩

/-- A cache-backed state (no progress doctype) for the C1 witness. -/
def stC1a : St :=
  { st0 with
    session_user := "carol@x.com"
    doctypes := ["LMS Course"]
    courses := [courseCR1] }

/-- Witness for C1: a save/get round-trip in both storage paths at
concrete inputs. -/
theorem C1_progress_roundtrip_witness :
    ((save_progress stC1a (some "CR1") (some "L1") none (.r 40) (.b true) .none none).1.success = true ∧
     (get_progress (save_progress stC1a (some "CR1") (some "L1") none (.r 40) (.b true) .none none).2
        (some "CR1") (some "L1")).1.success = true ∧
     (∃ pd : ProgressData,
       (get_progress (save_progress stC1a (some "CR1") (some "L1") none (.r 40) (.b true) .none none).2
          (some "CR1") (some "L1")).1.progress = some (.blob pd) ∧
       pd.progress_percent = 40 ∧ pd.is_completed = true)) ∧
    (∃ out : LessonOut,
      (get_progress (save_progress stC1x (some "CR1") (some "L1") none (.r 40) (.b true) .none none).2
         (some "CR1") (some "L1")).1.progress = some (.lessonOut out) ∧
      out.progressPercent = 40 ∧ out.isCompleted = true) := by
  constructor
  · exact (C1_progress_roundtrip_amended stC1a (some "CR1") (some "L1") none 40 true .none none
      (by decide) (by decide) (by decide) (by decide)).1 (by decide) (by decide)
  · obtain ⟨h4, h5, h6⟩ := (C1_progress_roundtrip_amended stC1x (some "CR1") (some "L1") none
      40 true .none none (by decide) (by decide) (by decide) (by decide)).2
      (by decide) rfl rfl rfl (by decide)
    obtain ⟨out, ho1, ho2, ho3⟩ := h6
    exact ⟨out, ho1, ho2, by rw [ho3]; simp⟩

theorem login_envOk (st : St) (email password : Option String) (remember_me : Bool)
    (body : Option LoginBody) :
    (login st email password remember_me body).1.success = true ∨
    ((login st email password remember_me body).1.success = false ∧
     (login st email password remember_me body).1.message.isSome = true) := by
  unfold login pyTry loginBody
  split
  next v heq =>
    unfold generate_api_token at heq
    try simp only [] at heq
    repeat' split at heq
    all_goals try (cases heq <;> simp)
    all_goals (split at heq
               all_goals (cases heq <;> simp))
  next e st2 heq =>
    simp

theorem register_envOk (st : St) (full_name email password confirm_password : Option String)
    (role : String) (body : Option RegisterBody) :
    (register st full_name email password confirm_password role body).1.success = true ∨
    ((register st full_name email password confirm_password role body).1.success = false ∧
     (register st full_name email password confirm_password role body).1.message.isSome = true) := by
  unfold register pyTry registerBody
  split
  next v heq =>
    unfold generate_api_token at heq
    try simp only [] at heq
    repeat' split at heq
    all_goals try (cases heq <;> simp)
    all_goals (try simp only [] at heq
               split at heq
               all_goals (cases heq <;> simp))
  next e st2 heq =>
    simp

theorem refresh_envOk (st : St) (refresh_tok : Option String) (body : Option RefreshBody) :
    (refresh_token st refresh_tok body).1.success = true ∨
    ((refresh_token st refresh_tok body).1.success = false ∧
     (refresh_token st refresh_tok body).1.message.isSome = true) := by
  unfold refresh_token pyTry refreshTokenBody
  split
  next v heq =>
    unfold generate_api_token at heq
    try simp only [] at heq
    repeat' split at heq
    all_goals try (cases heq <;> simp)
    all_goals (try simp only [] at heq
               split at heq
               all_goals (cases heq <;> simp))
  next e st2 heq =>
    simp

theorem forgot_envOk (st : St) (email : Option String) (body : Option ForgotBody) :
    (forgot_password st email body).1.success = true ∨
    ((forgot_password st email body).1.success = false ∧
     (forgot_password st email body).1.message.isSome = true) := by
  unfold forgot_password pyTry forgotPasswordBody
  by_cases h1 : truthyS (mergeForgotArg email body) = true
  · by_cases h2 : userExists st ((mergeForgotArg email body).getD "") = true
    · cases h3 : st.resetRaises ((mergeForgotArg email body).getD "") with
      | some e => simp [h1, h2, h3]
      | none => simp [h1, h2, h3]
    · simp [h1, h2]
  · simp [h1]

theorem get_courses_envOk (st : St) (args : CoursesArgs) (body : Option CoursesBody) :
    (get_courses st args body).1.success = true ∨
    ((get_courses st args body).1.success = false ∧
     (get_courses st args body).1.message.isSome = true) := by
  unfold get_courses pyTry getCoursesBody
  split
  next v heq =>
    try simp only [] at heq
    repeat' split at heq
    all_goals try (cases heq <;> simp)
    all_goals (try simp only [] at heq
               split at heq
               all_goals (cases heq <;> simp))
  next e st2 heq =>
    simp

theorem save_progress_envOk (st : St) (course_id lesson_id chapter_id : Option String)
    (progress_percent is_completed video_position : PyScalar) (notes : Option String) :
    (save_progress st course_id lesson_id chapter_id progress_percent is_completed
      video_position notes).1.success = true ∨
    ((save_progress st course_id lesson_id chapter_id progress_percent is_completed
       video_position notes).1.success = false ∧
     (save_progress st course_id lesson_id chapter_id progress_percent is_completed
       video_position notes).1.message.isSome = true) := by
  unfold save_progress pyTry saveProgressBody
  split
  next v heq =>
    try simp only [] at heq
    repeat' split at heq
    all_goals try (cases heq <;> simp)
    all_goals (try simp only [] at heq
               split at heq
               all_goals (cases heq <;> simp))
  next e st2 heq =>
    simp

theorem get_progress_envOk (st : St) (course_id lesson_id : Option String) :
    (get_progress st course_id lesson_id).1.success = true ∨
    ((get_progress st course_id lesson_id).1.success = false ∧
     (get_progress st course_id lesson_id).1.message.isSome = true) := by
  unfold get_progress pyTry getProgressBody
  split
  next v heq =>
    try simp only [] at heq
    repeat' split at heq
    all_goals try (cases heq <;> simp)
    all_goals (try simp only [] at heq
               split at heq
               all_goals (cases heq <;> simp))
  next e st2 heq =>
    simp

theorem get_live_classes_envOk (st : St) (course_id instructor_id status : Option String)
    (upcoming_only : Bool) (page page_size : PyScalar) :
    (get_live_classes st course_id instructor_id status upcoming_only page page_size).1.success
      = true ∨
    ((get_live_classes st course_id instructor_id status upcoming_only page page_size).1.success
       = false ∧
     (get_live_classes st course_id instructor_id status upcoming_only page
       page_size).1.message.isSome = true) := by
  unfold get_live_classes pyTry getLiveClassesBody
  split
  next v heq =>
    try simp only [] at heq
    repeat' split at heq
    all_goals try (cases heq <;> simp)
    all_goals (try simp only [] at heq
               split at heq
               all_goals (cases heq <;> simp))
  next e st2 heq =>
    simp

theorem join_live_class_envOk (st : St) (class_id : Option String) :
    (join_live_class st class_id).1.success = true ∨
    ((join_live_class st class_id).1.success = false ∧
     (join_live_class st class_id).1.message.isSome = true) := by
  unfold join_live_class pyTry joinLiveClassBody
  split
  next v heq =>
    try simp only [] at heq
    repeat' split at heq
    all_goals try (cases heq <;> simp)
    all_goals (try simp only [] at heq
               split at heq
               all_goals (cases heq <;> simp))
  next e st2 heq =>
    simp

theorem logout_envOk (st : St) (auth_header : Option String) :
    (logout st auth_header).1.success = true ∨
    ((logout st auth_header).1.success = false ∧
     (logout st auth_header).1.message.isSome = true) := by
  unfold logout pyTry logoutBody
  split
  next v heq =>
    try simp only [] at heq
    repeat' split at heq
    all_goals try (cases heq <;> simp)
    all_goals (try simp only [] at heq
               split at heq
               all_goals (cases heq <;> simp))
  next e st2 heq =>
    simp

theorem me_envOk (st : St) :
    (me st).1.success = true ∨
    ((me st).1.success = false ∧ (me st).1.message.isSome = true) := by
  unfold me pyTry meBody
  split
  next v heq =>
    try simp only [] at heq
    repeat' split at heq
    all_goals try (cases heq <;> simp)
    all_goals (try simp only [] at heq
               split at heq
               all_goals (cases heq <;> simp))
  next e st2 heq =>
    simp

theorem change_password_envOk (st : St) (current_password new_password confirm_password :
    Option String) (body : Option ChangePwBody) :
    (change_password st current_password new_password confirm_password body).1.success
      = true ∨
    ((change_password st current_password new_password confirm_password body).1.success
       = false ∧
     (change_password st current_password new_password confirm_password
       body).1.message.isSome = true) := by
  unfold change_password pyTry changePasswordBody
  split
  next v heq =>
    try simp only [] at heq
    repeat' split at heq
    all_goals try (cases heq <;> simp)
    all_goals (try simp only [] at heq
               split at heq
               all_goals (cases heq <;> simp))
  next e st2 heq =>
    simp

theorem get_course_envOk (st : St) (course_id slug : Option String) :
    (get_course st course_id slug).1.success = true ∨
    ((get_course st course_id slug).1.success = false ∧
     (get_course st course_id slug).1.message.isSome = true) := by
  unfold get_course pyTry getCourseBody
  split
  next v heq =>
    try simp only [] at heq
    repeat' split at heq
    all_goals try (cases heq <;> simp)
    all_goals (try simp only [] at heq
               split at heq
               all_goals (cases heq <;> simp))
  next e st2 heq =>
    simp

theorem get_featured_envOk (st : St) (limit : PyScalar) :
    (get_featured_courses st limit).1.success = true ∨
    ((get_featured_courses st limit).1.success = false ∧
     (get_featured_courses st limit).1.message.isSome = true) := by
  unfold get_featured_courses pyTry getFeaturedBody
  split
  next v heq =>
    try simp only [] at heq
    repeat' split at heq
    all_goals try (cases heq <;> simp)
    all_goals (try simp only [] at heq
               split at heq
               all_goals (cases heq <;> simp))
  next e st2 heq =>
    simp

theorem get_categories_envOk (st : St) :
    (get_categories st).1.success = true ∨
    ((get_categories st).1.success = false ∧
     (get_categories st).1.message.isSome = true) := by
  unfold get_categories pyTry getCategoriesBody
  split
  next v heq =>
    try simp only [] at heq
    repeat' split at heq
    all_goals try (cases heq <;> simp)
    all_goals (try simp only [] at heq
               split at heq
               all_goals (cases heq <;> simp))
  next e st2 heq =>
    simp

theorem get_instructors_envOk (st : St) :
    (get_instructors st).1.success = true ∨
    ((get_instructors st).1.success = false ∧
     (get_instructors st).1.message.isSome = true) := by
  unfold get_instructors pyTry getInstructorsBody
  split
  next v heq =>
    try simp only [] at heq
    repeat' split at heq
    all_goals try (cases heq <;> simp)
    all_goals (try simp only [] at heq
               split at heq
               all_goals (cases heq <;> simp))
  next e st2 heq =>
    simp

theorem get_curriculum_envOk (st : St) (course_id : Option String) :
    (get_course_curriculum st course_id).1.success = true ∨
    ((get_course_curriculum st course_id).1.success = false ∧
     (get_course_curriculum st course_id).1.message.isSome = true) := by
  unfold get_course_curriculum pyTry getCurriculumBody
  split
  next v heq =>
    try simp only [] at heq
    repeat' split at heq
    all_goals try (cases heq <;> simp)
    all_goals (try simp only [] at heq
               split at heq
               all_goals (cases heq <;> simp))
  next e st2 heq =>
    simp

theorem create_course_envOk (st : St)
    (title description short_introduction category level : Option String)
    (price : PyScalar) (duration image : Option String) (is_featured : Bool)
    (chapters : Option (List ChapterData)) :
    (create_course st title description short_introduction category level price duration
      image is_featured chapters).1.success = true ∨
    ((create_course st title description short_introduction category level price duration
       image is_featured chapters).1.success = false ∧
     (create_course st title description short_introduction category level price duration
       image is_featured chapters).1.message.isSome = true) := by
  unfold create_course pyTry createCourseBody
  by_cases h1 : truthyS title = true
  case neg => simp [h1]
  case pos =>
    by_cases h2 : (st.session_user == "Guest") = true
    case pos => simp [h1, h2]
    case neg => simp [h1, h2]

theorem update_course_envOk (st : St)
    (course_id title description short_introduction category level : Option String)
    (price : PyScalar) (duration image : Option String)
    (is_featured published : Option Bool) :
    (update_course st course_id title description short_introduction category level price
      duration image is_featured published).1.success = true ∨
    ((update_course st course_id title description short_introduction category level price
       duration image is_featured published).1.success = false ∧
     (update_course st course_id title description short_introduction category level price
       duration image is_featured published).1.message.isSome = true) := by
  unfold update_course pyTry updateCourseBody
  by_cases h1 : truthyS course_id = true
  case neg => simp [h1]
  case pos =>
    by_cases h2 : courseExists st (course_id.getD "") = true
    case neg => simp [h1, h2]
    case pos =>
      cases h3 : getDocCourse st (course_id.getD "") with
      | error e => simp [h1, h2, h3]
      | ok cd =>
        simp [h1, h2, h3]
        by_cases h4 : (¬cd.owner = st.session_user ∧
            (st.hasColumn "LMS Course" "instructor" = false ∨
             ¬cd.instructor = some st.session_user)) ∧
            "System Manager" ∉ st.userRoles st.session_user
        · rw [if_pos h4]
          exact Or.inr ⟨rfl, rfl⟩
        · rw [if_neg h4]
          exact Or.inl rfl

theorem get_lesson_details_envOk (st : St) (lesson_id course_id : Option String) :
    (get_lesson_details st lesson_id course_id).1.success = true ∨
    ((get_lesson_details st lesson_id course_id).1.success = false ∧
     (get_lesson_details st lesson_id course_id).1.message.isSome = true) := by
  unfold get_lesson_details pyTry getLessonDetailsBody
  split
  next v heq =>
    try simp only [] at heq
    repeat' split at heq
    all_goals try (cases heq <;> simp)
    all_goals (try simp only [] at heq
               split at heq
               all_goals (cases heq <;> simp))
  next e st2 heq =>
    simp

theorem get_chapter_lessons_envOk (st : St) (chapter_id : Option String) :
    (get_chapter_lessons st chapter_id).1.success = true ∨
    ((get_chapter_lessons st chapter_id).1.success = false ∧
     (get_chapter_lessons st chapter_id).1.message.isSome = true) := by
  unfold get_chapter_lessons pyTry getChapterLessonsBody
  by_cases h1 : truthyS chapter_id = true
  case neg => simp [h1]
  case pos =>
    by_cases h2 : hasDoctype st "Course Chapter" = true
    case neg => simp [h1, h2]
    case pos =>
      by_cases h3 : chapterExists st (chapter_id.getD "") = true
      case neg => simp [h1, h2, h3]
      case pos =>
        cases h4 : getDocChapter st (chapter_id.getD "") with
        | error e => simp [h1, h2, h3, h4]
        | ok cd => simp [h1, h2, h3, h4]

theorem mark_lesson_complete_envOk (st : St) (lesson_id course_id : Option String) :
    (mark_lesson_complete st lesson_id course_id).1.success = true ∨
    ((mark_lesson_complete st lesson_id course_id).1.success = false ∧
     (mark_lesson_complete st lesson_id course_id).1.message.isSome = true) := by
  unfold mark_lesson_complete pyTry markLessonCompleteBody
  by_cases h1 : (st.session_user == "Guest") = true
  case pos => simp [h1]
  case neg =>
    by_cases h2 : truthyS lesson_id = true
    case neg => simp [h1, h2]
    case pos =>
      by_cases h3 : truthyS course_id = true
      case pos =>
        rcases save_progress_envOk st course_id lesson_id none (.i 100) (.b true) .none none
          with h | ⟨ha, hb⟩
        · simp [h1, h2, h3, h]
        · simp [h1, h2, h3, ha, hb]
      case neg =>
        by_cases h4 : hasDoctype st "Course Lesson" = true
        case neg => simp [h1, h2, h3, h4]
        case pos =>
          cases h5 : getDocLesson st (lesson_id.getD "") with
          | error e => simp [h1, h2, h3, h4, h5]
          | ok lesson =>
            by_cases h6 : truthyS lesson.course = true
            case pos =>
              rcases save_progress_envOk st lesson.course lesson_id none (.i 100) (.b true)
                  .none none with h | ⟨ha, hb⟩
              · simp [h1, h2, h3, h4, h5, h6, h]
              · simp [h1, h2, h3, h4, h5, h6, ha, hb]
            case neg =>
              by_cases h7 : (lesson.chapter != "") = true
              case neg => simp [h1, h2, h3, h4, h5, h6, h7]
              case pos =>
                cases h8 : getDocChapter st lesson.chapter with
                | error e => simp [h1, h2, h3, h4, h5, h6, h7, h8]
                | ok chapter =>
                  by_cases h9 : truthyS (some chapter.course) = true
                  case neg => simp [h1, h2, h3, h4, h5, h6, h7, h8, h9]
                  case pos =>
                    rcases save_progress_envOk st (some chapter.course) lesson_id none
                        (.i 100) (.b true) .none none with h | ⟨ha, hb⟩
                    · simp [h1, h2, h3, h4, h5, h6, h7, h8, h9, h]
                    · simp [h1, h2, h3, h4, h5, h6, h7, h8, h9, ha, hb]

theorem get_live_class_envOk (st : St) (class_id : Option String) :
    (get_live_class st class_id).1.success = true ∨
    ((get_live_class st class_id).1.success = false ∧
     (get_live_class st class_id).1.message.isSome = true) := by
  unfold get_live_class pyTry getLiveClassBody
  split
  next v heq =>
    try simp only [] at heq
    repeat' split at heq
    all_goals try (cases heq <;> simp)
    all_goals (try simp only [] at heq
               split at heq
               all_goals (cases heq <;> simp))
  next e st2 heq =>
    simp

theorem create_live_class_envOk (st : St) (title course_id description : Option String)
    (start_time end_time : Option Nat) (duration meeting_url : Option String)
    (max_participants : PyScalar) (is_recorded : Bool) (agenda : Option String) :
    (create_live_class st title course_id description start_time end_time duration
      meeting_url max_participants is_recorded agenda).1.success = true ∨
    ((create_live_class st title course_id description start_time end_time duration
       meeting_url max_participants is_recorded agenda).1.success = false ∧
     (create_live_class st title course_id description start_time end_time duration
       meeting_url max_participants is_recorded agenda).1.message.isSome = true) := by
  unfold create_live_class pyTry createLiveClassBody
  by_cases h1 : (st.session_user == "Guest") = true
  case pos => simp [h1]
  case neg =>
    by_cases h2 : truthyS title = true
    case neg => simp [h1, h2]
    case pos =>
      cases h3 : liveClassDoctype st with
      | none => simp [h1, h2, h3]
      | some dt => simp [h1, h2, h3]

/-- C5: every endpoint of the two API modules (all twenty-four whitelisted
functions) returns a typed envelope carrying a boolean `success` field on
every path (success, validation rejection, caught exception), and whenever
`success` is false the envelope also carries a `message` string
(`message.isSome`); the typed structures model the Python dicts, whose
`success` key is always a bool and whose `message` key is present on every
failure. -/
theorem C5_failure_has_message :
    (∀ st email password remember_me body,
      (login st email password remember_me body).1.success = true ∨
      ((login st email password remember_me body).1.success = false ∧
       (login st email password remember_me body).1.message.isSome = true)) ∧
    (∀ st full_name email password confirm_password role body,
      (register st full_name email password confirm_password role body).1.success = true ∨
      ((register st full_name email password confirm_password role body).1.success = false ∧
       (register st full_name email password confirm_password role body).1.message.isSome
         = true)) ∧
    (∀ st refresh_tok body,
      (refresh_token st refresh_tok body).1.success = true ∨
      ((refresh_token st refresh_tok body).1.success = false ∧
       (refresh_token st refresh_tok body).1.message.isSome = true)) ∧
    (∀ st email body,
      (forgot_password st email body).1.success = true ∨
      ((forgot_password st email body).1.success = false ∧
       (forgot_password st email body).1.message.isSome = true)) ∧
    (∀ st args body,
      (get_courses st args body).1.success = true ∨
      ((get_courses st args body).1.success = false ∧
       (get_courses st args body).1.message.isSome = true)) ∧
    (∀ st course_id lesson_id chapter_id progress_percent is_completed video_position notes,
      (save_progress st course_id lesson_id chapter_id progress_percent is_completed
        video_position notes).1.success = true ∨
      ((save_progress st course_id lesson_id chapter_id progress_percent is_completed
         video_position notes).1.success = false ∧
       (save_progress st course_id lesson_id chapter_id progress_percent is_completed
         video_position notes).1.message.isSome = true)) ∧
    (∀ st course_id lesson_id,
      (get_progress st course_id lesson_id).1.success = true ∨
      ((get_progress st course_id lesson_id).1.success = false ∧
       (get_progress st course_id lesson_id).1.message.isSome = true)) ∧
    (∀ st course_id instructor_id status upcoming_only page page_size,
      (get_live_classes st course_id instructor_id status upcoming_only page
        page_size).1.success = true ∨
      ((get_live_classes st course_id instructor_id status upcoming_only page
         page_size).1.success = false ∧
       (get_live_classes st course_id instructor_id status upcoming_only page
         page_size).1.message.isSome = true)) ∧
    (∀ st class_id,
      (join_live_class st class_id).1.success = true ∨
      ((join_live_class st class_id).1.success = false ∧
       (join_live_class st class_id).1.message.isSome = true)) ∧
    (∀ st auth_header,
      (logout st auth_header).1.success = true ∨
      ((logout st auth_header).1.success = false ∧
       (logout st auth_header).1.message.isSome = true)) ∧
    (∀ st, (me st).1.success = true ∨
      ((me st).1.success = false ∧ (me st).1.message.isSome = true)) ∧
    (∀ st current_password new_password confirm_password body,
      (change_password st current_password new_password confirm_password body).1.success
        = true ∨
      ((change_password st current_password new_password confirm_password body).1.success
         = false ∧
       (change_password st current_password new_password confirm_password
         body).1.message.isSome = true)) ∧
    (∀ st course_id slug,
      (get_course st course_id slug).1.success = true ∨
      ((get_course st course_id slug).1.success = false ∧
       (get_course st course_id slug).1.message.isSome = true)) ∧
    (∀ st limit,
      (get_featured_courses st limit).1.success = true ∨
      ((get_featured_courses st limit).1.success = false ∧
       (get_featured_courses st limit).1.message.isSome = true)) ∧
    (∀ st, (get_categories st).1.success = true ∨
      ((get_categories st).1.success = false ∧
       (get_categories st).1.message.isSome = true)) ∧
    (∀ st, (get_instructors st).1.success = true ∨
      ((get_instructors st).1.success = false ∧
       (get_instructors st).1.message.isSome = true)) ∧
    (∀ st course_id,
      (get_course_curriculum st course_id).1.success = true ∨
      ((get_course_curriculum st course_id).1.success = false ∧
       (get_course_curriculum st course_id).1.message.isSome = true)) ∧
    (∀ st title description short_introduction category level price duration image
        is_featured chapters,
      (create_course st title description short_introduction category level price duration
        image is_featured chapters).1.success = true ∨
      ((create_course st title description short_introduction category level price duration
         image is_featured chapters).1.success = false ∧
       (create_course st title description short_introduction category level price duration
         image is_featured chapters).1.message.isSome = true)) ∧
    (∀ st course_id title description short_introduction category level price duration
        image is_featured published,
      (update_course st course_id title description short_introduction category level price
        duration image is_featured published).1.success = true ∨
      ((update_course st course_id title description short_introduction category level price
         duration image is_featured published).1.success = false ∧
       (update_course st course_id title description short_introduction category level price
         duration image is_featured published).1.message.isSome = true)) ∧
    (∀ st lesson_id course_id,
      (get_lesson_details st lesson_id course_id).1.success = true ∨
      ((get_lesson_details st lesson_id course_id).1.success = false ∧
       (get_lesson_details st lesson_id course_id).1.message.isSome = true)) ∧
    (∀ st chapter_id,
      (get_chapter_lessons st chapter_id).1.success = true ∨
      ((get_chapter_lessons st chapter_id).1.success = false ∧
       (get_chapter_lessons st chapter_id).1.message.isSome = true)) ∧
    (∀ st lesson_id course_id,
      (mark_lesson_complete st lesson_id course_id).1.success = true ∨
      ((mark_lesson_complete st lesson_id course_id).1.success = false ∧
       (mark_lesson_complete st lesson_id course_id).1.message.isSome = true)) ∧
    (∀ st class_id,
      (get_live_class st class_id).1.success = true ∨
      ((get_live_class st class_id).1.success = false ∧
       (get_live_class st class_id).1.message.isSome = true)) ∧
    (∀ st title course_id description start_time end_time duration meeting_url
        max_participants is_recorded agenda,
      (create_live_class st title course_id description start_time end_time duration
        meeting_url max_participants is_recorded agenda).1.success = true ∨
      ((create_live_class st title course_id description start_time end_time duration
         meeting_url max_participants is_recorded agenda).1.success = false ∧
       (create_live_class st title course_id description start_time end_time duration
         meeting_url max_participants is_recorded agenda).1.message.isSome = true)) :=
  ⟨login_envOk, register_envOk, refresh_envOk, forgot_envOk, get_courses_envOk,
   save_progress_envOk, get_progress_envOk, get_live_classes_envOk, join_live_class_envOk,
   logout_envOk, me_envOk, change_password_envOk, get_course_envOk, get_featured_envOk,
   get_categories_envOk, get_instructors_envOk, get_curriculum_envOk, create_course_envOk,
   update_course_envOk, get_lesson_details_envOk, get_chapter_lessons_envOk,
   mark_lesson_complete_envOk, get_live_class_envOk, create_live_class_envOk⟩

/-- A state in developer mode whose login manager authenticates a user with
no `User` record, so the login body raises inside the try. -/
def stC4 : St :=
  { st0 with
    developer_mode := true
    loginAuth := fun _ _ => some "ghost@x.com" }

/-- A state in developer mode with no `Role` documents, so registering an
instructor raises in `add_roles` after the insert. -/
def stReg : St :=
  { st0 with developer_mode := true }

/-- A course whose owner has no `User` record, so formatting it raises. -/
def courseGhost : CourseRec :=
  { name := "CG", owner := "ghost", title := none, short_introduction := none
    description := none, image := none, hero_image := none, course_image := none
    instructor := none, paid := none, course_price := none, price := none, category := none
    level := none, difficulty := none, video_link := none, duration := none, featured := none
    is_featured := none, creation := "", published := none }

/-- A state outside developer mode whose course fetch returns a course
that raises during formatting. -/
def stGC : St :=
  { st0 with
    doctypes := ["LMS Course"]
    fetchCourses := fun _ _ => [courseGhost]
    courses := [courseGhost]
    fetchFeatured := fun _ _ => [courseGhost] }

/-- A state whose session user has no `User` record, so `me` raises. -/
def stMe : St :=
  { st0 with session_user := "ghost@x.com" }

/-- A state whose framework reset call raises, so `forgot_password`
reaches its handler. -/
def stFP : St :=
  { st0 with
    users := [{ name := "bob@x.com", email := "bob@x.com", full_name := "Bob"
                user_image := none, enabled := 1, creation := "" }]
    resetRaises := fun _ => some "SMTP down" }

/-- A state whose cached lesson-progress value is not a JSON blob, so
`get_progress` raises in `json.loads`. -/
def stGP : St :=
  { st0 with
    session_user := "bob@x.com"
    cache := [⟨"lesson_progress:bob@x.com:L1", .s "zzz", 100⟩] }

/-- A state with a lesson whose chapter reference dangles, so
`get_lesson_details` raises in the unguarded chapter `get_doc`. -/
def stLD : St :=
  { st0 with
    doctypes := ["Course Lesson"]
    lessons := [{ name := "L1", chapter := "CH1", course := none, title := "T"
                  include_in_preview := none, idx := 1 }] }

/-- A state with the lesson doctype but no lesson record, so
`mark_lesson_complete` raises in the unguarded lesson `get_doc`. -/
def stML : St :=
  { st0 with
    session_user := "bob@x.com"
    doctypes := ["Course Lesson"] }

/-- A live class for the raising `join_live_class` instance. -/
def lcJL : LiveClassRec :=
  { name := "LCX", owner := "inst@x.com", creation := "", title := none
    class_title := none, description := none, course := none, instructor := none
    start_time := none, end_time := none, duration := none, status := none
    meeting_url := none, zoom_link := none, meeting_id := none, recording_url := none
    max_participants := none, current_participants := none, is_recorded := none
    record_session := none }

/-- A state whose cached attendance value is not a JSON list, so
`join_live_class` raises in `json.loads`. -/
def stJL : St :=
  { st0 with
    session_user := "bob@x.com"
    doctypes := ["LMS Live Class"]
    liveClasses := [lcJL]
    cache := [⟨"live_class_attendance:LCX", .s "zzz", 100⟩] }

/-- C4 counterexample: with the developer-mode flag set, a login whose body
raises still returns the generic message, not the detailed exception
string, contradicting the uniform developer-mode clause of the spec. -/
theorem C4_counterexample :
    stC4.developer_mode = true ∧
    (∃ stE, loginBody stC4 (some "a@b.c") (some "pw") false none =
      .error ("User ghost@x.com not found", stE)) ∧
    (login stC4 (some "a@b.c") (some "pw") false none).1 =
      { success := false, message := some "An error occurred during login" } ∧
    (login stC4 (some "a@b.c") (some "pw") false none).1.message ≠
      some "User ghost@x.com not found" :=
  ⟨rfl, ⟨_, rfl⟩, rfl, by decide⟩


/-- C4 (amended): every endpoint wraps its body in a single try/except
that logs `<context>: <exception>` to the host error log and returns an
envelope with success=false; the message is developer-mode dependent
(the exception string when the flag is set, generic otherwise) exactly for
`register`, `get_courses`, `save_progress`, `create_course`,
`update_course` and `create_live_class`, while every other endpoint —
`login` included, refuting the uniform developer-mode clause — returns a
fixed generic message regardless of the flag. -/
theorem C4_error_envelope_amended :
    (∀ st email password remember_me body e stE,
      loginBody st email password remember_me body = .error (e, stE) →
      login st email password remember_me body =
        ({ success := false, message := some "An error occurred during login" },
         logError stE ("Login error: " ++ e) "Auth API")) ∧
    (∀ st full_name email password confirm_password role body e stE,
      registerBody st full_name email password confirm_password role body = .error (e, stE) →
      register st full_name email password confirm_password role body =
        ({ success := false
           message := some (if stE.developer_mode then e
                            else "An error occurred during registration") },
         logError stE ("Registration error: " ++ e) "Auth API")) ∧
    (∀ st auth_header e stE,
      logoutBody st auth_header = .error (e, stE) →
      logout st auth_header =
        ({ success := false, message := some "An error occurred during logout" },
         logError stE ("Logout error: " ++ e) "Auth API")) ∧
    (∀ st e stE,
      meBody st = .error (e, stE) →
      me st =
        ({ success := false, message := some "An error occurred while fetching user data" },
         logError stE ("Get user error: " ++ e) "Auth API")) ∧
    (∀ st refresh_tok body e stE,
      refreshTokenBody st refresh_tok body = .error (e, stE) →
      refresh_token st refresh_tok body =
        ({ success := false, message := some "An error occurred while refreshing token" },
         logError stE ("Token refresh error: " ++ e) "Auth API")) ∧
    (∀ st email body e stE,
      forgotPasswordBody st email body = .error (e, stE) →
      forgot_password st email body =
        ({ success := false
           message := some "An error occurred while processing your request" },
         logError stE ("Forgot password error: " ++ e) "Auth API")) ∧
    (∀ st current_password new_password confirm_password body e stE,
      changePasswordBody st current_password new_password confirm_password body
        = .error (e, stE) →
      change_password st current_password new_password confirm_password body =
        ({ success := false, message := some "An error occurred while changing password" },
         logError stE ("Change password error: " ++ e) "Auth API")) ∧
    (∀ st args body e stE,
      getCoursesBody st args body = .error (e, stE) →
      get_courses st args body =
        ({ success := false
           message := some (if stE.developer_mode then e
                            else "An error occurred while fetching courses")
           courses := some []
           totalCount := some 0
           pageSize := some (pyOrInt (cint (mergeCoursesArgs args body).page_size) 10)
           currentPage := some (pyOrInt (cint (mergeCoursesArgs args body).page) 1)
           totalPages := some 0 },
         logError stE ("Get courses error: " ++ e) "Course API")) ∧
    (∀ st course_id slug e stE,
      getCourseBody st course_id slug = .error (e, stE) →
      get_course st course_id slug =
        ({ success := false
           message := some "An error occurred while fetching course details" },
         logError stE ("Get course error: " ++ e) "Course API")) ∧
    (∀ st limit e stE,
      getFeaturedBody st limit = .error (e, stE) →
      get_featured_courses st limit =
        ({ success := false
           courses := some []
           message := some "An error occurred while fetching featured courses" },
         logError stE ("Get featured courses error: " ++ e) "Course API")) ∧
    (∀ st e stE,
      getCategoriesBody st = .error (e, stE) →
      get_categories st =
        ({ success := false
           categories := some []
           message := some "An error occurred while fetching categories" },
         logError stE ("Get categories error: " ++ e) "Course API")) ∧
    (∀ st e stE,
      getInstructorsBody st = .error (e, stE) →
      get_instructors st =
        ({ success := false
           instructors := some []
           message := some "An error occurred while fetching instructors" },
         logError stE ("Get instructors error: " ++ e) "Course API")) ∧
    (∀ st course_id e stE,
      getCurriculumBody st course_id = .error (e, stE) →
      get_course_curriculum st course_id =
        ({ success := false
           curriculum := some []
           message := some "An error occurred while fetching curriculum" },
         logError stE ("Get curriculum error: " ++ e) "Course API")) ∧
    (∀ st title description short_introduction category level price duration image
        is_featured chapters e stE,
      createCourseBody st title description short_introduction category level price
        duration image is_featured chapters = .error (e, stE) →
      create_course st title description short_introduction category level price
        duration image is_featured chapters =
        ({ success := false
           message := some (if stE.developer_mode then e
                            else "An error occurred while creating the course") },
         logError stE ("Create course error: " ++ e) "Course API")) ∧
    (∀ st course_id title description short_introduction category level price duration
        image is_featured published e stE,
      updateCourseBody st course_id title description short_introduction category level
        price duration image is_featured published = .error (e, stE) →
      update_course st course_id title description short_introduction category level
        price duration image is_featured published =
        ({ success := false
           message := some (if stE.developer_mode then e
                            else "An error occurred while updating the course") },
         logError stE ("Update course error: " ++ e) "Course API")) ∧
    (∀ st lesson_id course_id e stE,
      getLessonDetailsBody st lesson_id course_id = .error (e, stE) →
      get_lesson_details st lesson_id course_id =
        ({ success := false
           message := some "An error occurred while fetching lesson details" },
         logError stE ("Get lesson details error: " ++ e) "Course API")) ∧
    (∀ st chapter_id e stE,
      getChapterLessonsBody st chapter_id = .error (e, stE) →
      get_chapter_lessons st chapter_id =
        ({ success := false
           message := some "An error occurred while fetching chapter lessons" },
         logError stE ("Get chapter lessons error: " ++ e) "Course API")) ∧
    (∀ st course_id lesson_id chapter_id progress_percent is_completed video_position
        notes e stE,
      saveProgressBody st course_id lesson_id chapter_id progress_percent is_completed
        video_position notes = .error (e, stE) →
      save_progress st course_id lesson_id chapter_id progress_percent is_completed
        video_position notes =
        ({ success := false
           message := some (if stE.developer_mode then e
                            else "An error occurred while saving progress") },
         logError stE ("Save progress error: " ++ e) "Course API")) ∧
    (∀ st course_id lesson_id e stE,
      getProgressBody st course_id lesson_id = .error (e, stE) →
      get_progress st course_id lesson_id =
        ({ success := false
           message := some "An error occurred while fetching progress" },
         logError stE ("Get progress error: " ++ e) "Course API")) ∧
    (∀ st lesson_id course_id e stE,
      markLessonCompleteBody st lesson_id course_id = .error (e, stE) →
      mark_lesson_complete st lesson_id course_id =
        ({ success := false
           message := some "An error occurred while marking lesson complete" },
         logError stE ("Mark lesson complete error: " ++ e) "Course API")) ∧
    (∀ st course_id instructor_id status upcoming_only page page_size e stE,
      getLiveClassesBody st course_id instructor_id status upcoming_only page page_size
        = .error (e, stE) →
      get_live_classes st course_id instructor_id status upcoming_only page page_size =
        ({ success := false
           liveClasses := some []
           message := some "An error occurred while fetching live classes" },
         logError stE ("Get live classes error: " ++ e) "Course API")) ∧
    (∀ st class_id e stE,
      getLiveClassBody st class_id = .error (e, stE) →
      get_live_class st class_id =
        ({ success := false
           message := some "An error occurred while fetching live class details" },
         logError stE ("Get live class error: " ++ e) "Course API")) ∧
    (∀ st title course_id description start_time end_time duration meeting_url
        max_participants is_recorded agenda e stE,
      createLiveClassBody st title course_id description start_time end_time duration
        meeting_url max_participants is_recorded agenda = .error (e, stE) →
      create_live_class st title course_id description start_time end_time duration
        meeting_url max_participants is_recorded agenda =
        ({ success := false
           message := some (if stE.developer_mode then e
                            else "An error occurred while creating live class") },
         logError stE ("Create live class error: " ++ e) "Course API")) ∧
    (∀ st class_id e stE,
      joinLiveClassBody st class_id = .error (e, stE) →
      join_live_class st class_id =
        ({ success := false
           message := some "An error occurred while joining live class" },
         logError stE ("Join live class error: " ++ e) "Course API")) := by
  refine ⟨?_, ?_, ?_, ?_, ?_, ?_, ?_, ?_, ?_, ?_, ?_, ?_, ?_, ?_, ?_, ?_, ?_, ?_, ?_,
    ?_, ?_, ?_, ?_, ?_⟩
  · intro st email password remember_me body e stE h
    unfold login pyTry
    rw [h]
  · intro st full_name email password confirm_password role body e stE h
    unfold register pyTry
    rw [h]
  · intro st auth_header e stE h
    unfold logout pyTry
    rw [h]
  · intro st e stE h
    unfold me pyTry
    rw [h]
  · intro st refresh_tok body e stE h
    unfold refresh_token pyTry
    rw [h]
  · intro st email body e stE h
    unfold forgot_password pyTry
    rw [h]
  · intro st current_password new_password confirm_password body e stE h
    unfold change_password pyTry
    rw [h]
  · intro st args body e stE h
    unfold get_courses pyTry
    rw [h]
  · intro st course_id slug e stE h
    unfold get_course pyTry
    rw [h]
  · intro st limit e stE h
    unfold get_featured_courses pyTry
    rw [h]
  · intro st e stE h
    unfold get_categories pyTry
    rw [h]
  · intro st e stE h
    unfold get_instructors pyTry
    rw [h]
  · intro st course_id e stE h
    unfold get_course_curriculum pyTry
    rw [h]
  · intro st title description short_introduction category level price duration image
      is_featured chapters e stE h
    unfold create_course pyTry
    rw [h]
  · intro st course_id title description short_introduction category level price
      duration image is_featured published e stE h
    unfold update_course pyTry
    rw [h]
  · intro st lesson_id course_id e stE h
    unfold get_lesson_details pyTry
    rw [h]
  · intro st chapter_id e stE h
    unfold get_chapter_lessons pyTry
    rw [h]
  · intro st course_id lesson_id chapter_id progress_percent is_completed video_position
      notes e stE h
    unfold save_progress pyTry
    rw [h]
  · intro st course_id lesson_id e stE h
    unfold get_progress pyTry
    rw [h]
  · intro st lesson_id course_id e stE h
    unfold mark_lesson_complete pyTry
    rw [h]
  · intro st course_id instructor_id status upcoming_only page page_size e stE h
    unfold get_live_classes pyTry
    rw [h]
  · intro st class_id e stE h
    unfold get_live_class pyTry
    rw [h]
  · intro st title course_id description start_time end_time duration meeting_url
      max_participants is_recorded agenda e stE h
    unfold create_live_class pyTry
    rw [h]
  · intro st class_id e stE h
    unfold join_live_class pyTry
    rw [h]

/-- Instances of the amended C4 statement: raising bodies of eleven
endpoints reach their handlers — a raising login returns the generic
message even in developer mode, a raising register returns the detailed
exception in developer mode, and the others return their fixed generic
messages. -/
theorem C4_error_envelope_witness :
    (login stC4 (some "a@b.c") (some "pw") false none).1.message =
      some "An error occurred during login" ∧
    (register stReg (some "Ann B") (some "ann@x.com") (some "longpass1") (some "longpass1")
      "instructor" none).1.message = some "Could not find Role: Course Creator" ∧
    (me stMe).1.message = some "An error occurred while fetching user data" ∧
    (forgot_password stFP (some "bob@x.com") none).1.message =
      some "An error occurred while processing your request" ∧
    (get_courses stGC {} none).1.message =
      some "An error occurred while fetching courses" ∧
    (get_course stGC (some "CG") none).1.message =
      some "An error occurred while fetching course details" ∧
    (get_featured_courses stGC .none).1.message =
      some "An error occurred while fetching featured courses" ∧
    (get_progress stGP (some "C1") (some "L1")).1.message =
      some "An error occurred while fetching progress" ∧
    (get_lesson_details stLD (some "L1") none).1.message =
      some "An error occurred while fetching lesson details" ∧
    (mark_lesson_complete stML (some "LX") none).1.message =
      some "An error occurred while marking lesson complete" ∧
    (join_live_class stJL (some "LCX")).1.message =
      some "An error occurred while joining live class" := by
  obtain ⟨hlogin, hreg, hlogout, hme, hrefresh, hforgot, hchange, hgcs, hgc, hfeat, hcat,
    hinst, hcur, hcc, huc, hld, hcl, hsp, hgp, hml, hglcs, hglc, hclc, hjlc⟩ :=
    C4_error_envelope_amended
  refine ⟨?_, ?_, ?_, ?_, ?_, ?_, ?_, ?_, ?_, ?_, ?_⟩
  · have hex : ∃ stE, loginBody stC4 (some "a@b.c") (some "pw") false none =
        .error ("User ghost@x.com not found", stE) := ⟨_, rfl⟩
    obtain ⟨stE, h⟩ := hex
    rw [hlogin stC4 (some "a@b.c") (some "pw") false none _ _ h]
  · have hex : ∃ stE, registerBody stReg (some "Ann B") (some "ann@x.com") (some "longpass1")
        (some "longpass1") "instructor" none =
        .error ("Could not find Role: Course Creator", stE) ∧ stE.developer_mode = true :=
      ⟨_, rfl, rfl⟩
    obtain ⟨stE, h, hdev⟩ := hex
    rw [hreg stReg (some "Ann B") (some "ann@x.com") (some "longpass1") (some "longpass1")
      "instructor" none _ _ h]
    simp [hdev]
  · have hex : ∃ stE, meBody stMe = .error ("User ghost@x.com not found", stE) := ⟨_, rfl⟩
    obtain ⟨stE, h⟩ := hex
    rw [hme stMe _ _ h]
  · have hex : ∃ stE, forgotPasswordBody stFP (some "bob@x.com") none =
        .error ("SMTP down", stE) := ⟨_, rfl⟩
    obtain ⟨stE, h⟩ := hex
    rw [hforgot stFP (some "bob@x.com") none _ _ h]
  · have hex : ∃ e stE, getCoursesBody stGC {} none = .error (e, stE) ∧
        stE.developer_mode = false := ⟨_, _, rfl, rfl⟩
    obtain ⟨e, stE, h, hdev⟩ := hex
    rw [hgcs stGC {} none _ _ h]
    simp [hdev]
  · have hex : ∃ stE, getCourseBody stGC (some "CG") none =
        .error ("User ghost not found", stE) := ⟨_, rfl⟩
    obtain ⟨stE, h⟩ := hex
    rw [hgc stGC (some "CG") none _ _ h]
  · have hex : ∃ stE, getFeaturedBody stGC .none =
        .error ("User ghost not found", stE) := ⟨_, rfl⟩
    obtain ⟨stE, h⟩ := hex
    rw [hfeat stGC .none _ _ h]
  · have hex : ∃ stE, getProgressBody stGP (some "C1") (some "L1") =
        .error ("Expecting value: line 1 column 1 (char 0)", stE) := ⟨_, rfl⟩
    obtain ⟨stE, h⟩ := hex
    rw [hgp stGP (some "C1") (some "L1") _ _ h]
  · have hex : ∃ stE, getLessonDetailsBody stLD (some "L1") none =
        .error ("Course Chapter CH1 not found", stE) := ⟨_, rfl⟩
    obtain ⟨stE, h⟩ := hex
    rw [hld stLD (some "L1") none _ _ h]
  · have hex : ∃ stE, markLessonCompleteBody stML (some "LX") none =
        .error ("Course Lesson LX not found", stE) := ⟨_, rfl⟩
    obtain ⟨stE, h⟩ := hex
    rw [hml stML (some "LX") none _ _ h]
  · have hex : ∃ stE, joinLiveClassBody stJL (some "LCX") =
        .error ("Expecting value: line 1 column 1 (char 0)", stE) := ⟨_, rfl⟩
    obtain ⟨stE, h⟩ := hex
    rw [hjlc stJL (some "LCX") _ _ h]
